import Mathlib

/-!
# HWPeripheralDRM (sdm/libs/dal/hw_peripheral_drm.cpp)

A shallow embedding of the peripheral display device of the SDM display HAL:
the destination-scaler allocator, the destination-scaler cache, and the
commit / power / secure-session entry points, followed by the properties
proved about them.

Conventions.
* Member names are those of the C++ class.
* 32-bit unsigned members are natural numbers; an addition that the C++
  performs in `uint32_t` is followed by `% 2 ^ 32`.
* Routines that are called here but defined elsewhere (the `HWDeviceDRM`
  base class, the DRM atomic interface) are not interpreted: a call is
  appended to `log`, and its result and its effect on the base-class members
  come from the environment `Env`; so do the values it leaves in
  `bit_clk_rate_` and `pending_power_state_`, two members that this file
  assigns once each and tests against values it never assigns.
-/

namespace sdm

/-! ## Plain data -/

/-- Result codes returned or forwarded by this file. -/
inductive DisplayError
  | kErrorNone
  | kErrorUndefined
  | kErrorNotSupported
  | kErrorParameters
  | kErrorDeferred
  | kErrorHardware
  | kErrorFileDescriptor
  deriving DecidableEq, Repr

/-- Layer-mixer split configuration (`mixer_attributes_.split_type`). -/
inductive SplitType
  | kNoSplit
  | kDualSplit
  | kQuadSplit
  deriving DecidableEq, Repr

/-- Panel drive mode (`hw_panel_info_.mode`, argument of `SetDisplayMode`). -/
inductive HWDisplayMode
  | kModeDefault
  | kModeVideo
  | kModeCommand
  deriving DecidableEq, Repr

/-- Power state requested by the client (`pending_power_state_`). -/
inductive HWPowerState
  | kPowerStateNone
  | kPowerStateOff
  | kPowerStateOn
  | kPowerStateDoze
  | kPowerStateDozeSuspend
  deriving DecidableEq, Repr

/-- Last power mode programmed by the base class (`last_power_mode_`). -/
inductive DRMPowerMode
  | ON
  | DOZE
  | DOZE_SUSPEND
  | OFF
  deriving DecidableEq, Repr

/-- Trusted-UI session state (`tui_state_`). -/
inductive TUIState
  | kTUIStateNone
  | kTUIStateInProgress
  | kTUIStateStart
  | kTUIStateEnd
  deriving DecidableEq, Repr

/-- Events accepted by `HandleSecureEvent`; `kSecureEventMax` stands for every
value that reaches the `default:` label of the switch. -/
inductive SecureEvent
  | kTUITransitionPrepare
  | kTUITransitionUnPrepare
  | kTUITransitionStart
  | kTUITransitionEnd
  | kSecureDisplayStart
  | kSecureDisplayEnd
  | kSecureEventMax
  deriving DecidableEq, Repr

/-- Self-refresh (system cache) state (`self_refresh_state_`). -/
inductive SelfRefreshState
  | kSelfRefreshNone
  | kSelfRefreshReadAlloc
  | kSelfRefreshWriteAlloc
  | kSelfRefreshDisableReadAlloc
  deriving DecidableEq, Repr

/-- Idle power collapse request staged for the next commit (`idle_pc_state_`). -/
inductive DRMIdlePCState
  | NONE
  | ENABLE
  | DISABLE
  deriving DecidableEq, Repr

/-- Bits of `topology_control_`. -/
inductive DRMTopologyControl
  | DSPP
  | DEST_SCALER
  deriving DecidableEq, Repr

/-- Arguments of `CRTC_SET_CACHE_STATE` / `CONNECTOR_SET_CACHE_STATE`. -/
inductive DRMCacheState
  | DISABLED
  | ENABLED
  deriving DecidableEq, Repr

/-- Argument of `CRTC_SET_VM_REQ_STATE`. -/
inductive DRMVMRequestState
  | NONE
  | RELEASE
  | ACQUIRE
  deriving DecidableEq, Repr

/-- Feature identifiers that `SetDppsFeature` distinguishes; `other n` is any
other identifier. -/
inductive DppsFeatureID
  | kFeatureAd4Roi
  | kFeatureLtmHistCtrl
  | kFeatureAbaHistCtrl
  | other (n : Nat)
  deriving DecidableEq, Repr

/-- Object a property write is addressed to (`token_.crtc_id`,
`token_.conn_id`, `cwb_config_.token.conn_id`). -/
inductive DRMObjId
  | crtc_id
  | conn_id
  | cwb_conn_id
  deriving DecidableEq, Repr

/-- The scaler block programmed by `hw_scale_->SetScaler`: the two members
this file reads (`scaler_v2.enable`, `scaler_v2.de.enable`) and the remaining
bytes of the structure read as one number (`0` when they are all zero).
`memcmp` of two such structures is `0` exactly when they are equal. -/
structure SDEScaler where
  enable : Nat := 0
  de_enable : Nat := 0
  rest : Nat := 0
  deriving DecidableEq, Repr

/-- Scale request of one destination-scaler block (`HWScaleData`); its layout
is not used here. -/
structure HWScaleData where
  raw : Nat
  deriving DecidableEq, Repr

/-- Per-block request (`HWDestScaleInfo`). -/
structure HWDestScaleInfo where
  scale_data : HWScaleData
  scale_update : Bool
  mixer_width : Nat
  mixer_height : Nat
  deriving DecidableEq, Repr

/-- The request map `dest_scale_info_map` (`std::map<uint32_t, HWDestScaleInfo *>`):
an association list with pairwise distinct keys. -/
structure DestScaleInfoMap where
  entries : List (Nat × HWDestScaleInfo)
  nodup : (entries.map Prod.fst).Nodup
  deriving DecidableEq

/-- Value of `map.find(i)`: the entry stored under key `i`, if any. -/
def DestScaleInfoMap.find (m : DestScaleInfoMap) (i : Nat) : Option HWDestScaleInfo :=
  m.entries.lookup i

/-- Value of `map.size()`. -/
def DestScaleInfoMap.size (m : DestScaleInfoMap) : Nat :=
  m.entries.length

/-- The part of `HWLayersInfo` that this file reads. -/
structure HWLayersInfo where
  dest_scale_info_map : DestScaleInfoMap
  deriving DecidableEq

/-- Quality-of-service request forwarded to the base class; not inspected. -/
structure HWQosData where
  raw : Nat
  deriving DecidableEq, Repr

/-- One entry of `dest_scalar_cache_`. -/
structure DestScalarCache where
  scalar_data : SDEScaler := {}
  flags : Nat := 0
  deriving DecidableEq, Repr

/-- One entry of `sde_dest_scalar_data_.ds_cfg`; `scaler_cfg` holds the index
of the `scalar_data_` slot whose address the C++ stores. -/
structure sde_drm_dest_scaler_cfg where
  flags : Nat := 0
  index : Nat := 0
  lm_width : Nat := 0
  lm_height : Nat := 0
  scaler_cfg : Nat := 0
  deriving DecidableEq, Repr

/-- The member `sde_dest_scalar_data_`. -/
structure sde_drm_dest_scaler_data where
  num_dest_scaler : Nat := 0
  ds_cfg : Nat → sde_drm_dest_scaler_cfg := fun _ => {}

/-- The member `ad4_roi_cfg_`. -/
structure drm_msm_ad4_roi_cfg where
  h_x : Nat := 0
  h_y : Nat := 0
  v_x : Nat := 0
  v_y : Nat := 0
  factor_in : Nat := 0
  factor_out : Nat := 0
  deriving DecidableEq, Repr

/-- Value passed with `DPPS_CACHE_FEATURE`: a number, or the address of the
member `ad4_roi_cfg_`. -/
inductive DppsValue
  | raw (v : Nat)
  | ad4_roi_cfg_ptr
  deriving DecidableEq, Repr

/-- Flag bit of `sde_drm_dest_scaler_cfg.flags` (sde_drm.h). -/
def SDE_DRM_DESTSCALER_ENABLE : Nat := 0x1

/-- Flag bit of `sde_drm_dest_scaler_cfg.flags` (sde_drm.h). -/
def SDE_DRM_DESTSCALER_SCALE_UPDATE : Nat := 0x2

/-- Flag bit of `sde_drm_dest_scaler_cfg.flags` (sde_drm.h). -/
def SDE_DRM_DESTSCALER_ENHANCER_UPDATE : Nat := 0x4

/-- Flag bit of `sde_drm_dest_scaler_cfg.flags` (sde_drm.h). -/
def SDE_DRM_DESTSCALER_PU_ENABLE : Nat := 0x8

/-! ## Calls that leave this file -/

/-- Property writes staged through `drm_atomic_intf_->Perform`. -/
inductive DRMOps
  | CRTC_SET_DEST_SCALER_CONFIG
  | CRTC_SET_IDLE_PC_STATE (st : DRMIdlePCState)
  | CRTC_SET_CACHE_STATE (st : DRMCacheState)
  | CONNECTOR_SET_CACHE_STATE (st : DRMCacheState)
  | CRTC_SET_VM_REQ_STATE (st : DRMVMRequestState)
  | DPPS_CACHE_FEATURE (obj : DRMObjId) (feature : DppsFeatureID) (value : DppsValue)
  | CONNECTOR_SET_QSYNC_MODE_NONE
  | PLANES_RESET_CACHE
  | CRTC_RESET_CACHE
  deriving DecidableEq, Repr

/-- Routines of the class hierarchy that are called here and defined in
another file. `SetTopology drm_topology index` is the call
`SetTopology(drm_topology, &display_attributes_[index].topology)`. -/
inductive BaseCall
  | Validate (hw_layers_info : HWLayersInfo)
  | Commit (hw_layers_info : HWLayersInfo)
  | Flush
  | PowerOn (qos : HWQosData)
  | PowerOff (teardown : Bool)
  | Doze (qos : HWQosData)
  | DozeSuspend (qos : HWQosData)
  | SetDisplayMode (mode : HWDisplayMode)
  | SetRefreshRate (refresh_rate : Nat)
  | SetDisplayAttributes (index : Nat)
  | SetDisplaySwitchMode (index : Nat)
  | SetTopology (drm_topology : Nat) (index : Nat)
  | SetupConcurrentWriteback (hw_layers_info : HWLayersInfo) (validate : Bool)
  | PostCommitConcurrentWriteback
  | SetQOSData (qos : HWQosData)
  | SetIdlePCState
  | SetTUIState
  | MarkPanelFeatureForNullCommit
  deriving DecidableEq

/-- One entry of the call record. -/
inductive Call
  | perform (op : DRMOps)
  | base (c : BaseCall)
  deriving DecidableEq

/-! ## Object state -/

/-- Timing of one display mode (`DRMModeInfo::mode`): the members this file
reads. -/
structure drmModeModeInfo where
  hdisplay : Nat := 0
  vdisplay : Nat := 0
  vrefresh : Nat := 0
  deriving DecidableEq, Repr

/-- One sub-mode of a display mode (`DRMSubModeInfo`): the members this file
reads. -/
structure DRMSubModeInfo where
  dyn_bitclk_list : List Nat := []
  panel_compression_mode : Nat := 0
  topology : Nat := 0
  deriving DecidableEq, Repr

/-- One entry of `connector_info_.modes` (`DRMModeInfo`): the members this
file reads or assigns. -/
structure DRMModeInfo where
  mode : drmModeModeInfo := {}
  sub_modes : List DRMSubModeInfo := []
  curr_submode_index : Nat := 0
  curr_compression_mode : Nat := 0
  curr_bit_clk_rate : Nat := 0
  cur_panel_mode : Nat := 0
  qsync_min_fps : Nat := 0
  deriving DecidableEq, Repr

/-- The scaler converter behind the pointer `hw_scale_`: `SetScaler` receives
the request and the slot `scalar_data_[i]` it writes through. -/
structure HWScale where
  SetScaler : HWScaleData → SDEScaler → SDEScaler

/-- Members of the base class `HWDeviceDRM` that this file reads and never
assigns; they are maintained by the base-class routines.
`dyn_bitclk_support` is `hw_panel_info_.dyn_bitclk_support`, and
`display_attributes_topology` holds the member `topology` of each entry of
`display_attributes_`, which this file only hands to `SetTopology`. -/
structure HWDeviceDRM where
  hw_dest_scalar_info_count : Nat
  dyn_bitclk_support : Bool
  display_attributes_topology : List Nat
  split_type : SplitType
  partial_update : Bool
  mode : HWDisplayMode
  first_cycle_ : Bool
  switch_mode_valid_ : Bool
  current_mode_index_ : Nat
  cmd_mode_index_ : Nat
  video_mode_index_ : Nat
  last_power_mode_ : DRMPowerMode
  vrefresh_ : Nat
  drm_atomic_intf_ : Bool
  hw_scale_ : Option HWScale

/-- State of one `HWPeripheralDRM` object: the base-class members in `base`,
every member that this file assigns, and `log`, the calls that left this file
so far, oldest first. -/
structure HWPeripheralDRM where
  base : HWDeviceDRM
  log : List Call := []
  dest_scaler_blocks_used_ : Nat := 0
  scalar_data_ : List SDEScaler := []
  dest_scalar_cache_ : List DestScalarCache := []
  mixer_dest_scaler_blocks_used : Nat := 0
  topology_control_ : List DRMTopologyControl := []
  sde_dest_scalar_data_ : sde_drm_dest_scaler_data := {}
  needs_ds_update_ : Bool := false
  synchronous_commit_ : Bool := false
  active_ : Bool := false
  doze_poms_switch_done_ : Bool := false
  pending_poms_switch_ : Bool := false
  idle_pc_state_ : DRMIdlePCState := DRMIdlePCState.NONE
  idle_pc_enabled_ : Bool := true
  self_refresh_state_ : SelfRefreshState := SelfRefreshState.kSelfRefreshNone
  tui_state_ : TUIState := TUIState.kTUIStateNone
  secure_display_active_ : Bool := false
  pending_power_state_ : HWPowerState := HWPowerState.kPowerStateNone
  ltm_hist_en_ : Bool := false
  aba_hist_en_ : Bool := false
  ad4_roi_cfg_ : drm_msm_ad4_roi_cfg := {}
  bitclk_rates_ : List Nat := []
  hw_panel_info_bitclk_rates : List Nat := []
  bit_clk_rate_ : Nat := 0
  connector_info_modes : List DRMModeInfo := []
  panel_compression_changed_ : Nat := 0

/-- What the code outside this file does when called: the result of the call
and the base-class members it leaves behind, both as a function of the whole
object state at the call; `bit_clk_rate` and `pending_power_state` are the
values of `bit_clk_rate_` and `pending_power_state_` that the call leaves
(this file tests both members against values it never assigns, lines 450, 628
and 691, so the routines outside it write them); `tui` is the session state
`SetTUIState` leaves; `GetSupportedBitClkRate` is the base-class query of that name (mode index and
requested rate to nearest supported rate); the two panel-mode flags are the
constants of those names, which a kernel header defines. -/
structure Env where
  call : HWPeripheralDRM → BaseCall → DisplayError × HWDeviceDRM
  bit_clk_rate : HWPeripheralDRM → BaseCall → Nat
  pending_power_state : HWPeripheralDRM → BaseCall → HWPowerState
  tui : HWPeripheralDRM → TUIState
  GetSupportedBitClkRate : HWPeripheralDRM → Nat → Nat → Nat
  DRM_MODE_FLAG_CMD_MODE_PANEL : Nat
  DRM_MODE_FLAG_VID_MODE_PANEL : Nat

/-- A call of a routine defined elsewhere: record it, take its result, the
base-class members, the queued bit-clock rate and the pending power state from
the environment. -/
def invoke (env : Env) (s : HWPeripheralDRM) (c : BaseCall) : DisplayError × HWPeripheralDRM :=
  let r := env.call s c
  (r.1,
    { s with
      base := r.2
      log := s.log ++ [Call.base c]
      bit_clk_rate_ := env.bit_clk_rate s c
      pending_power_state_ := env.pending_power_state s c })

/-- The call `drm_atomic_intf_->Perform(op, ...)`. -/
def Perform (s : HWPeripheralDRM) (op : DRMOps) : HWPeripheralDRM :=
  { s with log := s.log ++ [Call.perform op] }

/-- The vector operation `v.resize(n)`: keep the first `n` elements and fill
up with value-initialised ones. -/
def resize {α : Type} (v : List α) (n : Nat) (dflt : α) : List α :=
  v.take n ++ List.replicate (n - v.length) dflt

/-! ## Destination-scaler allocation -/

/-- Number of blocks an instance asks for (lines 88-93). -/
def requestedBlocks (t : SplitType) : Nat :=
  if SplitType.kQuadSplit = t then 4
  else if SplitType.kDualSplit = t then 2
  else 1

/-- The routine `HWPeripheralDRM::InitDestScaler`. The static member
`hw_dest_scaler_blocks_used_`, shared by all instances, is passed in and
returned next to the object state. The block counters are 32-bit unsigned,
like the loop indices that run up to them (line 280), so the sum at line 95
and the increment at line 97 are taken modulo `2 ^ 32`. -/
def InitDestScaler (hw_dest_scaler_blocks_used_ : Nat) (s : HWPeripheralDRM) :
    Nat × HWPeripheralDRM :=
  let r :=
    if s.base.hw_dest_scalar_info_count ≠ 0 then
      let requested := requestedBlocks s.base.split_type
      let fits : Bool :=
        decide (s.base.hw_dest_scalar_info_count ≥
          (hw_dest_scaler_blocks_used_ + requested) % 2 ^ 32)
      let hw_used :=
        if fits then (hw_dest_scaler_blocks_used_ + requested) % 2 ^ 32
        else hw_dest_scaler_blocks_used_
      let used := if fits then requested else 0
      (hw_used,
        { s with
          dest_scaler_blocks_used_ := used
          scalar_data_ := resize s.scalar_data_ used {}
          dest_scalar_cache_ := resize s.dest_scalar_cache_ used {}
          mixer_dest_scaler_blocks_used := used })
    else (hw_dest_scaler_blocks_used_, s)
  (r.1,
    { r.2 with
      topology_control_ :=
        if r.2.dest_scaler_blocks_used_ ≠ 0 then
          [DRMTopologyControl.DSPP, DRMTopologyControl.DEST_SCALER]
        else [DRMTopologyControl.DSPP] })

/-- A run of `InitDestScaler` calls by fresh instances that all report the
block count `capacity` and differ in their split type: the shared counter
after the run and the block counts granted, in call order. -/
def initAll (mk : SplitType → HWPeripheralDRM) : Nat → List SplitType → Nat × List Nat
  | used, [] => (used, [])
  | used, t :: ts =>
    let r := InitDestScaler used (mk t)
    let rest := initAll mk r.1 ts
    (rest.1, r.2.dest_scaler_blocks_used_ :: rest.2)

/-! ## Destination-scaler cache -/

/-- The flags word assembled at lines 292-304. -/
def destScalerFlags (scale : SDEScaler) (scale_update partial_update : Bool) : Nat :=
  let flags := 0
  let flags := if scale.enable ≠ 0 then flags ||| SDE_DRM_DESTSCALER_ENABLE else flags
  let flags := if scale.de_enable ≠ 0 then flags ||| SDE_DRM_DESTSCALER_ENHANCER_UPDATE else flags
  let flags := if scale_update then flags ||| SDE_DRM_DESTSCALER_SCALE_UPDATE else flags
  let flags := if partial_update then flags ||| SDE_DRM_DESTSCALER_PU_ENABLE else flags
  flags

/-- One iteration of the loop of `SetDestScalarData` (lines 281-313), for
block index `i`. Vector elements are read with `getD` and written with `set`;
the C++ is defined only when `i` is inside both vectors. -/
def setDestScalarBlock (hw_scale : HWScale) (hw_layer_info : HWLayersInfo)
    (s : HWPeripheralDRM) (i : Nat) : HWPeripheralDRM :=
  match hw_layer_info.dest_scale_info_map.find i with
  | none => s
  | some dest_scale_info =>
    let scale := hw_scale.SetScaler dest_scale_info.scale_data (s.scalar_data_.getD i {})
    let flags := destScalerFlags scale dest_scale_info.scale_update s.base.partial_update
    let dest_scalar_data : sde_drm_dest_scaler_cfg :=
      { flags := flags
        index := i
        lm_width := dest_scale_info.mixer_width
        lm_height := dest_scale_info.mixer_height
        scaler_cfg := i }
    let cached := s.dest_scalar_cache_.getD i {}
    { s with
      scalar_data_ := s.scalar_data_.set i scale
      sde_dest_scalar_data_ :=
        { s.sde_dest_scalar_data_ with
          ds_cfg := Function.update s.sde_dest_scalar_data_.ds_cfg i dest_scalar_data }
      needs_ds_update_ :=
        if cached.scalar_data ≠ scale ∨ cached.flags ≠ flags then true
        else s.needs_ds_update_ }

/-- The routine `HWPeripheralDRM::SetDestScalarData`. -/
def SetDestScalarData (s : HWPeripheralDRM) (hw_layer_info : HWLayersInfo) : HWPeripheralDRM :=
  match s.base.hw_scale_ with
  | none => s
  | some hw_scale =>
    if s.dest_scaler_blocks_used_ = 0 then s
    else
      let s1 := (List.range s.dest_scaler_blocks_used_).foldl
        (setDestScalarBlock hw_scale hw_layer_info) s
      if s1.needs_ds_update_ then
        Perform
          { s1 with
            sde_dest_scalar_data_ :=
              { s1.sde_dest_scalar_data_ with
                num_dest_scaler := hw_layer_info.dest_scale_info_map.size % 2 ^ 32 } }
          DRMOps.CRTC_SET_DEST_SCALER_CONFIG
      else s1

/-- One iteration of the loop of `CacheDestScalarData` (lines 327-328). -/
def cacheDestScalarBlock (s : HWPeripheralDRM) (i : Nat) : HWPeripheralDRM :=
  { s with
    dest_scalar_cache_ := s.dest_scalar_cache_.set i
      { scalar_data := s.scalar_data_.getD i {}
        flags := (s.sde_dest_scalar_data_.ds_cfg i).flags } }

/-- The routine `HWPeripheralDRM::CacheDestScalarData`. -/
def CacheDestScalarData (s : HWPeripheralDRM) : HWPeripheralDRM :=
  if s.needs_ds_update_ then
    { (List.range s.sde_dest_scalar_data_.num_dest_scaler).foldl cacheDestScalarBlock s with
      needs_ds_update_ := false }
  else s

/-- The routine `HWPeripheralDRM::ResetDestScalarCache`. -/
def ResetDestScalarCache (s : HWPeripheralDRM) : HWPeripheralDRM :=
  (List.range s.scalar_data_.length).foldl
    (fun st j => { st with dest_scalar_cache_ := st.dest_scalar_cache_.set j {} }) s

/-- One iteration of the loop of `CacheDestScalarData` with the vector
accesses checked: `dest_scalar_cache_[i]` and `scalar_data_[i]`
(lines 327-328) are defined only for `i` inside the vectors; `none`
otherwise. -/
def cacheDestScalarBlockChecked (s : HWPeripheralDRM) (i : Nat) : Option HWPeripheralDRM :=
  if i < s.dest_scalar_cache_.length ∧ i < s.scalar_data_.length then
    some (cacheDestScalarBlock s i)
  else none

/-- The routine `HWPeripheralDRM::CacheDestScalarData` with the vector
accesses checked: `none` as soon as one index of the loop is outside
`dest_scalar_cache_` or `scalar_data_`. -/
def CacheDestScalarDataChecked (s : HWPeripheralDRM) : Option HWPeripheralDRM :=
  if s.needs_ds_update_ then
    ((List.range s.sde_dest_scalar_data_.num_dest_scaler).foldlM cacheDestScalarBlockChecked
      s).map fun t => { t with needs_ds_update_ := false }
  else some s

/-- One iteration of the loop of `ResetDestScalarCache` with the vector
access checked: `dest_scalar_cache_[j]` (line 271) is defined only for `j`
inside the vector. -/
def resetDestScalarBlockChecked (s : HWPeripheralDRM) (j : Nat) : Option HWPeripheralDRM :=
  if j < s.dest_scalar_cache_.length then
    some { s with dest_scalar_cache_ := s.dest_scalar_cache_.set j {} }
  else none

/-- The routine `HWPeripheralDRM::ResetDestScalarCache` with the vector access
checked. -/
def ResetDestScalarCacheChecked (s : HWPeripheralDRM) : Option HWPeripheralDRM :=
  (List.range s.scalar_data_.length).foldlM resetDestScalarBlockChecked s

/-! ## Property writes that depend on the arbiter state -/

/-- The routine `HWPeripheralDRM::SetSelfRefreshState`. -/
def SetSelfRefreshState (s : HWPeripheralDRM) : HWPeripheralDRM :=
  if s.self_refresh_state_ ≠ SelfRefreshState.kSelfRefreshNone then
    if s.self_refresh_state_ = SelfRefreshState.kSelfRefreshReadAlloc then
      Perform s (DRMOps.CRTC_SET_CACHE_STATE DRMCacheState.ENABLED)
    else if s.self_refresh_state_ = SelfRefreshState.kSelfRefreshWriteAlloc then
      Perform s (DRMOps.CONNECTOR_SET_CACHE_STATE DRMCacheState.ENABLED)
    else if s.self_refresh_state_ = SelfRefreshState.kSelfRefreshDisableReadAlloc then
      Perform s (DRMOps.CRTC_SET_CACHE_STATE DRMCacheState.DISABLED)
    else s
  else s

/-- The two histogram writes that follow a VM request in `SetVMReqState`. -/
def histCtrlWrites (s : HWPeripheralDRM) (v : Nat) : HWPeripheralDRM :=
  let s := if s.ltm_hist_en_ then
      Perform s (DRMOps.DPPS_CACHE_FEATURE DRMObjId.crtc_id DppsFeatureID.kFeatureLtmHistCtrl
        (DppsValue.raw v))
    else s
  if s.aba_hist_en_ then
    Perform s (DRMOps.DPPS_CACHE_FEATURE DRMObjId.crtc_id DppsFeatureID.kFeatureAbaHistCtrl
      (DppsValue.raw v))
  else s

/-- The routine `HWPeripheralDRM::SetVMReqState`. -/
def SetVMReqState (s : HWPeripheralDRM) : HWPeripheralDRM :=
  if s.tui_state_ = TUIState.kTUIStateStart then
    histCtrlWrites (Perform s (DRMOps.CRTC_SET_VM_REQ_STATE DRMVMRequestState.RELEASE)) 0
  else if s.tui_state_ = TUIState.kTUIStateEnd then
    histCtrlWrites (Perform s (DRMOps.CRTC_SET_VM_REQ_STATE DRMVMRequestState.ACQUIRE)) 1
  else if s.tui_state_ = TUIState.kTUIStateNone then
    Perform s (DRMOps.CRTC_SET_VM_REQ_STATE DRMVMRequestState.NONE)
  else s

/-- The routine `HWPeripheralDRM::ResetPropertyCache`. -/
def ResetPropertyCache (s : HWPeripheralDRM) : HWPeripheralDRM :=
  Perform (Perform s DRMOps.PLANES_RESET_CACHE) DRMOps.CRTC_RESET_CACHE

/-- The call `SetTUIState()`: defined in another file; it is the one outside
routine that rewrites `tui_state_`. -/
def SetTUIState (env : Env) (s : HWPeripheralDRM) : HWPeripheralDRM :=
  { (invoke env s BaseCall.SetTUIState).2 with tui_state_ := env.tui s }

/-- The routine `HWPeripheralDRM::ControlIdlePowerCollapse`. -/
def ControlIdlePowerCollapse (s : HWPeripheralDRM) (enable : Bool) (_synchronous : Bool) :
    DisplayError × HWPeripheralDRM :=
  if enable = s.idle_pc_enabled_ then (DisplayError.kErrorNone, s)
  else
    (DisplayError.kErrorNone,
      { s with
        idle_pc_state_ := if enable then DRMIdlePCState.ENABLE else DRMIdlePCState.DISABLE
        idle_pc_enabled_ := enable })

/-- The routine `HWPeripheralDRM::EnableSelfRefresh`. -/
def EnableSelfRefresh (s : HWPeripheralDRM) (self_refresh_state : SelfRefreshState) :
    DisplayError × HWPeripheralDRM :=
  if self_refresh_state ≠ SelfRefreshState.kSelfRefreshNone then
    (DisplayError.kErrorNone, { s with self_refresh_state_ := self_refresh_state })
  else (DisplayError.kErrorNone, s)

/-! ## Frame entry points -/

/-- The routine `HWPeripheralDRM::Flush`. -/
def Flush (env : Env) (s : HWPeripheralDRM) : DisplayError × HWPeripheralDRM :=
  let r := invoke env s BaseCall.Flush
  if r.1 ≠ DisplayError.kErrorNone then r
  else (DisplayError.kErrorNone, ResetDestScalarCache r.2)

/-- The routine `HWPeripheralDRM::Validate`. -/
def Validate (env : Env) (s : HWPeripheralDRM) (hw_layers_info : HWLayersInfo) :
    DisplayError × HWPeripheralDRM :=
  let s := SetDestScalarData s hw_layers_info
  let s := (invoke env s BaseCall.SetIdlePCState).2
  let s := SetSelfRefreshState s
  let s := SetVMReqState s
  invoke env s (BaseCall.Validate hw_layers_info)

/-- The self-refresh step at the end of `Commit` (lines 258-265). -/
def advanceSelfRefresh (st : SelfRefreshState) : SelfRefreshState :=
  if st ≠ SelfRefreshState.kSelfRefreshNone then
    if st = SelfRefreshState.kSelfRefreshReadAlloc then
      SelfRefreshState.kSelfRefreshDisableReadAlloc
    else if st = SelfRefreshState.kSelfRefreshDisableReadAlloc ∨
        st = SelfRefreshState.kSelfRefreshWriteAlloc then
      SelfRefreshState.kSelfRefreshNone
    else st
  else st

/-- The part of `Commit` after the error check (lines 238-266). The release
fence stored in the caller's output buffer is not part of the object state. -/
def postCommit (env : Env) (s : HWPeripheralDRM) : HWPeripheralDRM :=
  let s := CacheDestScalarData s
  let s := (invoke env s BaseCall.PostCommitConcurrentWriteback).2
  let s := { s with synchronous_commit_ := false, active_ := true }
  let s :=
    if s.pending_poms_switch_ then
      let s := (invoke env s (BaseCall.SetDisplayMode HWDisplayMode.kModeCommand)).2
      { s with
        hw_panel_info_bitclk_rates := s.bitclk_rates_
        doze_poms_switch_done_ := true
        pending_poms_switch_ := false }
    else s
  let s := { s with idle_pc_state_ := DRMIdlePCState.NONE }
  { s with self_refresh_state_ := advanceSelfRefresh s.self_refresh_state_ }

/-- The part of `Commit` up to the executor call (lines 223-230). -/
def preCommit (env : Env) (s : HWPeripheralDRM) (hw_layers_info : HWLayersInfo) :
    HWPeripheralDRM :=
  let s := SetDestScalarData s hw_layers_info
  let s := (invoke env s (BaseCall.SetupConcurrentWriteback hw_layers_info false)).2
  let s := (invoke env s BaseCall.SetIdlePCState).2
  let s := SetSelfRefreshState s
  SetVMReqState s

/-- The routine `HWPeripheralDRM::Commit`. -/
def Commit (env : Env) (s : HWPeripheralDRM) (hw_layers_info : HWLayersInfo) :
    DisplayError × HWPeripheralDRM :=
  let r := invoke env (preCommit env s hw_layers_info) (BaseCall.Commit hw_layers_info)
  if r.1 ≠ DisplayError.kErrorNone then r
  else (r.1, postCommit env r.2)

/-! ## Power transitions -/

/-- The POMS revert inside `PowerOn` (lines 517-521). -/
def powerOnRevert (env : Env) (s : HWPeripheralDRM) : HWPeripheralDRM :=
  if s.base.switch_mode_valid_ ∧ s.doze_poms_switch_done_ ∧
      s.base.current_mode_index_ = s.base.cmd_mode_index_ then
    let s := (invoke env s (BaseCall.SetDisplayMode HWDisplayMode.kModeVideo)).2
    { s with hw_panel_info_bitclk_rates := s.bitclk_rates_, doze_poms_switch_done_ := false }
  else s

/-- The property writes of `PowerOn` that precede the base-class call
(lines 523-532). -/
def powerOnStage (s : HWPeripheralDRM) : HWPeripheralDRM :=
  let s := if ¬ s.idle_pc_enabled_ then
      Perform s (DRMOps.CRTC_SET_IDLE_PC_STATE DRMIdlePCState.ENABLE)
    else s
  if s.sde_dest_scalar_data_.num_dest_scaler ≠ 0 then
    { Perform s DRMOps.CRTC_SET_DEST_SCALER_CONFIG with needs_ds_update_ := true }
  else s

/-- The routine `HWPeripheralDRM::PowerOn`. -/
def PowerOn (env : Env) (s : HWPeripheralDRM) (qos_data : HWQosData) :
    DisplayError × HWPeripheralDRM :=
  if ¬ s.base.drm_atomic_intf_ then (DisplayError.kErrorUndefined, s)
  else if s.base.first_cycle_ ∨ s.tui_state_ ≠ TUIState.kTUIStateNone then
    (DisplayError.kErrorDeferred, { s with pending_power_state_ := HWPowerState.kPowerStateOn })
  else
    let s := SetVMReqState s
    let s := powerOnRevert env s
    let s := powerOnStage s
    let r := invoke env s (BaseCall.PowerOn qos_data)
    if r.1 ≠ DisplayError.kErrorNone then r
    else
      let s := { r.2 with
        idle_pc_state_ := DRMIdlePCState.NONE
        idle_pc_enabled_ := true
        pending_poms_switch_ := false
        active_ := true }
      let s := SetTUIState env s
      (DisplayError.kErrorNone, CacheDestScalarData s)

/-- The part of `PowerOff` that follows the optional flush (lines 564-577). -/
def powerOffTail (env : Env) (s : HWPeripheralDRM) (teardown : Bool) :
    DisplayError × HWPeripheralDRM :=
  let s := Perform s DRMOps.CONNECTOR_SET_QSYNC_MODE_NONE
  let r := invoke env s (BaseCall.PowerOff teardown)
  if r.1 ≠ DisplayError.kErrorNone then r
  else
    let s := { r.2 with pending_poms_switch_ := false, active_ := false }
    (DisplayError.kErrorNone, SetTUIState env s)

/-- The routine `HWPeripheralDRM::PowerOff`. -/
def PowerOff (env : Env) (s : HWPeripheralDRM) (teardown : Bool) :
    DisplayError × HWPeripheralDRM :=
  let s := if ¬ s.base.first_cycle_ then
      (invoke env s BaseCall.MarkPanelFeatureForNullCommit).2
    else s
  let s := SetVMReqState s
  if s.secure_display_active_ then
    let r := Flush env s
    if r.1 ≠ DisplayError.kErrorNone then r
    else powerOffTail env r.2 teardown
  else powerOffTail env s teardown

/-- The POMS decision inside `Doze` (lines 584-593). -/
def dozePoms (env : Env) (s : HWPeripheralDRM) : HWPeripheralDRM :=
  if ¬ s.base.first_cycle_ ∧ s.base.switch_mode_valid_ ∧ ¬ s.doze_poms_switch_done_ ∧
      s.base.current_mode_index_ = s.base.video_mode_index_ then
    if s.active_ then
      let s := (invoke env s (BaseCall.SetDisplayMode HWDisplayMode.kModeCommand)).2
      { s with hw_panel_info_bitclk_rates := s.bitclk_rates_, doze_poms_switch_done_ := true }
    else { s with pending_poms_switch_ := true }
  else s

/-- The routine `HWPeripheralDRM::Doze`. -/
def Doze (env : Env) (s : HWPeripheralDRM) (qos_data : HWQosData) :
    DisplayError × HWPeripheralDRM :=
  let s := SetVMReqState s
  let s := dozePoms env s
  let r := invoke env s (BaseCall.Doze qos_data)
  if r.1 ≠ DisplayError.kErrorNone then r
  else
    let s := { r.2 with active_ := true }
    (DisplayError.kErrorNone, SetTUIState env s)

/-- The POMS switch inside `DozeSuspend` (lines 608-613). -/
def dozeSuspendPoms (env : Env) (s : HWPeripheralDRM) : HWPeripheralDRM :=
  if s.base.switch_mode_valid_ ∧ ¬ s.doze_poms_switch_done_ ∧
      s.base.current_mode_index_ = s.base.video_mode_index_ then
    let s := (invoke env s (BaseCall.SetDisplayMode HWDisplayMode.kModeCommand)).2
    { s with hw_panel_info_bitclk_rates := s.bitclk_rates_, doze_poms_switch_done_ := true }
  else s

/-- The routine `HWPeripheralDRM::DozeSuspend`. -/
def DozeSuspend (env : Env) (s : HWPeripheralDRM) (qos_data : HWQosData) :
    DisplayError × HWPeripheralDRM :=
  let s := SetVMReqState s
  let s := dozeSuspendPoms env s
  let r := invoke env s (BaseCall.DozeSuspend qos_data)
  if r.1 ≠ DisplayError.kErrorNone then r
  else
    let s := { r.2 with pending_poms_switch_ := false, active_ := true }
    (DisplayError.kErrorNone, SetTUIState env s)

/-! ## Secure sessions and DPPS features -/

/-- The flush sequence shared by the two TUI transitions (lines 434-441 and
451-458): on success the session side effect `SetTUIState` follows. -/
def tuiFlush (env : Env) (s : HWPeripheralDRM) (qos_data : HWQosData) :
    DisplayError × HWPeripheralDRM :=
  let s := (invoke env s (BaseCall.SetQOSData qos_data)).2
  let s := SetVMReqState s
  let s := (invoke env s BaseCall.SetIdlePCState).2
  let r := Flush env s
  if r.1 ≠ DisplayError.kErrorNone then r
  else (DisplayError.kErrorNone, SetTUIState env r.2)

/-- The routine `HWPeripheralDRM::HandleSecureEvent`. -/
def HandleSecureEvent (env : Env) (s : HWPeripheralDRM) (secure_event : SecureEvent)
    (qos_data : HWQosData) : DisplayError × HWPeripheralDRM :=
  match secure_event with
  | SecureEvent.kTUITransitionPrepare | SecureEvent.kTUITransitionUnPrepare =>
    (DisplayError.kErrorNone, { s with tui_state_ := TUIState.kTUIStateInProgress })
  | SecureEvent.kTUITransitionStart =>
    let s := { s with tui_state_ := TUIState.kTUIStateStart }
    let s := (ControlIdlePowerCollapse s false false).2
    if s.base.mode ≠ HWDisplayMode.kModeCommand then tuiFlush env s qos_data
    else (DisplayError.kErrorNone, s)
  | SecureEvent.kTUITransitionEnd =>
    let s := { s with tui_state_ := TUIState.kTUIStateEnd }
    let s := ResetPropertyCache s
    let s := (ControlIdlePowerCollapse s true false).2
    if s.base.mode ≠ HWDisplayMode.kModeCommand ∨
        s.pending_power_state_ = HWPowerState.kPowerStateOff then tuiFlush env s qos_data
    else (DisplayError.kErrorNone, s)
  | SecureEvent.kSecureDisplayStart =>
    let s := { s with secure_display_active_ := true }
    if s.base.mode ≠ HWDisplayMode.kModeCommand then
      let r := Flush env s
      if r.1 ≠ DisplayError.kErrorNone then r
      else (DisplayError.kErrorNone, r.2)
    else (DisplayError.kErrorNone, s)
  | SecureEvent.kSecureDisplayEnd =>
    let r := if s.base.mode ≠ HWDisplayMode.kModeCommand then Flush env s
      else (DisplayError.kErrorNone, s)
    if r.1 ≠ DisplayError.kErrorNone then r
    else
      (DisplayError.kErrorNone,
        { r.2 with secure_display_active_ := false, synchronous_commit_ := true })
  | SecureEvent.kSecureEventMax => (DisplayError.kErrorNotSupported, s)

/-- The routine `HWPeripheralDRM::SetDynamicDSIClock`. -/
def SetDynamicDSIClock (env : Env) (s : HWPeripheralDRM) (bit_clk_rate : Nat) :
    DisplayError × HWPeripheralDRM :=
  if s.base.last_power_mode_ = DRMPowerMode.DOZE_SUSPEND ∨
      s.base.last_power_mode_ = DRMPowerMode.OFF then
    (DisplayError.kErrorNotSupported, s)
  else if s.doze_poms_switch_done_ ∨ s.pending_poms_switch_ then
    (DisplayError.kErrorNotSupported, s)
  else if s.base.vrefresh_ ≠ 0 then
    (DisplayError.kErrorNotSupported, s)
  else if env.GetSupportedBitClkRate s s.base.current_mode_index_ bit_clk_rate =
      (s.connector_info_modes.getD s.base.current_mode_index_ {}).curr_bit_clk_rate then
    (DisplayError.kErrorNone, s)
  else (DisplayError.kErrorNone, { s with bit_clk_rate_ := bit_clk_rate })

/-- The routine `HWPeripheralDRM::SetRefreshRate`. -/
def SetRefreshRate (env : Env) (s : HWPeripheralDRM) (refresh_rate : Nat) :
    DisplayError × HWPeripheralDRM :=
  if s.doze_poms_switch_done_ ∨ s.pending_poms_switch_ then
    (DisplayError.kErrorNotSupported, s)
  else
    let r := invoke env s (BaseCall.SetRefreshRate refresh_rate)
    if r.1 ≠ DisplayError.kErrorNone then r
    else (DisplayError.kErrorNone, r.2)

/-- The routine `HWPeripheralDRM::SetDisplayMode`. -/
def SetDisplayMode (env : Env) (s : HWPeripheralDRM) (hw_display_mode : HWDisplayMode) :
    DisplayError × HWPeripheralDRM :=
  if s.doze_poms_switch_done_ ∨ s.pending_poms_switch_ then
    (DisplayError.kErrorNotSupported, s)
  else
    let r := invoke env s (BaseCall.SetDisplayMode hw_display_mode)
    if r.1 ≠ DisplayError.kErrorNone then r
    else (DisplayError.kErrorNone, { r.2 with hw_panel_info_bitclk_rates := r.2.bitclk_rates_ })

/-- The routine `HWPeripheralDRM::SetDisplayAttributes`. -/
def SetDisplayAttributes (env : Env) (s : HWPeripheralDRM) (index : Nat) :
    DisplayError × HWPeripheralDRM :=
  if s.doze_poms_switch_done_ ∨ s.pending_poms_switch_ ∨ s.bit_clk_rate_ ≠ 0 then
    (DisplayError.kErrorDeferred, s)
  else
    let s := (invoke env s (BaseCall.SetDisplayAttributes index)).2
    (DisplayError.kErrorNone, { s with hw_panel_info_bitclk_rates := s.bitclk_rates_ })

/-- The object at the moment `HandleSecureEvent(kTUITransitionStart)` reaches
its panel-mode test (lines 431-432). -/
def tuiStartEntered (s : HWPeripheralDRM) : HWPeripheralDRM :=
  (ControlIdlePowerCollapse { s with tui_state_ := TUIState.kTUIStateStart } false false).2

/-- The object on which the flush of a TUI transition is called: the quality of
service, the VM request and the idle-power-collapse request are staged
(lines 434-436). -/
def tuiStaged (env : Env) (s : HWPeripheralDRM) (qos_data : HWQosData) : HWPeripheralDRM :=
  (invoke env (SetVMReqState (invoke env s (BaseCall.SetQOSData qos_data)).2)
    BaseCall.SetIdlePCState).2

/-! ## Bit-clock rates and the alternate display configuration -/

/-- The body of the innermost loop of `PopulateBitClkRates` (lines 126-130):
the rate is appended unless `std::find` meets it in the list. -/
def pushBitClkRate (bitclk_rates : List Nat) (rate : Nat) : List Nat :=
  if rate ∈ bitclk_rates then bitclk_rates else bitclk_rates ++ [rate]

/-- The three nested loops of `PopulateBitClkRates` (lines 121-133) over the
mode table, for the resolution `width` x `height`, starting from the list
`bitclk_rates`. -/
def collectBitClkRates (width height : Nat) (modes : List DRMModeInfo)
    (bitclk_rates : List Nat) : List Nat :=
  modes.foldl
    (fun acc mode_info =>
      if mode_info.mode.hdisplay = width ∧ mode_info.mode.vdisplay = height then
        mode_info.sub_modes.foldl
          (fun acc sub_mode_info => sub_mode_info.dyn_bitclk_list.foldl pushBitClkRate acc) acc
      else acc)
    bitclk_rates

/-- The routine `HWPeripheralDRM::PopulateBitClkRates`. -/
def PopulateBitClkRates (s : HWPeripheralDRM) : HWPeripheralDRM :=
  if ¬ s.base.dyn_bitclk_support then s
  else
    let width := (s.connector_info_modes.getD s.base.current_mode_index_ {}).mode.hdisplay
    let height := (s.connector_info_modes.getD s.base.current_mode_index_ {}).mode.vdisplay
    let bitclk_rates := collectBitClkRates width height s.connector_info_modes s.bitclk_rates_
    { s with bitclk_rates_ := bitclk_rates, hw_panel_info_bitclk_rates := bitclk_rates }

/-- The routine `HWPeripheralDRM::GetDynamicDSIClock`: the result, the value
stored through `bit_clk_rate` (the 64-bit member converted to `uint32_t`,
line 171) and the object state. -/
def GetDynamicDSIClock (s : HWPeripheralDRM) : DisplayError × Nat × HWPeripheralDRM :=
  (DisplayError.kErrorNone,
    (s.connector_info_modes.getD s.base.current_mode_index_ {}).curr_bit_clk_rate % 2 ^ 32,
    s)

/-- The local `curr_mode_flag` of `SetAlternateDisplayConfig` (lines 977 and
982-986). -/
def currModeFlag (env : Env) (current_mode : DRMModeInfo) : Nat :=
  if current_mode.cur_panel_mode &&& env.DRM_MODE_FLAG_CMD_MODE_PANEL ≠ 0 then
    env.DRM_MODE_FLAG_CMD_MODE_PANEL
  else if current_mode.cur_panel_mode &&& env.DRM_MODE_FLAG_VID_MODE_PANEL ≠ 0 then
    env.DRM_MODE_FLAG_VID_MODE_PANEL
  else 0

/-- The sub-mode loops of `SetAlternateDisplayConfig` (lines 989-990 and
1005-1008): the index at which the loop over `sub_modes` leaves, the first one
whose compression differs from `curr_compression`. -/
def findAltSubMode (curr_compression : Nat) (sub_modes : List DRMSubModeInfo) : Option Nat :=
  (List.range sub_modes.length).find? fun submode_idx =>
    decide (curr_compression ≠ (sub_modes.getD submode_idx {}).panel_compression_mode)

/-- The test of the loop over the mode table (lines 1003-1004). -/
def altModeCandidate (current_mode : DRMModeInfo) (curr_mode_flag : Nat)
    (mode_info : DRMModeInfo) : Bool :=
  decide (current_mode.mode.vrefresh = mode_info.mode.vrefresh ∧
    curr_mode_flag &&& mode_info.cur_panel_mode ≠ 0)

/-- The loop over the mode table of `SetAlternateDisplayConfig`
(lines 1002-1008): the mode index and sub-mode index at which it leaves. -/
def findAltMode (current_mode : DRMModeInfo) (curr_mode_flag : Nat)
    (modes : List DRMModeInfo) : Option (Nat × Nat) :=
  (List.range modes.length).findSome? fun mode_index =>
    if altModeCandidate current_mode curr_mode_flag (modes.getD mode_index {}) then
      (findAltSubMode current_mode.curr_compression_mode
        (modes.getD mode_index {}).sub_modes).map fun submode_idx => (mode_index, submode_idx)
    else none

/-- The switch inside the current mode (lines 991-999), taken at sub-mode
`submode_idx`; `current_mode` is the copy made at line 978. -/
def altWithinMode (env : Env) (s : HWPeripheralDRM) (current_mode : DRMModeInfo)
    (submode_idx : Nat) : DisplayError × Nat × HWPeripheralDRM :=
  let compression := (current_mode.sub_modes.getD submode_idx {}).panel_compression_mode
  let s := { s with
    connector_info_modes := s.connector_info_modes.set s.base.current_mode_index_
      { s.connector_info_modes.getD s.base.current_mode_index_ {} with
        curr_submode_index := submode_idx
        curr_compression_mode := compression } }
  let s := (invoke env s (BaseCall.SetTopology
    (((s.connector_info_modes.getD s.base.current_mode_index_ {}).sub_modes.getD
      submode_idx {}).topology) s.base.current_mode_index_)).2
  let s := (invoke env s (BaseCall.SetDisplaySwitchMode s.base.current_mode_index_)).2
  let s := { s with panel_compression_changed_ := compression }
  (DisplayError.kErrorNone, s.base.current_mode_index_, s)

/-- The object on which `SetAlternateDisplayConfig` calls
`SetDisplayAttributes(mode_index)`: the sub-mode index, the topology and the
compression of mode `mode_index` are written (lines 1010-1015). -/
def altStaged (env : Env) (s : HWPeripheralDRM) (mode_index submode_idx : Nat) :
    HWPeripheralDRM :=
  let s := { s with
    connector_info_modes := s.connector_info_modes.set mode_index
      { s.connector_info_modes.getD mode_index {} with curr_submode_index := submode_idx } }
  let s := (invoke env s (BaseCall.SetTopology
    (((s.connector_info_modes.getD mode_index {}).sub_modes.getD submode_idx {}).topology)
    mode_index)).2
  { s with
    connector_info_modes := s.connector_info_modes.set mode_index
      { s.connector_info_modes.getD mode_index {} with
        curr_compression_mode :=
          ((s.connector_info_modes.getD mode_index {}).sub_modes.getD
            submode_idx {}).panel_compression_mode } }

/-- The switch to another mode (lines 1010-1019), taken at mode `mode_index`
and sub-mode `submode_idx`. The result of `SetDisplayAttributes` is dropped
(line 1016). -/
def altOtherMode (env : Env) (s : HWPeripheralDRM) (mode_index submode_idx : Nat) :
    DisplayError × Nat × HWPeripheralDRM :=
  let s := altStaged env s mode_index submode_idx
  let s := (SetDisplayAttributes env s mode_index).2
  let s := { s with
    panel_compression_changed_ :=
      (s.connector_info_modes.getD mode_index {}).curr_compression_mode }
  (DisplayError.kErrorNone, mode_index, s)

/-- The routine `HWPeripheralDRM::SetAlternateDisplayConfig`: the result, the
value behind `alt_config` and the object state. The local `sub_mode`
(line 979) is never used and is left out. -/
def SetAlternateDisplayConfig (env : Env) (s : HWPeripheralDRM) (alt_config : Nat) :
    DisplayError × Nat × HWPeripheralDRM :=
  let current_mode := s.connector_info_modes.getD s.base.current_mode_index_ {}
  let curr_compression := current_mode.curr_compression_mode
  let curr_mode_flag := currModeFlag env current_mode
  match findAltSubMode curr_compression current_mode.sub_modes with
  | some submode_idx => altWithinMode env s current_mode submode_idx
  | none =>
    match findAltMode current_mode curr_mode_flag s.connector_info_modes with
    | some (mode_index, submode_idx) => altOtherMode env s mode_index submode_idx
    | none => (DisplayError.kErrorNotSupported, alt_config, s)

/-! ## What one pass of `SetDestScalarData` computes -/

/-- Scaler data that the pass leaves in slot `i` of `scalar_data_`. -/
def requestedScale (hw_scale : HWScale) (hw_layer_info : HWLayersInfo)
    (s : HWPeripheralDRM) (i : Nat) : SDEScaler :=
  match hw_layer_info.dest_scale_info_map.find i with
  | none => s.scalar_data_.getD i {}
  | some d => hw_scale.SetScaler d.scale_data (s.scalar_data_.getD i {})

/-- Flags word that the pass leaves in `ds_cfg[i]`. -/
def requestedFlags (hw_scale : HWScale) (hw_layer_info : HWLayersInfo)
    (s : HWPeripheralDRM) (i : Nat) : Nat :=
  match hw_layer_info.dest_scale_info_map.find i with
  | none => (s.sde_dest_scalar_data_.ds_cfg i).flags
  | some d =>
    destScalerFlags (hw_scale.SetScaler d.scale_data (s.scalar_data_.getD i {}))
      d.scale_update s.base.partial_update

/-- Whether the comparison at lines 310-311 finds a difference for block `i`. -/
def blockDiffers (hw_scale : HWScale) (hw_layer_info : HWLayersInfo)
    (s : HWPeripheralDRM) (i : Nat) : Bool :=
  match hw_layer_info.dest_scale_info_map.find i with
  | none => false
  | some _ =>
    decide ((s.dest_scalar_cache_.getD i {}).scalar_data ≠ requestedScale hw_scale hw_layer_info s i
      ∨ (s.dest_scalar_cache_.getD i {}).flags ≠ requestedFlags hw_scale hw_layer_info s i)

/-- The object with the members written by `SetDestScalarData` blanked out:
two states agree on every other member exactly when their images agree. -/
def outsideScalarData (s : HWPeripheralDRM) : HWPeripheralDRM :=
  { s with
    log := []
    scalar_data_ := []
    sde_dest_scalar_data_ := {}
    needs_ds_update_ := false }

/-- The object with `dest_scalar_cache_` blanked out. -/
def outsideCache (s : HWPeripheralDRM) : HWPeripheralDRM :=
  { s with dest_scalar_cache_ := [] }

/-- The object with `dest_scalar_cache_` and `needs_ds_update_` blanked out:
what `CacheDestScalarData` keeps. -/
def outsideCacheAndFlag (s : HWPeripheralDRM) : HWPeripheralDRM :=
  { s with dest_scalar_cache_ := [], needs_ds_update_ := false }

/-! ## Concrete objects used to instantiate the theorems -/

/-- Base-class members of a panel with `count` scaler blocks and the given
split type, past its first cycle, in video mode. -/
def sampleDevice (count : Nat) (split : SplitType) : HWDeviceDRM :=
  { hw_dest_scalar_info_count := count
    dyn_bitclk_support := true
    display_attributes_topology := [0, 0]
    split_type := split
    partial_update := false
    mode := HWDisplayMode.kModeVideo
    first_cycle_ := false
    switch_mode_valid_ := true
    current_mode_index_ := 0
    cmd_mode_index_ := 1
    video_mode_index_ := 0
    last_power_mode_ := DRMPowerMode.ON
    vrefresh_ := 0
    drm_atomic_intf_ := true
    hw_scale_ := none }

/-- A freshly constructed object on `sampleDevice`. -/
def sampleObject (count : Nat) (split : SplitType) : HWPeripheralDRM :=
  { base := sampleDevice count split }

/-- A scaler converter whose output depends on the request only: the request
number becomes the `enable` member. -/
def sampleScale : HWScale :=
  { SetScaler := fun d _ => { enable := d.raw, de_enable := 0, rest := 0 } }

/-- An initialised object with a scaler: four blocks reported, none in use
elsewhere, `InitDestScaler` has run. -/
def scalerObject (split : SplitType) : HWPeripheralDRM :=
  (InitDestScaler 0
    { base := { sampleDevice 4 split with hw_scale_ := some sampleScale } }).2

/-- A block request with request number `raw` and mixer `width` x 1920. -/
def blockInfo (raw width : Nat) : HWDestScaleInfo :=
  { scale_data := { raw := raw }
    scale_update := false
    mixer_width := width
    mixer_height := 1920 }

/-- A request for one block: `blockInfo raw width` under key `key`. -/
def oneBlockRequest (key raw width : Nat) : HWLayersInfo :=
  { dest_scale_info_map :=
      { entries := [(key, blockInfo raw width)]
        nodup := List.nodup_singleton key } }

/-- An environment in which every outside call succeeds and leaves the
base-class members, the queued bit-clock rate, the pending power state and the
session state as they are; every bit-clock rate is
supported, and the panel-mode flags are two distinct bits. -/
def okEnv : Env :=
  { call := fun s _ => (DisplayError.kErrorNone, s.base)
    bit_clk_rate := fun s _ => s.bit_clk_rate_
    pending_power_state := fun s _ => s.pending_power_state_
    tui := fun s => s.tui_state_
    GetSupportedBitClkRate := fun _ _ bit_clk_rate => bit_clk_rate
    DRM_MODE_FLAG_CMD_MODE_PANEL := 0x2
    DRM_MODE_FLAG_VID_MODE_PANEL := 0x1 }

/-- An object on which the switch to command mode has been applied: the
current mode is the command mode (index 1) and `doze_poms_switch_done_` is
true; `valid` is the base-class member `switch_mode_valid_`. -/
def switchedObject (valid : Bool) : HWPeripheralDRM :=
  { base := { sampleDevice 4 SplitType.kNoSplit with
      current_mode_index_ := 1, switch_mode_valid_ := valid }
    doze_poms_switch_done_ := true }

/-- Base-class members used only to blank `base` out. -/
def blankDevice : HWDeviceDRM := sampleDevice 0 SplitType.kNoSplit

/-- The object with the call record blanked out: what a property write keeps. -/
def outsideLog (s : HWPeripheralDRM) : HWPeripheralDRM :=
  { s with log := [] }

/-- The object with the call record, the base-class members, the queued
bit-clock rate and the pending power state blanked out: what a call of an
outside routine keeps. -/
def outsideCall (s : HWPeripheralDRM) : HWPeripheralDRM :=
  { s with
    log := []
    base := blankDevice
    bit_clk_rate_ := 0
    pending_power_state_ := HWPowerState.kPowerStateNone }

/-- The object with everything blanked out that the part of `Commit` before
the error check can write. -/
def outsidePreCommit (s : HWPeripheralDRM) : HWPeripheralDRM :=
  { s with
    log := []
    base := blankDevice
    bit_clk_rate_ := 0
    pending_power_state_ := HWPowerState.kPowerStateNone
    scalar_data_ := []
    sde_dest_scalar_data_ := {}
    needs_ds_update_ := false }

/-- An environment in which every outside call fails with `e` and leaves the
base-class members, the queued bit-clock rate, the pending power state and the
session state as they are. -/
def failEnv (e : DisplayError) : Env :=
  { call := fun s _ => (e, s.base)
    bit_clk_rate := fun s _ => s.bit_clk_rate_
    pending_power_state := fun s _ => s.pending_power_state_
    tui := fun s => s.tui_state_
    GetSupportedBitClkRate := fun _ _ bit_clk_rate => bit_clk_rate
    DRM_MODE_FLAG_CMD_MODE_PANEL := 0x2
    DRM_MODE_FLAG_VID_MODE_PANEL := 0x1 }

/-- The routines of this file that write the scaler array, the cache, the
dirty flag or the recorded scaler count after `InitDestScaler`, and the calls
of outside routines between them. -/
inductive ScalerStep
  | SetDestScalarData (hw_layer_info : HWLayersInfo)
  | CacheDestScalarData
  | ResetDestScalarCache
  | powerOnStage
  | outside (c : BaseCall)

/-- One step of a run. -/
def scalerStep (env : Env) (s : HWPeripheralDRM) : ScalerStep → HWPeripheralDRM
  | ScalerStep.SetDestScalarData hw_layer_info => SetDestScalarData s hw_layer_info
  | ScalerStep.CacheDestScalarData => CacheDestScalarData s
  | ScalerStep.ResetDestScalarCache => ResetDestScalarCache s
  | ScalerStep.powerOnStage => powerOnStage s
  | ScalerStep.outside c => (invoke env s c).2

/-- A run of steps, oldest first. -/
def scalerRun (env : Env) (s : HWPeripheralDRM) (steps : List ScalerStep) : HWPeripheralDRM :=
  steps.foldl (scalerStep env) s

/-- The size of the request map of a step; zero for the steps without one. -/
def ScalerStep.requestSize : ScalerStep → Nat
  | ScalerStep.SetDestScalarData hw_layer_info => hw_layer_info.dest_scale_info_map.size
  | _ => 0

/-- The indices at which `CacheDestScalarData` reads `scalar_data_` and
`ds_cfg` and writes `dest_scalar_cache_` (loop at lines 326-328). -/
def cacheIndices (s : HWPeripheralDRM) : List Nat :=
  if s.needs_ds_update_ then List.range s.sde_dest_scalar_data_.num_dest_scaler else []

/-- The indices at which `ResetDestScalarCache` writes `dest_scalar_cache_`
(loop at lines 270-271). -/
def resetIndices (s : HWPeripheralDRM) : List Nat :=
  List.range s.scalar_data_.length

/-! ## Vocabulary of the alternate-configuration search and the bit-clock list -/

/-- Sub-mode `submode_idx` of `mode_info` exists and its compression differs
from `curr_compression`. -/
def differsAt (curr_compression : Nat) (mode_info : DRMModeInfo) (submode_idx : Nat) : Prop :=
  submode_idx < mode_info.sub_modes.length ∧
    (mode_info.sub_modes.getD submode_idx {}).panel_compression_mode ≠ curr_compression

/-- Sub-mode `submode_idx` is the least sub-mode index of `mode_info` whose
compression differs from `curr_compression`. -/
def leastDiffering (curr_compression : Nat) (mode_info : DRMModeInfo) (submode_idx : Nat) :
    Prop :=
  differsAt curr_compression mode_info submode_idx ∧
    ∀ j, j < submode_idx → ¬ differsAt curr_compression mode_info j

/-- Mode `mode_info` carries the panel-type flag `flag` in `cur_panel_mode`. -/
def carriesPanelFlag (flag : Nat) (mode_info : DRMModeInfo) : Prop :=
  mode_info.cur_panel_mode &&& flag ≠ 0

/-- The two modes share a panel-type flag: both carry the command-mode flag
or both carry the video-mode flag. -/
def sharesPanelFlag (env : Env) (current_mode mode_info : DRMModeInfo) : Prop :=
  (carriesPanelFlag env.DRM_MODE_FLAG_CMD_MODE_PANEL current_mode ∧
      carriesPanelFlag env.DRM_MODE_FLAG_CMD_MODE_PANEL mode_info) ∨
    (carriesPanelFlag env.DRM_MODE_FLAG_VID_MODE_PANEL current_mode ∧
      carriesPanelFlag env.DRM_MODE_FLAG_VID_MODE_PANEL mode_info)

/-- Mode `mode_info` shares the vertical refresh rate and a panel-type flag
with `current_mode`. -/
def sharesRefreshAndPanel (env : Env) (current_mode mode_info : DRMModeInfo) : Prop :=
  current_mode.mode.vrefresh = mode_info.mode.vrefresh ∧
    sharesPanelFlag env current_mode mode_info

/-- Mode `mode_info` carries the panel type of `current_mode`: the
command-mode flag if `current_mode` carries it, otherwise the video-mode flag
if `current_mode` carries that one. -/
def carriesPanelTypeOf (env : Env) (current_mode mode_info : DRMModeInfo) : Prop :=
  (carriesPanelFlag env.DRM_MODE_FLAG_CMD_MODE_PANEL current_mode ∧
      carriesPanelFlag env.DRM_MODE_FLAG_CMD_MODE_PANEL mode_info) ∨
    (¬ carriesPanelFlag env.DRM_MODE_FLAG_CMD_MODE_PANEL current_mode ∧
      carriesPanelFlag env.DRM_MODE_FLAG_VID_MODE_PANEL current_mode ∧
      carriesPanelFlag env.DRM_MODE_FLAG_VID_MODE_PANEL mode_info)

/-- Mode `mode_info` has the vertical refresh rate of `current_mode` and
carries its panel type. -/
def sharesRefreshAndPanelType (env : Env) (current_mode mode_info : DRMModeInfo) : Prop :=
  current_mode.mode.vrefresh = mode_info.mode.vrefresh ∧
    carriesPanelTypeOf env current_mode mode_info

/-- The rates listed by the sub-modes of the modes with resolution
`width` x `height`, by mode index, then sub-mode index, then list index. -/
def listedRates (width height : Nat) (modes : List DRMModeInfo) : List Nat :=
  (modes.filter fun mode_info =>
    decide (mode_info.mode.hdisplay = width ∧ mode_info.mode.vdisplay = height)).flatMap
    fun mode_info => mode_info.sub_modes.flatMap fun sub_mode_info => sub_mode_info.dyn_bitclk_list

/-- The members of a list, each once, in order of first occurrence. -/
def firstOccurrences : List Nat → List Nat
  | [] => []
  | r :: rs => r :: (firstOccurrences rs).filter fun x => decide (x ≠ r)

/-! ## Concrete mode tables and requests -/

/-- A mode at 60 Hz of a command-mode panel with the given sub-mode
compressions; sub-mode 0 with compression `curr` is current. -/
def sampleMode (width : Nat) (curr : Nat) (compressions : List Nat) (rate : Nat) : DRMModeInfo :=
  { mode := { hdisplay := width, vdisplay := 1920, vrefresh := 60 }
    sub_modes := compressions.map fun c =>
      { dyn_bitclk_list := [100, 200, 100 + c], panel_compression_mode := c, topology := c }
    curr_submode_index := 0
    curr_compression_mode := curr
    curr_bit_clk_rate := rate
    cur_panel_mode := 0x2 }

/-- A 60 Hz mode 1080 x 1920 with the panel-mode flags `cur_panel_mode` and
the given sub-mode compressions; sub-mode 0 with compression 0 is current. -/
def flaggedMode (cur_panel_mode : Nat) (compressions : List Nat) : DRMModeInfo :=
  { sampleMode 1080 0 compressions 0 with cur_panel_mode := cur_panel_mode }

/-- An object with the mode table `modes`, one entry of `display_attributes_`
per mode, mode 0 current, and the queued bit-clock rate `queued`. -/
def modeObject (modes : List DRMModeInfo) (queued : Nat) : HWPeripheralDRM :=
  { base := { sampleDevice 4 SplitType.kNoSplit with
      display_attributes_topology := List.replicate modes.length 0 }
    connector_info_modes := modes
    bit_clk_rate_ := queued }

/-- A panel in use: `sampleObject` with the display active, as a successful
commit leaves it. -/
def activeObject : HWPeripheralDRM :=
  { sampleObject 4 SplitType.kNoSplit with active_ := true }

/-- A request for two blocks under the keys 0 and 5. -/
def twoBlockRequest : HWLayersInfo :=
  { dest_scale_info_map :=
      { entries := [(0, blockInfo 1 1080), (5, blockInfo 2 1080)]
        nodup := by decide } }

/-- The scaler array and the cache have `n` entries each, `n` blocks are
granted and at most `n` scalers are recorded. -/
def scalerSized (n : Nat) (s : HWPeripheralDRM) : Prop :=
  s.dest_scaler_blocks_used_ = n ∧ s.dest_scalar_cache_.length = n ∧
    s.scalar_data_.length = n ∧ s.sde_dest_scalar_data_.num_dest_scaler ≤ n

/-- A freshly constructed object with a scaler converter, before
`InitDestScaler`: four blocks reported. -/
def unallocatedObject (split : SplitType) : HWPeripheralDRM :=
  { base := { sampleDevice 4 split with hw_scale_ := some sampleScale } }

/-! ## The allocator -/

theorem requestedBlocks_le (t : SplitType) : requestedBlocks t ≤ 4 := by
  cases t <;> decide

theorem requestedBlocks_pos (t : SplitType) : 0 < requestedBlocks t := by
  cases t <;> decide

/-- The block count granted by one `InitDestScaler` call, when the hardware
reports at least one block. -/
theorem InitDestScaler_granted (used : Nat) (s : HWPeripheralDRM)
    (hcap : s.base.hw_dest_scalar_info_count ≠ 0) :
    (InitDestScaler used s).2.dest_scaler_blocks_used_ =
      if (used + requestedBlocks s.base.split_type) % 2 ^ 32 ≤ s.base.hw_dest_scalar_info_count
      then requestedBlocks s.base.split_type else 0 := by
  unfold InitDestScaler
  simp only [hcap, ne_eq, not_false_eq_true, if_true, ge_iff_le]
  by_cases h : (used + requestedBlocks s.base.split_type) % 2 ^ 32 ≤
      s.base.hw_dest_scalar_info_count <;> simp [h]

/-- The shared counter after one `InitDestScaler` call, when the hardware
reports at least one block. -/
theorem InitDestScaler_counter (used : Nat) (s : HWPeripheralDRM)
    (hcap : s.base.hw_dest_scalar_info_count ≠ 0) :
    (InitDestScaler used s).1 =
      if (used + requestedBlocks s.base.split_type) % 2 ^ 32 ≤ s.base.hw_dest_scalar_info_count
      then (used + requestedBlocks s.base.split_type) % 2 ^ 32 else used := by
  unfold InitDestScaler
  simp only [hcap, ne_eq, not_false_eq_true, if_true, ge_iff_le]
  by_cases h : (used + requestedBlocks s.base.split_type) % 2 ^ 32 ≤
      s.base.hw_dest_scalar_info_count <;> simp [h]

/-- With no block reported by the hardware the call grants what the object
already held and leaves the counter alone. -/
theorem InitDestScaler_no_blocks (used : Nat) (s : HWPeripheralDRM)
    (hcap : s.base.hw_dest_scalar_info_count = 0) :
    (InitDestScaler used s).1 = used ∧
      (InitDestScaler used s).2.dest_scaler_blocks_used_ = s.dest_scaler_blocks_used_ := by
  unfold InitDestScaler
  simp [hcap]

/-- C1, as amended: for every shared counter value `used`, every non-zero
block count `capacity` and every split type, with `r` = 4 for quad split, 2 for
dual split and 1 otherwise, and provided `used + r` does not wrap around in 32
bits: the instance is granted `r` blocks and the counter becomes `used + r` if
`used + r ≤ capacity`; otherwise it is granted 0 blocks and the counter is
unchanged. -/
theorem InitDestScaler_allocates (used capacity r : Nat) (s : HWPeripheralDRM)
    (hcount : s.base.hw_dest_scalar_info_count = capacity) (hcap : capacity ≠ 0)
    (hr : r = match s.base.split_type with
      | SplitType.kQuadSplit => 4
      | SplitType.kDualSplit => 2
      | SplitType.kNoSplit => 1)
    (hwrap : used + r < 2 ^ 32) :
    (used + r ≤ capacity →
      (InitDestScaler used s).2.dest_scaler_blocks_used_ = r ∧
      (InitDestScaler used s).1 = used + r) ∧
    (¬ used + r ≤ capacity →
      (InitDestScaler used s).2.dest_scaler_blocks_used_ = 0 ∧
      (InitDestScaler used s).1 = used) := by
  have hreq : requestedBlocks s.base.split_type = r := by
    rw [hr]; cases s.base.split_type <;> rfl
  have hc : s.base.hw_dest_scalar_info_count ≠ 0 := by rw [hcount]; exact hcap
  rw [InitDestScaler_granted used s hc, InitDestScaler_counter used s hc, hreq,
    Nat.mod_eq_of_lt hwrap, hcount]
  constructor
  · intro h; simp [h]
  · intro h; simp [h]

/-- Instance of `InitDestScaler_allocates`: four blocks, a quad-split instance
takes them all. -/
theorem InitDestScaler_allocates_witness :
    (0 + 4 ≤ 4 →
      (InitDestScaler 0 (sampleObject 4 SplitType.kQuadSplit)).2.dest_scaler_blocks_used_ = 4 ∧
      (InitDestScaler 0 (sampleObject 4 SplitType.kQuadSplit)).1 = 0 + 4) ∧
    (¬ 0 + 4 ≤ 4 →
      (InitDestScaler 0 (sampleObject 4 SplitType.kQuadSplit)).2.dest_scaler_blocks_used_ = 0 ∧
      (InitDestScaler 0 (sampleObject 4 SplitType.kQuadSplit)).1 = 0) :=
  InitDestScaler_allocates 0 4 4 (sampleObject 4 SplitType.kQuadSplit) rfl (by decide) rfl
    (by decide)

/-- C1 as stated fails where the 32-bit sum wraps: with the counter at
`2 ^ 32 - 1`, one block reported and no split, `used + r` exceeds the capacity,
yet the instance is granted its block and the counter becomes 0. -/
theorem InitDestScaler_wraps :
    (sampleObject 1 SplitType.kNoSplit).base.hw_dest_scalar_info_count = 1 ∧
    ¬ (4294967295 + 1 ≤ 1) ∧
    (InitDestScaler 4294967295 (sampleObject 1 SplitType.kNoSplit)).2.dest_scaler_blocks_used_
      = 1 ∧
    (InitDestScaler 4294967295 (sampleObject 1 SplitType.kNoSplit)).1 = 0 ∧
    ¬ ((InitDestScaler 4294967295 (sampleObject 1 SplitType.kNoSplit)).2.dest_scaler_blocks_used_
        = 0 ∧
      (InitDestScaler 4294967295 (sampleObject 1 SplitType.kNoSplit)).1 = 4294967295) := by
  decide

/-- One call keeps the counter within the capacity, and adds exactly what it
grants when `capacity + 4` is below `2 ^ 32`. -/
theorem InitDestScaler_step (used capacity : Nat) (s : HWPeripheralDRM)
    (hcount : s.base.hw_dest_scalar_info_count = capacity)
    (hfresh : s.dest_scaler_blocks_used_ = 0) (hused : used ≤ capacity) :
    (InitDestScaler used s).1 ≤ capacity ∧
    (capacity + 4 < 2 ^ 32 →
      (InitDestScaler used s).1 = used + (InitDestScaler used s).2.dest_scaler_blocks_used_) := by
  by_cases hc : s.base.hw_dest_scalar_info_count = 0
  · obtain ⟨h1, h2⟩ := InitDestScaler_no_blocks used s hc
    rw [h1, h2, hfresh]
    exact ⟨hused, fun _ => rfl⟩
  · rw [InitDestScaler_granted used s hc, InitDestScaler_counter used s hc, hcount]
    have h4 := requestedBlocks_le s.base.split_type
    by_cases h : (used + requestedBlocks s.base.split_type) % 2 ^ 32 ≤ capacity
    · simp only [h, if_true]
      refine ⟨trivial, fun hw => ?_⟩
      exact Nat.mod_eq_of_lt (by omega)
    · simp only [h, if_false]
      exact ⟨hused, fun _ => rfl⟩

/-- The counter bound and the counter sum for a whole run of calls. -/
theorem initAll_run (mk : SplitType → HWPeripheralDRM) (capacity : Nat)
    (hmk : ∀ t, (mk t).base.hw_dest_scalar_info_count = capacity ∧
      (mk t).dest_scaler_blocks_used_ = 0)
    (ts : List SplitType) :
    ∀ used, used ≤ capacity →
      (initAll mk used ts).1 ≤ capacity ∧
      (capacity + 4 < 2 ^ 32 → (initAll mk used ts).1 = used + (initAll mk used ts).2.sum) := by
  induction ts with
  | nil => intro used hused; exact ⟨hused, fun _ => rfl⟩
  | cons t ts ih =>
    intro used hused
    obtain ⟨hb, hs⟩ := InitDestScaler_step used capacity (mk t) (hmk t).1 (hmk t).2 hused
    obtain ⟨hb2, hs2⟩ := ih (InitDestScaler used (mk t)).1 hb
    refine ⟨hb2, fun hw => ?_⟩
    show (initAll mk (InitDestScaler used (mk t)).1 ts).1 =
      used + ((InitDestScaler used (mk t)).2.dest_scaler_blocks_used_ +
        (initAll mk (InitDestScaler used (mk t)).1 ts).2.sum)
    rw [hs2 hw, hs hw]
    omega

/-- C2, as amended: for every finite sequence of `InitDestScaler` calls by
fresh instances with arbitrary split types, all reporting the same capacity,
starting from a shared counter that is at most the capacity, after every call
(after the first `k` calls, for every `k`) the shared counter is at most the
capacity; and when `capacity + 4 < 2 ^ 32`, so that no 32-bit sum wraps, it
equals the starting value plus the sum of the block counts granted so far. -/
theorem initAll_counter_bounded (mk : SplitType → HWPeripheralDRM) (capacity used : Nat)
    (ts : List SplitType) (k : Nat)
    (hmk : ∀ t, (mk t).base.hw_dest_scalar_info_count = capacity ∧
      (mk t).dest_scaler_blocks_used_ = 0)
    (hused : used ≤ capacity) :
    (initAll mk used (ts.take k)).1 ≤ capacity ∧
    (capacity + 4 < 2 ^ 32 →
      (initAll mk used (ts.take k)).1 = used + (initAll mk used (ts.take k)).2.sum) :=
  initAll_run mk capacity hmk (ts.take k) used hused

/-- Instance of `initAll_counter_bounded`: capacity 4, a quad-split instance
followed by an unsplit one (granted 4, then 0). -/
theorem initAll_counter_bounded_witness :
    (initAll (sampleObject 4) 0
        ([SplitType.kQuadSplit, SplitType.kNoSplit].take 2)).1 ≤ 4 ∧
    (4 + 4 < 2 ^ 32 →
      (initAll (sampleObject 4) 0 ([SplitType.kQuadSplit, SplitType.kNoSplit].take 2)).1 =
        0 + (initAll (sampleObject 4) 0
          ([SplitType.kQuadSplit, SplitType.kNoSplit].take 2)).2.sum) :=
  initAll_counter_bounded (sampleObject 4) 4 0 [SplitType.kQuadSplit, SplitType.kNoSplit] 2
    (fun _ => ⟨rfl, rfl⟩) (by decide)

/-- C2 as stated fails where the 32-bit sum wraps: with capacity and counter
both `2 ^ 32 - 1`, one unsplit instance is granted a block and the counter
becomes 0, which is neither the sum of the grants nor the start plus that
sum. -/
theorem initAll_wraps :
    (4294967295 : Nat) ≤ 4294967295 ∧
    initAll (sampleObject 4294967295) 4294967295 [SplitType.kNoSplit] = (0, [1]) ∧
    (initAll (sampleObject 4294967295) 4294967295 [SplitType.kNoSplit]).1 ≠
      (initAll (sampleObject 4294967295) 4294967295 [SplitType.kNoSplit]).2.sum ∧
    (initAll (sampleObject 4294967295) 4294967295 [SplitType.kNoSplit]).1 ≠
      4294967295 + (initAll (sampleObject 4294967295) 4294967295 [SplitType.kNoSplit]).2.sum := by
  decide

/-! ## The destination-scaler cache -/

theorem getD_set_self {α : Type} (l : List α) (i : Nat) (a d : α) (h : i < l.length) :
    (l.set i a).getD i d = a := by
  simp [List.getD_eq_getElem?_getD, List.getElem?_set, h]

theorem getD_set_other {α : Type} (l : List α) (i j : Nat) (a d : α) (h : i ≠ j) :
    (l.set i a).getD j d = l.getD j d := by
  simp [List.getD_eq_getElem?_getD, List.getElem?_set, h]

/-- A fold keeps whatever each step keeps. -/
theorem foldl_keeps {σ ι α : Type} (obs : σ → α) (f : σ → ι → σ)
    (h : ∀ s i, obs (f s i) = obs s) (l : List ι) (s : σ) :
    obs (l.foldl f s) = obs s := by
  induction l generalizing s with
  | nil => rfl
  | cons i l ih => simp only [List.foldl_cons]; rw [ih, h]

theorem setDestScalarBlock_outside (hw_scale : HWScale) (info : HWLayersInfo)
    (s : HWPeripheralDRM) (i : Nat) :
    outsideScalarData (setDestScalarBlock hw_scale info s i) = outsideScalarData s := by
  unfold setDestScalarBlock
  cases info.dest_scale_info_map.find i <;> rfl

/-- The loop of `SetDestScalarData`, described slot by slot. -/
theorem setLoop_spec (hw_scale : HWScale) (info : HWLayersInfo) (s : HWPeripheralDRM) :
    ∀ n, n ≤ s.scalar_data_.length →
      ((List.range n).foldl (setDestScalarBlock hw_scale info) s).scalar_data_.length =
        s.scalar_data_.length ∧
      (∀ i, ((List.range n).foldl (setDestScalarBlock hw_scale info) s).scalar_data_.getD i {} =
        if i < n then requestedScale hw_scale info s i else s.scalar_data_.getD i {}) ∧
      (∀ i, (((List.range n).foldl (setDestScalarBlock hw_scale info) s).sde_dest_scalar_data_.ds_cfg
          i).flags =
        if i < n then requestedFlags hw_scale info s i
        else (s.sde_dest_scalar_data_.ds_cfg i).flags) ∧
      ((List.range n).foldl (setDestScalarBlock hw_scale info) s).sde_dest_scalar_data_.num_dest_scaler
        = s.sde_dest_scalar_data_.num_dest_scaler ∧
      ((List.range n).foldl (setDestScalarBlock hw_scale info) s).needs_ds_update_ =
        (s.needs_ds_update_ || (List.range n).any (blockDiffers hw_scale info s)) := by
  intro n
  induction n with
  | zero => intro _; simp
  | succ n ih =>
    intro hn
    obtain ⟨hlen, hsc, hfl, hnum, hnd⟩ := ih (by omega)
    have hout := foldl_keeps outsideScalarData (setDestScalarBlock hw_scale info)
      (setDestScalarBlock_outside hw_scale info) (List.range n) s
    have hcache : ((List.range n).foldl (setDestScalarBlock hw_scale info) s).dest_scalar_cache_ =
        s.dest_scalar_cache_ := by
      have h := congrArg HWPeripheralDRM.dest_scalar_cache_ hout
      exact h
    have hbase : ((List.range n).foldl (setDestScalarBlock hw_scale info) s).base = s.base := by
      have h := congrArg HWPeripheralDRM.base hout
      exact h
    have hslot := hsc n
    simp only [lt_irrefl, if_false] at hslot
    rw [List.range_succ, List.foldl_append, List.foldl_cons, List.foldl_nil]
    generalize (List.range n).foldl (setDestScalarBlock hw_scale info) s = t at *
    unfold setDestScalarBlock
    cases hfind : info.dest_scale_info_map.find n with
    | none =>
      simp only
      refine ⟨hlen, ?_, ?_, hnum, ?_⟩
      · intro i
        rw [hsc i]
        by_cases h1 : i < n
        · simp [h1, Nat.lt_succ_of_lt h1]
        · by_cases h2 : i = n
          · subst h2; simp [requestedScale, hfind]
          · have : ¬ i < n + 1 := by omega
            simp [h1, this]
      · intro i
        rw [hfl i]
        by_cases h1 : i < n
        · simp [h1, Nat.lt_succ_of_lt h1]
        · by_cases h2 : i = n
          · subst h2; simp [requestedFlags, hfind]
          · have : ¬ i < n + 1 := by omega
            simp [h1, this]
      · rw [hnd, List.any_append]
        simp [blockDiffers, hfind]
    | some d =>
      simp only
      refine ⟨by rw [List.length_set]; exact hlen, ?_, ?_, hnum, ?_⟩
      · intro i
        by_cases h2 : i = n
        · subst h2
          rw [getD_set_self _ _ _ _ (by omega), hslot]
          simp [requestedScale, hfind]
        · rw [getD_set_other _ _ _ _ _ (Ne.symm h2), hsc i]
          by_cases h1 : i < n
          · simp [h1, Nat.lt_succ_of_lt h1]
          · have : ¬ i < n + 1 := by omega
            simp [h1, this]
      · intro i
        by_cases h2 : i = n
        · subst h2
          rw [Function.update_same, hslot, hbase]
          simp [requestedFlags, hfind]
        · rw [Function.update_noteq h2, hfl i]
          by_cases h1 : i < n
          · simp [h1, Nat.lt_succ_of_lt h1]
          · have : ¬ i < n + 1 := by omega
            simp [h1, this]
      · rw [List.any_append]
        simp only [List.any_cons, List.any_nil, Bool.or_false]
        rw [hcache, hslot, hbase, hnd]
        have hb : blockDiffers hw_scale info s n =
            decide ((s.dest_scalar_cache_.getD n {}).scalar_data ≠
              hw_scale.SetScaler d.scale_data (s.scalar_data_.getD n {}) ∨
              (s.dest_scalar_cache_.getD n {}).flags ≠
                destScalerFlags (hw_scale.SetScaler d.scale_data (s.scalar_data_.getD n {}))
                  d.scale_update s.base.partial_update) := by
          simp only [blockDiffers, requestedScale, requestedFlags, hfind]
        rw [hb]
        by_cases hd : (s.dest_scalar_cache_.getD n {}).scalar_data ≠
            hw_scale.SetScaler d.scale_data (s.scalar_data_.getD n {}) ∨
            (s.dest_scalar_cache_.getD n {}).flags ≠
              destScalerFlags (hw_scale.SetScaler d.scale_data (s.scalar_data_.getD n {}))
                d.scale_update s.base.partial_update
        · rw [if_pos hd, decide_eq_true hd]
          simp only [Bool.or_true]
        · rw [if_neg hd, decide_eq_false hd]
          simp only [Bool.or_false]

theorem SetDestScalarData_outside (s : HWPeripheralDRM) (info : HWLayersInfo) :
    outsideScalarData (SetDestScalarData s info) = outsideScalarData s := by
  unfold SetDestScalarData
  cases s.base.hw_scale_ with
  | none => rfl
  | some hw_scale =>
    simp only
    have hout := foldl_keeps outsideScalarData (setDestScalarBlock hw_scale info)
      (setDestScalarBlock_outside hw_scale info) (List.range s.dest_scaler_blocks_used_) s
    by_cases hn : s.dest_scaler_blocks_used_ = 0
    · rw [if_pos hn]
    · rw [if_neg hn]
      split
      · rw [← hout]; rfl
      · exact hout

/-- What `SetDestScalarData` leaves behind when a scaler is present and
blocks are allocated. -/
theorem SetDestScalarData_spec (hw_scale : HWScale) (s : HWPeripheralDRM) (info : HWLayersInfo)
    (hhw : s.base.hw_scale_ = some hw_scale) (hn : s.dest_scaler_blocks_used_ ≠ 0)
    (hlen : s.dest_scaler_blocks_used_ ≤ s.scalar_data_.length) :
    (SetDestScalarData s info).needs_ds_update_ =
      (s.needs_ds_update_ ||
        (List.range s.dest_scaler_blocks_used_).any (blockDiffers hw_scale info s)) ∧
    (∀ i, (SetDestScalarData s info).scalar_data_.getD i {} =
      if i < s.dest_scaler_blocks_used_ then requestedScale hw_scale info s i
      else s.scalar_data_.getD i {}) ∧
    (∀ i, ((SetDestScalarData s info).sde_dest_scalar_data_.ds_cfg i).flags =
      if i < s.dest_scaler_blocks_used_ then requestedFlags hw_scale info s i
      else (s.sde_dest_scalar_data_.ds_cfg i).flags) ∧
    (SetDestScalarData s info).sde_dest_scalar_data_.num_dest_scaler =
      (if (SetDestScalarData s info).needs_ds_update_ then info.dest_scale_info_map.size % 2 ^ 32
       else s.sde_dest_scalar_data_.num_dest_scaler) ∧
    (SetDestScalarData s info).scalar_data_.length = s.scalar_data_.length := by
  obtain ⟨hl, hsc, hfl, hnum, hnd⟩ := setLoop_spec hw_scale info s s.dest_scaler_blocks_used_ hlen
  unfold SetDestScalarData
  simp only [hhw, if_neg hn]
  generalize (List.range s.dest_scaler_blocks_used_).foldl (setDestScalarBlock hw_scale info) s
    = t at *
  cases ht : t.needs_ds_update_ with
  | true =>
    simp only [if_true, Perform]
    exact ⟨by rw [← hnd, ht], hsc, hfl, trivial, hl⟩
  | false =>
    simp only [Bool.false_eq_true, if_false]
    exact ⟨by rw [← hnd, ht], hsc, hfl, by rw [ht]; simpa using hnum, hl⟩

theorem cacheDestScalarBlock_outside (s : HWPeripheralDRM) (i : Nat) :
    outsideCache (cacheDestScalarBlock s i) = outsideCache s := rfl

/-- The loop of `CacheDestScalarData`, described entry by entry. -/
theorem cacheLoop_spec (s : HWPeripheralDRM) :
    ∀ m, ((List.range m).foldl cacheDestScalarBlock s).dest_scalar_cache_.length =
        s.dest_scalar_cache_.length ∧
      (∀ i, ((List.range m).foldl cacheDestScalarBlock s).dest_scalar_cache_.getD i {} =
        if i < m ∧ i < s.dest_scalar_cache_.length then
          { scalar_data := s.scalar_data_.getD i {}
            flags := (s.sde_dest_scalar_data_.ds_cfg i).flags }
        else s.dest_scalar_cache_.getD i {}) := by
  intro m
  induction m with
  | zero => simp
  | succ m ih =>
    obtain ⟨hlen, hc⟩ := ih
    have hout := foldl_keeps outsideCache cacheDestScalarBlock cacheDestScalarBlock_outside
      (List.range m) s
    have hsd : ((List.range m).foldl cacheDestScalarBlock s).scalar_data_ = s.scalar_data_ := by
      have h := congrArg HWPeripheralDRM.scalar_data_ hout
      exact h
    have hsde : ((List.range m).foldl cacheDestScalarBlock s).sde_dest_scalar_data_ =
        s.sde_dest_scalar_data_ := by
      have h := congrArg HWPeripheralDRM.sde_dest_scalar_data_ hout
      exact h
    rw [List.range_succ, List.foldl_append, List.foldl_cons, List.foldl_nil]
    generalize (List.range m).foldl cacheDestScalarBlock s = t at *
    unfold cacheDestScalarBlock
    simp only
    refine ⟨by rw [List.length_set]; exact hlen, ?_⟩
    intro i
    by_cases h2 : i = m
    · subst h2
      by_cases hb : i < s.dest_scalar_cache_.length
      · rw [getD_set_self _ _ _ _ (by omega), hsd, hsde]
        simp [hb]
      · have hb2 : ¬ i < t.dest_scalar_cache_.length := by omega
        have h0 := hc i
        simp only [lt_irrefl, false_and, if_false] at h0
        simp only [hb, and_false, if_false]
        rw [← h0]
        have hnone : t.dest_scalar_cache_[i]? = none := List.getElem?_eq_none (by omega)
        simp [List.getD_eq_getElem?_getD, List.getElem?_set, hb2, hnone]
    · rw [getD_set_other _ _ _ _ _ (Ne.symm h2), hc i]
      by_cases h1 : i < m
      · simp [h1, Nat.lt_succ_of_lt h1]
      · have : ¬ i < m + 1 := by omega
        simp [h1, this]

/-- What `CacheDestScalarData` leaves in the cache. -/
theorem CacheDestScalarData_spec (s : HWPeripheralDRM) :
    (CacheDestScalarData s).needs_ds_update_ = false ∧
    outsideCache { CacheDestScalarData s with needs_ds_update_ := s.needs_ds_update_ } =
      outsideCache s ∧
    (∀ i, (CacheDestScalarData s).dest_scalar_cache_.getD i {} =
      if s.needs_ds_update_ = true ∧ i < s.sde_dest_scalar_data_.num_dest_scaler ∧
          i < s.dest_scalar_cache_.length then
        { scalar_data := s.scalar_data_.getD i {}
          flags := (s.sde_dest_scalar_data_.ds_cfg i).flags }
      else s.dest_scalar_cache_.getD i {}) ∧
    (s.needs_ds_update_ = false → CacheDestScalarData s = s) := by
  unfold CacheDestScalarData
  cases hnd : s.needs_ds_update_ with
  | false =>
    simp only [Bool.false_eq_true, if_false, false_and]
    refine ⟨hnd, ?_, ?_, ?_⟩
    · cases s
      simp only at hnd
      subst hnd
      rfl
    · intro i; trivial
    · trivial
  | true =>
    simp only [if_true, true_and]
    have hout := foldl_keeps outsideCache cacheDestScalarBlock cacheDestScalarBlock_outside
      (List.range s.sde_dest_scalar_data_.num_dest_scaler) s
    refine ⟨?_, (cacheLoop_spec s _).2, fun h => absurd h (by decide)⟩
    have h2 : outsideCache
        { (List.range s.sde_dest_scalar_data_.num_dest_scaler).foldl cacheDestScalarBlock s with
          needs_ds_update_ := true } =
        { outsideCache ((List.range s.sde_dest_scalar_data_.num_dest_scaler).foldl
            cacheDestScalarBlock s) with needs_ds_update_ := true } := rfl
    rw [h2, hout]
    cases s
    simp only at hnd
    subst hnd
    rfl

/-- A pass over a clean state whose cache already holds what the pass
computes leaves the state clean. -/
theorem SetDestScalarData_clean (hw_scale : HWScale) (s : HWPeripheralDRM) (info : HWLayersInfo)
    (hhw : s.base.hw_scale_ = some hw_scale) (hn : s.dest_scaler_blocks_used_ ≠ 0)
    (hlen : s.dest_scaler_blocks_used_ ≤ s.scalar_data_.length)
    (hclean : s.needs_ds_update_ = false)
    (hm : ∀ i, i < s.dest_scaler_blocks_used_ → ∀ d, info.dest_scale_info_map.find i = some d →
      (s.dest_scalar_cache_.getD i {}).scalar_data =
        hw_scale.SetScaler d.scale_data (s.scalar_data_.getD i {}) ∧
      (s.dest_scalar_cache_.getD i {}).flags =
        destScalerFlags (hw_scale.SetScaler d.scale_data (s.scalar_data_.getD i {}))
          d.scale_update s.base.partial_update) :
    (SetDestScalarData s info).needs_ds_update_ = false := by
  rw [(SetDestScalarData_spec hw_scale s info hhw hn hlen).1, hclean, Bool.false_or,
    List.any_eq_false]
  intro i hi
  have hi2 : i < s.dest_scaler_blocks_used_ := List.mem_range.mp hi
  unfold blockDiffers
  cases hfind : info.dest_scale_info_map.find i with
  | none => simp
  | some d =>
    obtain ⟨h1, h2⟩ := hm i hi2 d hfind
    simp only [requestedScale, requestedFlags, hfind]
    rw [h1, h2]
    simp

/-- A block that the pass finds different makes the state dirty. -/
theorem SetDestScalarData_dirty (hw_scale : HWScale) (s : HWPeripheralDRM) (info : HWLayersInfo)
    (hhw : s.base.hw_scale_ = some hw_scale) (hn : s.dest_scaler_blocks_used_ ≠ 0)
    (hlen : s.dest_scaler_blocks_used_ ≤ s.scalar_data_.length)
    (i : Nat) (hi : i < s.dest_scaler_blocks_used_) (hd : blockDiffers hw_scale info s i = true) :
    (SetDestScalarData s info).needs_ds_update_ = true := by
  rw [(SetDestScalarData_spec hw_scale s info hhw hn hlen).1, Bool.or_eq_true, List.any_eq_true]
  exact Or.inr ⟨i, List.mem_range.mpr hi, hd⟩

/-- Each of the four flag bits of the word built by `destScalerFlags` is set
exactly when its source is. -/
theorem destScalerFlags_bits (scale : SDEScaler) (scale_update partial_update : Bool) :
    (destScalerFlags scale scale_update partial_update &&& SDE_DRM_DESTSCALER_ENABLE ≠ 0
      ↔ scale.enable ≠ 0) ∧
    (destScalerFlags scale scale_update partial_update &&& SDE_DRM_DESTSCALER_ENHANCER_UPDATE ≠ 0
      ↔ scale.de_enable ≠ 0) ∧
    (destScalerFlags scale scale_update partial_update &&& SDE_DRM_DESTSCALER_SCALE_UPDATE ≠ 0
      ↔ scale_update = true) ∧
    (destScalerFlags scale scale_update partial_update &&& SDE_DRM_DESTSCALER_PU_ENABLE ≠ 0
      ↔ partial_update = true) := by
  unfold destScalerFlags
  by_cases h1 : scale.enable = 0 <;> by_cases h2 : scale.de_enable = 0 <;>
    cases scale_update <;> cases partial_update <;>
    simp only [h1, h2, ne_eq, not_true_eq_false, not_false_eq_true, if_true, if_false,
      Bool.false_eq_true] <;>
    decide

/-- C4, as amended: for every allocated block that is present in the request,
if the requested block configuration differs from the cached entry in any one
flag (enable, enhancer-update, scale-update, partial-update) or in any byte of
the converted scaling descriptor, then `SetDestScalarData` sets
`needs_ds_update_`. (The mixer width and height are not part of the cached
entry and are not compared.) -/
theorem SetDestScalarData_detects_change (hw_scale : HWScale) (s : HWPeripheralDRM)
    (info : HWLayersInfo) (i : Nat) (d : HWDestScaleInfo)
    (hhw : s.base.hw_scale_ = some hw_scale)
    (hsl : s.dest_scaler_blocks_used_ ≤ s.scalar_data_.length)
    (hi : i < s.dest_scaler_blocks_used_)
    (hfind : info.dest_scale_info_map.find i = some d)
    (hdiff :
      (s.dest_scalar_cache_.getD i {}).scalar_data ≠
        hw_scale.SetScaler d.scale_data (s.scalar_data_.getD i {}) ∨
      ¬ ((s.dest_scalar_cache_.getD i {}).flags &&& SDE_DRM_DESTSCALER_ENABLE ≠ 0 ↔
        (hw_scale.SetScaler d.scale_data (s.scalar_data_.getD i {})).enable ≠ 0) ∨
      ¬ ((s.dest_scalar_cache_.getD i {}).flags &&& SDE_DRM_DESTSCALER_ENHANCER_UPDATE ≠ 0 ↔
        (hw_scale.SetScaler d.scale_data (s.scalar_data_.getD i {})).de_enable ≠ 0) ∨
      ¬ ((s.dest_scalar_cache_.getD i {}).flags &&& SDE_DRM_DESTSCALER_SCALE_UPDATE ≠ 0 ↔
        d.scale_update = true) ∨
      ¬ ((s.dest_scalar_cache_.getD i {}).flags &&& SDE_DRM_DESTSCALER_PU_ENABLE ≠ 0 ↔
        s.base.partial_update = true)) :
    (SetDestScalarData s info).needs_ds_update_ = true := by
  apply SetDestScalarData_dirty hw_scale s info hhw (by omega) hsl i hi
  simp only [blockDiffers, requestedScale, requestedFlags, hfind, decide_eq_true_eq]
  by_cases hsc : (s.dest_scalar_cache_.getD i {}).scalar_data =
      hw_scale.SetScaler d.scale_data (s.scalar_data_.getD i {})
  · right
    intro hfl
    obtain ⟨b1, b2, b3, b4⟩ := destScalerFlags_bits
      (hw_scale.SetScaler d.scale_data (s.scalar_data_.getD i {})) d.scale_update
      s.base.partial_update
    rw [← hfl] at b1 b2 b3 b4
    rcases hdiff with h | h | h | h | h
    · exact h hsc
    · exact h b1
    · exact h b2
    · exact h b3
    · exact h b4
  · left; exact hsc

/-- Instance of `SetDestScalarData_detects_change`: a fresh single-block object
(cache all zero) and a request that enables the scaler. -/
theorem SetDestScalarData_detects_change_witness :
    (0 : Nat) < (scalerObject SplitType.kNoSplit).dest_scaler_blocks_used_ ∧
    (SetDestScalarData (scalerObject SplitType.kNoSplit)
      (oneBlockRequest 0 1 1080)).needs_ds_update_ = true :=
  ⟨by decide,
    SetDestScalarData_detects_change sampleScale (scalerObject SplitType.kNoSplit)
      (oneBlockRequest 0 1 1080) 0 (blockInfo 1 1080)
      rfl (by decide) (by decide) rfl (Or.inl (by decide))⟩

/-- C4 as stated fails for the mixer width: after a request with width 1080
has been committed, the same request with width 720 is programmed into
`ds_cfg[0]` but leaves `needs_ds_update_` false. -/
theorem SetDestScalarData_ignores_mixer_width :
    ((CacheDestScalarData (SetDestScalarData (scalerObject SplitType.kNoSplit)
      (oneBlockRequest 0 1 1080))).sde_dest_scalar_data_.ds_cfg 0).lm_width = 1080 ∧
    ((SetDestScalarData
      (CacheDestScalarData (SetDestScalarData (scalerObject SplitType.kNoSplit)
        (oneBlockRequest 0 1 1080)))
      (oneBlockRequest 0 1 720)).sde_dest_scalar_data_.ds_cfg 0).lm_width = 720 ∧
    (SetDestScalarData
      (CacheDestScalarData (SetDestScalarData (scalerObject SplitType.kNoSplit)
        (oneBlockRequest 0 1 1080)))
      (oneBlockRequest 0 1 720)).needs_ds_update_ = false := by
  decide

/-! ## What the helper routines keep -/

/-- From agreement of two blanked objects to agreement on a member that the
blanking leaves alone. -/
theorem obs_field {α : Type} (obs : HWPeripheralDRM → HWPeripheralDRM)
    (f : HWPeripheralDRM → α) (hf : ∀ s, f (obs s) = f s) {a b : HWPeripheralDRM}
    (h : obs a = obs b) : f a = f b := by
  rw [← hf a, ← hf b, h]

/-- The members other than the cache and the dirty flag after
`CacheDestScalarData`. -/
theorem CacheDestScalarData_outside (s : HWPeripheralDRM) :
    outsideCacheAndFlag (CacheDestScalarData s) = outsideCacheAndFlag s := by
  unfold CacheDestScalarData
  cases hnd : s.needs_ds_update_ with
  | false => simp only [Bool.false_eq_true, if_false]
  | true =>
    simp only [if_true]
    have hout := foldl_keeps outsideCacheAndFlag cacheDestScalarBlock (fun _ _ => rfl)
      (List.range s.sde_dest_scalar_data_.num_dest_scaler) s
    exact hout


theorem SetSelfRefreshState_outsideLog (s : HWPeripheralDRM) :
    outsideLog (SetSelfRefreshState s) = outsideLog s := by
  unfold SetSelfRefreshState
  split_ifs <;> rfl

theorem histCtrlWrites_outsideLog (s : HWPeripheralDRM) (v : Nat) :
    outsideLog (histCtrlWrites s v) = outsideLog s := by
  unfold histCtrlWrites
  cases h1 : s.ltm_hist_en_ <;> cases h2 : s.aba_hist_en_ <;> simp [h1, h2, Perform, outsideLog]

theorem SetVMReqState_outsideLog (s : HWPeripheralDRM) :
    outsideLog (SetVMReqState s) = outsideLog s := by
  unfold SetVMReqState
  split_ifs
  · rw [histCtrlWrites_outsideLog]; rfl
  · rw [histCtrlWrites_outsideLog]; rfl
  · rfl
  · rfl

theorem SetVMReqState_outsideCall (s : HWPeripheralDRM) :
    outsideCall (SetVMReqState s) = outsideCall s := by
  have h := congrArg outsideCall (SetVMReqState_outsideLog s)
  exact h

theorem SetSelfRefreshState_outsideCall (s : HWPeripheralDRM) :
    outsideCall (SetSelfRefreshState s) = outsideCall s := by
  have h := congrArg outsideCall (SetSelfRefreshState_outsideLog s)
  exact h

theorem invoke_outsideCall (env : Env) (s : HWPeripheralDRM) (c : BaseCall) :
    outsideCall (invoke env s c).2 = outsideCall s := rfl

/-- Up to the executor call, `Commit` changes the object as
`SetDestScalarData` does, apart from the call record and the base-class
members. -/
theorem preCommit_outsideCall (env : Env) (s : HWPeripheralDRM) (info : HWLayersInfo) :
    outsideCall (preCommit env s info) = outsideCall (SetDestScalarData s info) := by
  unfold preCommit
  simp only
  rw [SetVMReqState_outsideCall, SetSelfRefreshState_outsideCall, invoke_outsideCall,
    invoke_outsideCall]

theorem preCommit_outside (env : Env) (s : HWPeripheralDRM) (info : HWLayersInfo) :
    outsidePreCommit (preCommit env s info) = outsidePreCommit s := by
  have h1 : outsidePreCommit (preCommit env s info) =
      outsidePreCommit (SetDestScalarData s info) := by
    have h := congrArg outsidePreCommit (preCommit_outsideCall env s info)
    exact h
  have h2 : outsidePreCommit (SetDestScalarData s info) = outsidePreCommit s := by
    have h := congrArg outsidePreCommit (SetDestScalarData_outside s info)
    exact h
  exact h1.trans h2

/-- The cache and the dirty flag after the success path of `Commit` are those
that `CacheDestScalarData` leaves. -/
theorem postCommit_cache (env : Env) (s : HWPeripheralDRM) :
    (postCommit env s).dest_scalar_cache_ = (CacheDestScalarData s).dest_scalar_cache_ ∧
    (postCommit env s).needs_ds_update_ = (CacheDestScalarData s).needs_ds_update_ := by
  unfold postCommit
  simp only [invoke]
  split_ifs <;> exact ⟨rfl, rfl⟩

/-- A failed executor call ends `Commit` at once. -/
theorem Commit_failure (env : Env) (s : HWPeripheralDRM) (info : HWLayersInfo)
    (h : (Commit env s info).1 ≠ DisplayError.kErrorNone) :
    Commit env s info = invoke env (preCommit env s info) (BaseCall.Commit info) := by
  unfold Commit at h ⊢
  simp only at h ⊢
  by_cases hr : (invoke env (preCommit env s info) (BaseCall.Commit info)).1 ≠
      DisplayError.kErrorNone
  · rw [if_pos hr]
  · rw [if_neg hr] at h
    exact absurd h hr

/-- After a successful executor call `Commit` runs its success path. -/
theorem Commit_success (env : Env) (s : HWPeripheralDRM) (info : HWLayersInfo)
    (h : (Commit env s info).1 = DisplayError.kErrorNone) :
    (invoke env (preCommit env s info) (BaseCall.Commit info)).1 = DisplayError.kErrorNone ∧
    (Commit env s info).2 =
      postCommit env (invoke env (preCommit env s info) (BaseCall.Commit info)).2 := by
  unfold Commit at h ⊢
  simp only at h ⊢
  by_cases hr : (invoke env (preCommit env s info) (BaseCall.Commit info)).1 ≠
      DisplayError.kErrorNone
  · rw [if_pos hr] at h
    exact absurd h hr
  · rw [if_neg hr]
    exact ⟨not_not.mp hr, rfl⟩

/-! ## The second pass after a commit -/

/-- The success path of `Commit` leaves the scaler slots and the block count
alone. -/
theorem postCommit_scalar (env : Env) (x : HWPeripheralDRM) :
    (postCommit env x).scalar_data_ = x.scalar_data_ ∧
    (postCommit env x).dest_scaler_blocks_used_ = x.dest_scaler_blocks_used_ := by
  have hk := CacheDestScalarData_outside x
  have h1 : (CacheDestScalarData x).scalar_data_ = x.scalar_data_ :=
    obs_field outsideCacheAndFlag HWPeripheralDRM.scalar_data_ (fun _ => rfl) hk
  have h2 : (CacheDestScalarData x).dest_scaler_blocks_used_ = x.dest_scaler_blocks_used_ :=
    obs_field outsideCacheAndFlag HWPeripheralDRM.dest_scaler_blocks_used_ (fun _ => rfl) hk
  unfold postCommit
  simp only [invoke]
  split_ifs <;> exact ⟨h1, h2⟩

/-- The second pass is clean on every object `y` that holds the slots of the
first pass, the cache that `CacheDestScalarData` built from them, a clear
dirty flag, and the same scaler and partial-update setting. -/
theorem second_pass_core (hw_scale : HWScale) (s : HWPeripheralDRM) (info : HWLayersInfo)
    (x y : HWPeripheralDRM)
    (hhw : s.base.hw_scale_ = some hw_scale) (hn : s.dest_scaler_blocks_used_ ≠ 0)
    (hsl : s.scalar_data_.length = s.dest_scaler_blocks_used_)
    (hcl : s.dest_scalar_cache_.length = s.dest_scaler_blocks_used_)
    (hw32 : s.dest_scaler_blocks_used_ < 2 ^ 32)
    (hsize : info.dest_scale_info_map.size ≤ s.dest_scaler_blocks_used_)
    (hkeys : ∀ i, i < s.dest_scaler_blocks_used_ → info.dest_scale_info_map.find i ≠ none →
      i < info.dest_scale_info_map.size)
    (hidem : ∀ d z, hw_scale.SetScaler d (hw_scale.SetScaler d z) = hw_scale.SetScaler d z)
    (hx : outsideCall x = outsideCall (SetDestScalarData s info))
    (hyc : y.dest_scalar_cache_ = (CacheDestScalarData x).dest_scalar_cache_)
    (hys : y.scalar_data_ = x.scalar_data_)
    (hyn : y.needs_ds_update_ = false)
    (hyb : y.dest_scaler_blocks_used_ = s.dest_scaler_blocks_used_)
    (hyhw : y.base.hw_scale_ = some hw_scale)
    (hypu : y.base.partial_update = s.base.partial_update) :
    (SetDestScalarData y info).needs_ds_update_ = false := by
  obtain ⟨hnd1, hsc1, hfl1, hnum1, hlen1⟩ :=
    SetDestScalarData_spec hw_scale s info hhw hn (by omega)
  have hcache1 : (SetDestScalarData s info).dest_scalar_cache_ = s.dest_scalar_cache_ :=
    obs_field outsideScalarData HWPeripheralDRM.dest_scalar_cache_ (fun _ => rfl)
      (SetDestScalarData_outside s info)
  have hxc : x.dest_scalar_cache_ = (SetDestScalarData s info).dest_scalar_cache_ :=
    obs_field outsideCall HWPeripheralDRM.dest_scalar_cache_ (fun _ => rfl) hx
  have hxs : x.scalar_data_ = (SetDestScalarData s info).scalar_data_ :=
    obs_field outsideCall HWPeripheralDRM.scalar_data_ (fun _ => rfl) hx
  have hxd : x.sde_dest_scalar_data_ = (SetDestScalarData s info).sde_dest_scalar_data_ :=
    obs_field outsideCall HWPeripheralDRM.sde_dest_scalar_data_ (fun _ => rfl) hx
  have hxn : x.needs_ds_update_ = (SetDestScalarData s info).needs_ds_update_ :=
    obs_field outsideCall HWPeripheralDRM.needs_ds_update_ (fun _ => rfl) hx
  obtain ⟨-, -, hc2, -⟩ := CacheDestScalarData_spec x
  apply SetDestScalarData_clean hw_scale y info hyhw (by rw [hyb]; exact hn)
    (by rw [hyb, hys, hxs, hlen1]; omega) hyn
  intro i hi d hfind
  rw [hyb] at hi
  have hslot : y.scalar_data_.getD i {} =
      hw_scale.SetScaler d.scale_data (s.scalar_data_.getD i {}) := by
    rw [hys, hxs, hsc1 i, if_pos hi]
    simp only [requestedScale, hfind]
  have hflag : (x.sde_dest_scalar_data_.ds_cfg i).flags =
      destScalerFlags (hw_scale.SetScaler d.scale_data (s.scalar_data_.getD i {}))
        d.scale_update s.base.partial_update := by
    rw [hxd, hfl1 i, if_pos hi]
    simp only [requestedFlags, hfind]
  rw [hslot, hidem, hypu, hyc, hc2 i]
  cases hdirty : x.needs_ds_update_ with
  | true =>
    have hlt : i < info.dest_scale_info_map.size := hkeys i hi (by rw [hfind]; simp)
    have hnum : x.sde_dest_scalar_data_.num_dest_scaler = info.dest_scale_info_map.size := by
      rw [hxd, hnum1, ← hxn, hdirty]
      simp only [if_true]
      exact Nat.mod_eq_of_lt (by omega)
    have hcond : (true = true ∧ i < x.sde_dest_scalar_data_.num_dest_scaler ∧
        i < x.dest_scalar_cache_.length) := ⟨rfl, by omega, by rw [hxc, hcache1]; omega⟩
    rw [if_pos hcond]
    simp only
    rw [hflag, ← hys, hslot]
    exact ⟨rfl, rfl⟩
  | false =>
    have hcond : ¬ (false = true ∧ i < x.sde_dest_scalar_data_.num_dest_scaler ∧
        i < x.dest_scalar_cache_.length) := by simp
    rw [if_neg hcond, hxc, hcache1]
    rw [← hxn, hdirty] at hnd1
    have hany : (List.range s.dest_scaler_blocks_used_).any (blockDiffers hw_scale info s) =
        false := by
      cases hv : (List.range s.dest_scaler_blocks_used_).any (blockDiffers hw_scale info s) with
      | false => rfl
      | true => rw [hv, Bool.or_true] at hnd1; exact absurd hnd1 (by decide)
    have hblock := (List.any_eq_false.mp hany) i (List.mem_range.mpr hi)
    simp only [blockDiffers, requestedScale, requestedFlags, hfind, Bool.not_eq_true,
      decide_eq_false_iff_not, not_or, not_not, ne_eq] at hblock
    exact hblock

/-- C3, as amended: for every state with a scaler present, at least one
allocated block and one vector slot per allocated block, and every request map
in which each allocated block index that is present is smaller than the
map's size (as when the keys are 0, 1, .., k-1), the size being at most the
number of allocated blocks, and a scaler conversion that reproduces its own
output when run again on it: after `SetDestScalarData(req)` and
`CacheDestScalarData`, a second `SetDestScalarData(req)` leaves
`needs_ds_update_` false; and so does a `SetDestScalarData(req)` after a
successful `Commit(req)` that leaves the scaler and the partial-update setting
as they were. -/
theorem SetDestScalarData_second_pass_clean (hw_scale : HWScale) (s : HWPeripheralDRM)
    (info : HWLayersInfo)
    (hhw : s.base.hw_scale_ = some hw_scale) (hn : s.dest_scaler_blocks_used_ ≠ 0)
    (hsl : s.scalar_data_.length = s.dest_scaler_blocks_used_)
    (hcl : s.dest_scalar_cache_.length = s.dest_scaler_blocks_used_)
    (hw32 : s.dest_scaler_blocks_used_ < 2 ^ 32)
    (hsize : info.dest_scale_info_map.size ≤ s.dest_scaler_blocks_used_)
    (hkeys : ∀ i, i < s.dest_scaler_blocks_used_ → info.dest_scale_info_map.find i ≠ none →
      i < info.dest_scale_info_map.size)
    (hidem : ∀ d z, hw_scale.SetScaler d (hw_scale.SetScaler d z) = hw_scale.SetScaler d z) :
    (SetDestScalarData (CacheDestScalarData (SetDestScalarData s info)) info).needs_ds_update_
      = false ∧
    (∀ env : Env, (Commit env s info).1 = DisplayError.kErrorNone →
      (Commit env s info).2.base.hw_scale_ = some hw_scale →
      (Commit env s info).2.base.partial_update = s.base.partial_update →
      (SetDestScalarData (Commit env s info).2 info).needs_ds_update_ = false) := by
  have hblk1 : (SetDestScalarData s info).dest_scaler_blocks_used_ = s.dest_scaler_blocks_used_ :=
    obs_field outsideScalarData HWPeripheralDRM.dest_scaler_blocks_used_ (fun _ => rfl)
      (SetDestScalarData_outside s info)
  have hbase1 : (SetDestScalarData s info).base = s.base :=
    obs_field outsideScalarData HWPeripheralDRM.base (fun _ => rfl)
      (SetDestScalarData_outside s info)
  constructor
  · have hk := CacheDestScalarData_outside (SetDestScalarData s info)
    apply second_pass_core hw_scale s info (SetDestScalarData s info)
      (CacheDestScalarData (SetDestScalarData s info)) hhw hn hsl hcl hw32 hsize hkeys hidem
      rfl rfl
    · exact obs_field outsideCacheAndFlag HWPeripheralDRM.scalar_data_ (fun _ => rfl) hk
    · exact (CacheDestScalarData_spec (SetDestScalarData s info)).1
    · rw [← hblk1]
      exact obs_field outsideCacheAndFlag HWPeripheralDRM.dest_scaler_blocks_used_
        (fun _ => rfl) hk
    · rw [← hhw, ← hbase1]
      exact congrArg HWDeviceDRM.hw_scale_
        (obs_field outsideCacheAndFlag HWPeripheralDRM.base (fun _ => rfl) hk)
    · rw [← hbase1]
      exact congrArg HWDeviceDRM.partial_update
        (obs_field outsideCacheAndFlag HWPeripheralDRM.base (fun _ => rfl) hk)
  · intro env hok hscale hpu
    obtain ⟨-, hpost⟩ := Commit_success env s info hok
    have hx : outsideCall (invoke env (preCommit env s info) (BaseCall.Commit info)).2 =
        outsideCall (SetDestScalarData s info) := by
      rw [invoke_outsideCall, preCommit_outsideCall]
    obtain ⟨hpc, hpn⟩ :=
      postCommit_cache env (invoke env (preCommit env s info) (BaseCall.Commit info)).2
    obtain ⟨hps, hpb⟩ :=
      postCommit_scalar env (invoke env (preCommit env s info) (BaseCall.Commit info)).2
    apply second_pass_core hw_scale s info
      (invoke env (preCommit env s info) (BaseCall.Commit info)).2 (Commit env s info).2
      hhw hn hsl hcl hw32 hsize hkeys hidem hx
    · rw [hpost, hpc]
    · rw [hpost, hps]
    · rw [hpost, hpn]
      exact (CacheDestScalarData_spec _).1
    · rw [hpost, hpb, ← hblk1]
      exact obs_field outsideCall HWPeripheralDRM.dest_scaler_blocks_used_ (fun _ => rfl) hx
    · exact hscale
    · exact hpu

/-- Instance of `SetDestScalarData_second_pass_clean`: a dual-split object and
a request for block 0 only. -/
theorem SetDestScalarData_second_pass_clean_witness :
    (scalerObject SplitType.kDualSplit).dest_scaler_blocks_used_ ≠ 0 ∧
    (oneBlockRequest 0 1 1080).dest_scale_info_map.size ≤
      (scalerObject SplitType.kDualSplit).dest_scaler_blocks_used_ ∧
    (SetDestScalarData (CacheDestScalarData
      (SetDestScalarData (scalerObject SplitType.kDualSplit) (oneBlockRequest 0 1 1080)))
      (oneBlockRequest 0 1 1080)).needs_ds_update_ = false ∧
    (SetDestScalarData
      (Commit okEnv (scalerObject SplitType.kDualSplit) (oneBlockRequest 0 1 1080)).2
      (oneBlockRequest 0 1 1080)).needs_ds_update_ = false :=
  have h := SetDestScalarData_second_pass_clean sampleScale (scalerObject SplitType.kDualSplit)
    (oneBlockRequest 0 1 1080) rfl (by decide) (by decide) (by decide) (by decide) (by decide)
    (by decide) (fun _ _ => rfl)
  ⟨by decide, by decide, h.1, h.2 okEnv (by decide) rfl (by decide)⟩

/-- C3 as stated fails for a request map whose only key is block 1 of a
dual-split object: the map's size is 1, so the commit caches entry 0 only, and
the second pass with the identical request is dirty again. -/
theorem SetDestScalarData_second_pass_dirty :
    (scalerObject SplitType.kDualSplit).base.hw_scale_.isSome = true ∧
    (scalerObject SplitType.kDualSplit).dest_scaler_blocks_used_ = 2 ∧
    (SetDestScalarData (scalerObject SplitType.kDualSplit)
      (oneBlockRequest 1 1 1080)).needs_ds_update_ = true ∧
    (CacheDestScalarData (SetDestScalarData (scalerObject SplitType.kDualSplit)
      (oneBlockRequest 1 1 1080))).needs_ds_update_ = false ∧
    (SetDestScalarData (CacheDestScalarData
      (SetDestScalarData (scalerObject SplitType.kDualSplit) (oneBlockRequest 1 1 1080)))
      (oneBlockRequest 1 1 1080)).needs_ds_update_ = true ∧
    (Commit okEnv (scalerObject SplitType.kDualSplit) (oneBlockRequest 1 1 1080)).1 =
      DisplayError.kErrorNone ∧
    (SetDestScalarData
      (Commit okEnv (scalerObject SplitType.kDualSplit) (oneBlockRequest 1 1 1080)).2
      (oneBlockRequest 1 1 1080)).needs_ds_update_ = true := by
  decide

/-! ## Commit confirmation and cache reset -/

/-- C5, as amended: after a successful `Commit` on an object with a scaler
and one vector slot per allocated block, for a request map no larger than the
number of allocated blocks: the dirty flag is false; if the diff was dirty,
then for every block index `i` included in the request map that is smaller
than the map's size, cache entry `i` holds exactly the descriptor and flags
requested for block `i`; if the diff was not dirty, the cache is unchanged. -/
theorem Commit_confirms_cache (env : Env) (hw_scale : HWScale) (s : HWPeripheralDRM)
    (info : HWLayersInfo)
    (hhw : s.base.hw_scale_ = some hw_scale) (hn : s.dest_scaler_blocks_used_ ≠ 0)
    (hsl : s.scalar_data_.length = s.dest_scaler_blocks_used_)
    (hcl : s.dest_scalar_cache_.length = s.dest_scaler_blocks_used_)
    (hw32 : s.dest_scaler_blocks_used_ < 2 ^ 32)
    (hsize : info.dest_scale_info_map.size ≤ s.dest_scaler_blocks_used_)
    (hok : (Commit env s info).1 = DisplayError.kErrorNone) :
    (Commit env s info).2.needs_ds_update_ = false ∧
    ((SetDestScalarData s info).needs_ds_update_ = true →
      ∀ i d, i < info.dest_scale_info_map.size → info.dest_scale_info_map.find i = some d →
        (Commit env s info).2.dest_scalar_cache_.getD i {} =
          { scalar_data := hw_scale.SetScaler d.scale_data (s.scalar_data_.getD i {})
            flags := destScalerFlags (hw_scale.SetScaler d.scale_data (s.scalar_data_.getD i {}))
              d.scale_update s.base.partial_update }) ∧
    ((SetDestScalarData s info).needs_ds_update_ = false →
      (Commit env s info).2.dest_scalar_cache_ = s.dest_scalar_cache_) := by
  obtain ⟨-, hpost⟩ := Commit_success env s info hok
  obtain ⟨hpc, hpn⟩ :=
    postCommit_cache env (invoke env (preCommit env s info) (BaseCall.Commit info)).2
  have hx : outsideCall (invoke env (preCommit env s info) (BaseCall.Commit info)).2 =
      outsideCall (SetDestScalarData s info) := by
    rw [invoke_outsideCall, preCommit_outsideCall]
  rw [hpost, hpc, hpn]
  generalize (invoke env (preCommit env s info) (BaseCall.Commit info)).2 = x at hx
  have hxc : x.dest_scalar_cache_ = (SetDestScalarData s info).dest_scalar_cache_ := by
    have h := congrArg HWPeripheralDRM.dest_scalar_cache_ hx
    exact h
  have hxs : x.scalar_data_ = (SetDestScalarData s info).scalar_data_ := by
    have h := congrArg HWPeripheralDRM.scalar_data_ hx
    exact h
  have hxd : x.sde_dest_scalar_data_ = (SetDestScalarData s info).sde_dest_scalar_data_ := by
    have h := congrArg HWPeripheralDRM.sde_dest_scalar_data_ hx
    exact h
  have hxn : x.needs_ds_update_ = (SetDestScalarData s info).needs_ds_update_ := by
    have h := congrArg HWPeripheralDRM.needs_ds_update_ hx
    exact h
  obtain ⟨-, hsc1, hfl1, hnum1, -⟩ := SetDestScalarData_spec hw_scale s info hhw hn (by omega)
  have hcache1 : (SetDestScalarData s info).dest_scalar_cache_ = s.dest_scalar_cache_ := by
    have h := congrArg HWPeripheralDRM.dest_scalar_cache_ (SetDestScalarData_outside s info)
    exact h
  obtain ⟨hnd2, -, hc2, hsame⟩ := CacheDestScalarData_spec x
  refine ⟨hnd2, ?_, ?_⟩
  · intro hdirty i d hi hfind
    have hin : i < s.dest_scaler_blocks_used_ := by omega
    have hcond : x.needs_ds_update_ = true ∧ i < x.sde_dest_scalar_data_.num_dest_scaler ∧
        i < x.dest_scalar_cache_.length := by
      refine ⟨by rw [hxn]; exact hdirty, ?_, by rw [hxc, hcache1]; omega⟩
      rw [hxd, hnum1, hdirty]
      simp only [if_true]
      rw [Nat.mod_eq_of_lt (by omega)]
      exact hi
    rw [hc2 i, if_pos hcond, hxs, hxd, hsc1 i, hfl1 i, if_pos hin, if_pos hin]
    simp only [requestedScale, requestedFlags, hfind]
  · intro hclean
    rw [hsame (by rw [hxn]; exact hclean), hxc, hcache1]

/-- Instance of `Commit_confirms_cache`: a single-block object, a request for
block 0, every outside call succeeding. -/
theorem Commit_confirms_cache_witness :
    (Commit okEnv (scalerObject SplitType.kNoSplit) (oneBlockRequest 0 1 1080)).1 =
      DisplayError.kErrorNone ∧
    (Commit okEnv (scalerObject SplitType.kNoSplit)
      (oneBlockRequest 0 1 1080)).2.needs_ds_update_ = false :=
  ⟨by decide,
    (Commit_confirms_cache okEnv sampleScale (scalerObject SplitType.kNoSplit)
      (oneBlockRequest 0 1 1080) rfl (by decide) (by decide) (by decide) (by decide)
      (by decide) (by decide)).1⟩

/-- C5 as stated fails for a request map whose only key is block 1 of a
dual-split object: the commit succeeds with a dirty diff, block 1 is allocated
and included, yet cache entry 1 still holds zeros instead of the requested
descriptor and flags. -/
theorem Commit_skips_sparse_block :
    (SetDestScalarData (scalerObject SplitType.kDualSplit)
      (oneBlockRequest 1 2 1080)).needs_ds_update_ = true ∧
    (Commit okEnv (scalerObject SplitType.kDualSplit) (oneBlockRequest 1 2 1080)).1 =
      DisplayError.kErrorNone ∧
    (1 : Nat) < (scalerObject SplitType.kDualSplit).dest_scaler_blocks_used_ ∧
    ((SetDestScalarData (scalerObject SplitType.kDualSplit)
      (oneBlockRequest 1 2 1080)).scalar_data_.getD 1 {}) = { enable := 2 } ∧
    ((SetDestScalarData (scalerObject SplitType.kDualSplit)
      (oneBlockRequest 1 2 1080)).sde_dest_scalar_data_.ds_cfg 1).flags = 1 ∧
    (Commit okEnv (scalerObject SplitType.kDualSplit)
      (oneBlockRequest 1 2 1080)).2.dest_scalar_cache_.getD 1 {} =
        { scalar_data := {}, flags := 0 } := by
  decide

/-- The loop of `ResetDestScalarCache`, described entry by entry. -/
theorem resetLoop_spec (s : HWPeripheralDRM) :
    ∀ m i, ((List.range m).foldl
        (fun st j => { st with dest_scalar_cache_ := st.dest_scalar_cache_.set j {} })
        s).dest_scalar_cache_.getD i {} =
      if i < m then {} else s.dest_scalar_cache_.getD i {} := by
  intro m
  induction m with
  | zero => intro i; simp
  | succ m ih =>
    intro i
    rw [List.range_succ, List.foldl_append, List.foldl_cons, List.foldl_nil]
    generalize (List.range m).foldl
      (fun st j => { st with dest_scalar_cache_ := st.dest_scalar_cache_.set j {} }) s = t at *
    simp only
    by_cases h2 : i = m
    · subst h2
      simp only [Nat.lt_succ_self, if_true]
      by_cases hb : i < t.dest_scalar_cache_.length
      · rw [getD_set_self _ _ _ _ hb]
      · have hnone : t.dest_scalar_cache_[i]? = none := List.getElem?_eq_none (by omega)
        simp [List.getD_eq_getElem?_getD, List.getElem?_set, hb, hnone]
    · rw [getD_set_other _ _ _ _ _ (Ne.symm h2), ih i]
      by_cases h1 : i < m
      · simp [h1, Nat.lt_succ_of_lt h1]
      · have : ¬ i < m + 1 := by omega
        simp [h1, this]

theorem ResetDestScalarCache_outside (s : HWPeripheralDRM) :
    outsideCache (ResetDestScalarCache s) = outsideCache s :=
  foldl_keeps outsideCache
    (fun st j => { st with dest_scalar_cache_ := st.dest_scalar_cache_.set j {} })
    (fun _ _ => rfl) (List.range s.scalar_data_.length) s

/-- A successful `Flush` ends with `ResetDestScalarCache`; a failed one is the
base-class call alone. -/
theorem Flush_cases (env : Env) (s : HWPeripheralDRM) :
    ((Flush env s).1 = DisplayError.kErrorNone →
      (Flush env s).2 = ResetDestScalarCache (invoke env s BaseCall.Flush).2) ∧
    ((Flush env s).1 ≠ DisplayError.kErrorNone → Flush env s = invoke env s BaseCall.Flush) := by
  unfold Flush
  simp only
  by_cases hr : (invoke env s BaseCall.Flush).1 ≠ DisplayError.kErrorNone
  · rw [if_pos hr]
    exact ⟨fun h => absurd h hr, fun _ => rfl⟩
  · rw [if_neg hr]
    exact ⟨fun _ => rfl, fun h => absurd rfl h⟩

/-- C6, as amended: a successful `Flush` ends with `ResetDestScalarCache`, and
after `ResetDestScalarCache` the next `SetDestScalarData` reports dirty
whenever the dirty flag was already set, or the request includes an allocated
block whose converted descriptor is not all zero or whose flags word is not
zero. -/
theorem ResetDestScalarCache_forces_update (env : Env) (s0 : HWPeripheralDRM)
    (hw_scale : HWScale) (s : HWPeripheralDRM) (info : HWLayersInfo)
    (hhw : s.base.hw_scale_ = some hw_scale) (hn : s.dest_scaler_blocks_used_ ≠ 0)
    (hsl : s.scalar_data_.length = s.dest_scaler_blocks_used_)
    (hreq : s.needs_ds_update_ = true ∨
      ∃ i d, i < s.dest_scaler_blocks_used_ ∧ info.dest_scale_info_map.find i = some d ∧
        (hw_scale.SetScaler d.scale_data (s.scalar_data_.getD i {}) ≠ {} ∨
         destScalerFlags (hw_scale.SetScaler d.scale_data (s.scalar_data_.getD i {}))
           d.scale_update s.base.partial_update ≠ 0)) :
    ((Flush env s0).1 = DisplayError.kErrorNone →
      (Flush env s0).2 = ResetDestScalarCache (invoke env s0 BaseCall.Flush).2) ∧
    (SetDestScalarData (ResetDestScalarCache s) info).needs_ds_update_ = true := by
  refine ⟨(Flush_cases env s0).1, ?_⟩
  have hout := ResetDestScalarCache_outside s
  have hbase : (ResetDestScalarCache s).base = s.base := by
    have h := congrArg HWPeripheralDRM.base hout
    exact h
  have hblk : (ResetDestScalarCache s).dest_scaler_blocks_used_ = s.dest_scaler_blocks_used_ := by
    have h := congrArg HWPeripheralDRM.dest_scaler_blocks_used_ hout
    exact h
  have hsd : (ResetDestScalarCache s).scalar_data_ = s.scalar_data_ := by
    have h := congrArg HWPeripheralDRM.scalar_data_ hout
    exact h
  have hnd : (ResetDestScalarCache s).needs_ds_update_ = s.needs_ds_update_ := by
    have h := congrArg HWPeripheralDRM.needs_ds_update_ hout
    exact h
  have hc : ∀ i, i < s.dest_scaler_blocks_used_ →
      (ResetDestScalarCache s).dest_scalar_cache_.getD i {} = {} := by
    intro i hi
    have h := resetLoop_spec s s.scalar_data_.length i
    rw [if_pos (by omega)] at h
    exact h
  generalize ResetDestScalarCache s = r at *
  have hspec := (SetDestScalarData_spec hw_scale r info (by rw [hbase]; exact hhw)
    (by rw [hblk]; exact hn) (by rw [hblk, hsd]; omega)).1
  rcases hreq with hdirty | ⟨i, d, hi, hfind, hnz⟩
  · rw [hspec, hnd, hdirty, Bool.true_or]
  · apply SetDestScalarData_dirty hw_scale r info (by rw [hbase]; exact hhw)
      (by rw [hblk]; exact hn) (by rw [hblk, hsd]; omega) i (by rw [hblk]; exact hi)
    simp only [blockDiffers, requestedScale, requestedFlags, hfind, decide_eq_true_eq]
    rw [hc i hi, hsd, hbase]
    rcases hnz with h | h
    · left; exact fun e => h e.symm
    · right; exact fun e => h e.symm

/-- Instance of `ResetDestScalarCache_forces_update`: a single-block object
and a request that enables the scaler. -/
theorem ResetDestScalarCache_forces_update_witness :
    (scalerObject SplitType.kNoSplit).dest_scaler_blocks_used_ ≠ 0 ∧
    ((Flush okEnv (scalerObject SplitType.kNoSplit)).1 = DisplayError.kErrorNone →
      (Flush okEnv (scalerObject SplitType.kNoSplit)).2 =
        ResetDestScalarCache (invoke okEnv (scalerObject SplitType.kNoSplit) BaseCall.Flush).2) ∧
    (SetDestScalarData (ResetDestScalarCache (scalerObject SplitType.kNoSplit))
      (oneBlockRequest 0 1 1080)).needs_ds_update_ = true :=
  ⟨by decide,
    ResetDestScalarCache_forces_update okEnv (scalerObject SplitType.kNoSplit) sampleScale
      (scalerObject SplitType.kNoSplit) (oneBlockRequest 0 1 1080) rfl (by decide) (by decide)
      (Or.inr ⟨0, blockInfo 1 1080, by decide, rfl, Or.inl (by decide)⟩)⟩

/-- C6 as stated fails for a request whose converted descriptor and flags are
all zero: after a successful `Flush` (and after `ResetDestScalarCache` alone)
the request for allocated block 0 leaves `needs_ds_update_` false. -/
theorem ResetDestScalarCache_zero_request_clean :
    (0 : Nat) < (scalerObject SplitType.kNoSplit).dest_scaler_blocks_used_ ∧
    (oneBlockRequest 0 0 1080).dest_scale_info_map.find 0 = some (blockInfo 0 1080) ∧
    (SetDestScalarData (ResetDestScalarCache (scalerObject SplitType.kNoSplit))
      (oneBlockRequest 0 0 1080)).needs_ds_update_ = false ∧
    (Flush okEnv (scalerObject SplitType.kNoSplit)).1 = DisplayError.kErrorNone ∧
    (SetDestScalarData (Flush okEnv (scalerObject SplitType.kNoSplit)).2
      (oneBlockRequest 0 0 1080)).needs_ds_update_ = false := by
  decide

/-! ## Commit -/

/-- C7: if the executor's commit returns an error, `Commit` returns that error
and the scaler cache, the self-refresh state, both POMS flags, the
synchronous-commit flag, the active flag and the idle-power-collapse state
(request and enable flag) equal their values before the call. -/
theorem Commit_failure_promotes_nothing (env : Env) (s : HWPeripheralDRM) (info : HWLayersInfo)
    (hfail : (env.call (preCommit env s info) (BaseCall.Commit info)).1 ≠
      DisplayError.kErrorNone) :
    (Commit env s info).1 = (env.call (preCommit env s info) (BaseCall.Commit info)).1 ∧
    (Commit env s info).2.dest_scalar_cache_ = s.dest_scalar_cache_ ∧
    (Commit env s info).2.self_refresh_state_ = s.self_refresh_state_ ∧
    (Commit env s info).2.doze_poms_switch_done_ = s.doze_poms_switch_done_ ∧
    (Commit env s info).2.pending_poms_switch_ = s.pending_poms_switch_ ∧
    (Commit env s info).2.synchronous_commit_ = s.synchronous_commit_ ∧
    (Commit env s info).2.active_ = s.active_ ∧
    (Commit env s info).2.idle_pc_state_ = s.idle_pc_state_ ∧
    (Commit env s info).2.idle_pc_enabled_ = s.idle_pc_enabled_ := by
  have hfail2 : (invoke env (preCommit env s info) (BaseCall.Commit info)).1 ≠
      DisplayError.kErrorNone := hfail
  have hc : Commit env s info = invoke env (preCommit env s info) (BaseCall.Commit info) := by
    unfold Commit
    simp only
    rw [if_pos hfail2]
  have hk : outsidePreCommit (Commit env s info).2 = outsidePreCommit s := by
    rw [hc]
    exact preCommit_outside env s info
  refine ⟨by rw [hc]; rfl, ?_, ?_, ?_, ?_, ?_, ?_, ?_, ?_⟩
  · exact obs_field outsidePreCommit HWPeripheralDRM.dest_scalar_cache_ (fun _ => rfl) hk
  · exact obs_field outsidePreCommit HWPeripheralDRM.self_refresh_state_ (fun _ => rfl) hk
  · exact obs_field outsidePreCommit HWPeripheralDRM.doze_poms_switch_done_ (fun _ => rfl) hk
  · exact obs_field outsidePreCommit HWPeripheralDRM.pending_poms_switch_ (fun _ => rfl) hk
  · exact obs_field outsidePreCommit HWPeripheralDRM.synchronous_commit_ (fun _ => rfl) hk
  · exact obs_field outsidePreCommit HWPeripheralDRM.active_ (fun _ => rfl) hk
  · exact obs_field outsidePreCommit HWPeripheralDRM.idle_pc_state_ (fun _ => rfl) hk
  · exact obs_field outsidePreCommit HWPeripheralDRM.idle_pc_enabled_ (fun _ => rfl) hk

/-- Instance of `Commit_failure_promotes_nothing`: the executor fails with a
hardware error on a single-block object with a dirty request. -/
theorem Commit_failure_promotes_nothing_witness :
    (Commit (failEnv DisplayError.kErrorHardware) (scalerObject SplitType.kNoSplit)
      (oneBlockRequest 0 1 1080)).1 = DisplayError.kErrorHardware ∧
    (Commit (failEnv DisplayError.kErrorHardware) (scalerObject SplitType.kNoSplit)
      (oneBlockRequest 0 1 1080)).2.dest_scalar_cache_ =
        (scalerObject SplitType.kNoSplit).dest_scalar_cache_ ∧
    (Commit (failEnv DisplayError.kErrorHardware) (scalerObject SplitType.kNoSplit)
      (oneBlockRequest 0 1 1080)).2.active_ = (scalerObject SplitType.kNoSplit).active_ :=
  have h := Commit_failure_promotes_nothing (failEnv DisplayError.kErrorHardware)
    (scalerObject SplitType.kNoSplit) (oneBlockRequest 0 1 1080) (by decide)
  ⟨h.1, h.2.1, h.2.2.2.2.2.2.1⟩

/-- The arbiter members and the call record after the success path of
`Commit`, for an object `x` as the executor call left it. -/
theorem postCommit_spec (env : Env) (x : HWPeripheralDRM) :
    (postCommit env x).synchronous_commit_ = false ∧
    (postCommit env x).active_ = true ∧
    (postCommit env x).idle_pc_state_ = DRMIdlePCState.NONE ∧
    (postCommit env x).self_refresh_state_ = advanceSelfRefresh x.self_refresh_state_ ∧
    (postCommit env x).pending_poms_switch_ = false ∧
    (postCommit env x).doze_poms_switch_done_ =
      (x.pending_poms_switch_ || x.doze_poms_switch_done_) ∧
    (postCommit env x).log = x.log ++
      (Call.base BaseCall.PostCommitConcurrentWriteback ::
        if x.pending_poms_switch_ then
          [Call.base (BaseCall.SetDisplayMode HWDisplayMode.kModeCommand)]
        else []) := by
  have hk := CacheDestScalarData_outside x
  have hp : (CacheDestScalarData x).pending_poms_switch_ = x.pending_poms_switch_ :=
    obs_field outsideCacheAndFlag HWPeripheralDRM.pending_poms_switch_ (fun _ => rfl) hk
  have hd : (CacheDestScalarData x).doze_poms_switch_done_ = x.doze_poms_switch_done_ :=
    obs_field outsideCacheAndFlag HWPeripheralDRM.doze_poms_switch_done_ (fun _ => rfl) hk
  have hl : (CacheDestScalarData x).log = x.log :=
    obs_field outsideCacheAndFlag HWPeripheralDRM.log (fun _ => rfl) hk
  have hs : (CacheDestScalarData x).self_refresh_state_ = x.self_refresh_state_ :=
    obs_field outsideCacheAndFlag HWPeripheralDRM.self_refresh_state_ (fun _ => rfl) hk
  unfold postCommit
  simp only [invoke, hp]
  cases hpend : x.pending_poms_switch_ with
  | true => simp [hd, hl, hs]
  | false => simp [hd, hl, hs, hpend]

/-- The arbiter members and the call record of the object that the executor
call of `Commit` leaves. -/
theorem Commit_executor_state (env : Env) (s : HWPeripheralDRM) (info : HWLayersInfo) :
    (invoke env (preCommit env s info) (BaseCall.Commit info)).2.pending_poms_switch_ =
      s.pending_poms_switch_ ∧
    (invoke env (preCommit env s info) (BaseCall.Commit info)).2.doze_poms_switch_done_ =
      s.doze_poms_switch_done_ ∧
    (invoke env (preCommit env s info) (BaseCall.Commit info)).2.self_refresh_state_ =
      s.self_refresh_state_ ∧
    (invoke env (preCommit env s info) (BaseCall.Commit info)).2.log =
      (preCommit env s info).log ++ [Call.base (BaseCall.Commit info)] := by
  have hk : outsidePreCommit (invoke env (preCommit env s info) (BaseCall.Commit info)).2 =
      outsidePreCommit s := preCommit_outside env s info
  exact ⟨obs_field outsidePreCommit HWPeripheralDRM.pending_poms_switch_ (fun _ => rfl) hk,
    obs_field outsidePreCommit HWPeripheralDRM.doze_poms_switch_done_ (fun _ => rfl) hk,
    obs_field outsidePreCommit HWPeripheralDRM.self_refresh_state_ (fun _ => rfl) hk, rfl⟩

/-- C8: after every `Commit` whose executor call succeeds, the
synchronous-commit flag is false and the active flag is true; if
`pending_poms_switch_` was true before, the panel is switched to command mode
(the call `SetDisplayMode(kModeCommand)` follows the executor call and the
writeback post-processing), `doze_poms_switch_done_` is true and
`pending_poms_switch_` is false; if it was false, both POMS flags are
unchanged. -/
theorem Commit_success_effects (env : Env) (s : HWPeripheralDRM) (info : HWLayersInfo)
    (hok : (Commit env s info).1 = DisplayError.kErrorNone) :
    (Commit env s info).2.synchronous_commit_ = false ∧
    (Commit env s info).2.active_ = true ∧
    (s.pending_poms_switch_ = true →
      (Commit env s info).2.log = (preCommit env s info).log ++
        [Call.base (BaseCall.Commit info), Call.base BaseCall.PostCommitConcurrentWriteback,
          Call.base (BaseCall.SetDisplayMode HWDisplayMode.kModeCommand)] ∧
      (Commit env s info).2.doze_poms_switch_done_ = true ∧
      (Commit env s info).2.pending_poms_switch_ = false) ∧
    (s.pending_poms_switch_ = false →
      (Commit env s info).2.log = (preCommit env s info).log ++
        [Call.base (BaseCall.Commit info), Call.base BaseCall.PostCommitConcurrentWriteback] ∧
      (Commit env s info).2.doze_poms_switch_done_ = s.doze_poms_switch_done_ ∧
      (Commit env s info).2.pending_poms_switch_ = s.pending_poms_switch_) := by
  obtain ⟨-, hpost⟩ := Commit_success env s info hok
  obtain ⟨hp, hd, -, hl⟩ := Commit_executor_state env s info
  obtain ⟨h1, h2, -, -, h5, h6, h7⟩ :=
    postCommit_spec env (invoke env (preCommit env s info) (BaseCall.Commit info)).2
  rw [hpost]
  rw [hp, hd] at h6
  rw [hp, hl] at h7
  refine ⟨h1, h2, ?_, ?_⟩
  · intro hpend
    rw [hpend] at h6 h7
    refine ⟨?_, by rw [h6]; rfl, h5⟩
    rw [h7]
    simp
  · intro hpend
    rw [hpend] at h6 h7
    refine ⟨?_, by rw [h6]; rfl, by rw [h5, hpend]⟩
    rw [h7]
    simp

/-- Instance of `Commit_success_effects`: a successful commit on an object
with a pending POMS switch. -/
theorem Commit_success_effects_witness :
    (Commit okEnv { scalerObject SplitType.kNoSplit with pending_poms_switch_ := true }
      (oneBlockRequest 0 1 1080)).1 = DisplayError.kErrorNone ∧
    (Commit okEnv { scalerObject SplitType.kNoSplit with pending_poms_switch_ := true }
      (oneBlockRequest 0 1 1080)).2.synchronous_commit_ = false ∧
    (Commit okEnv { scalerObject SplitType.kNoSplit with pending_poms_switch_ := true }
      (oneBlockRequest 0 1 1080)).2.doze_poms_switch_done_ = true :=
  have h := Commit_success_effects okEnv
    { scalerObject SplitType.kNoSplit with pending_poms_switch_ := true }
    (oneBlockRequest 0 1 1080) (by decide)
  ⟨by decide, h.1, (h.2.2.1 rfl).2.1⟩

/-- C9: with nothing but commits in between, a state starting at READ_ALLOC is
DISABLE_READ_ALLOC after one successful `Commit` and NONE after the second; a
state starting at WRITE_ALLOC or DISABLE_READ_ALLOC is NONE after one; NONE
stays NONE; and a failed `Commit` does not advance the state. -/
theorem Commit_self_refresh_cycle (env : Env) (s : HWPeripheralDRM)
    (info info2 : HWLayersInfo) :
    ((Commit env s info).1 = DisplayError.kErrorNone →
      (s.self_refresh_state_ = SelfRefreshState.kSelfRefreshReadAlloc →
        (Commit env s info).2.self_refresh_state_ =
          SelfRefreshState.kSelfRefreshDisableReadAlloc ∧
        ((Commit env (Commit env s info).2 info2).1 = DisplayError.kErrorNone →
          (Commit env (Commit env s info).2 info2).2.self_refresh_state_ =
            SelfRefreshState.kSelfRefreshNone)) ∧
      (s.self_refresh_state_ = SelfRefreshState.kSelfRefreshWriteAlloc →
        (Commit env s info).2.self_refresh_state_ = SelfRefreshState.kSelfRefreshNone) ∧
      (s.self_refresh_state_ = SelfRefreshState.kSelfRefreshDisableReadAlloc →
        (Commit env s info).2.self_refresh_state_ = SelfRefreshState.kSelfRefreshNone) ∧
      (s.self_refresh_state_ = SelfRefreshState.kSelfRefreshNone →
        (Commit env s info).2.self_refresh_state_ = SelfRefreshState.kSelfRefreshNone)) ∧
    ((Commit env s info).1 ≠ DisplayError.kErrorNone →
      (Commit env s info).2.self_refresh_state_ = s.self_refresh_state_) := by
  have step : ∀ (t : HWPeripheralDRM) (i : HWLayersInfo),
      (Commit env t i).1 = DisplayError.kErrorNone →
      (Commit env t i).2.self_refresh_state_ = advanceSelfRefresh t.self_refresh_state_ := by
    intro t i hok
    obtain ⟨-, hpost⟩ := Commit_success env t i hok
    obtain ⟨-, -, hs, -⟩ := Commit_executor_state env t i
    obtain ⟨-, -, -, h4, -⟩ :=
      postCommit_spec env (invoke env (preCommit env t i) (BaseCall.Commit i)).2
    rw [hpost, h4, hs]
  constructor
  · intro hok
    have h1 := step s info hok
    refine ⟨?_, ?_, ?_, ?_⟩
    · intro h
      have hfirst : (Commit env s info).2.self_refresh_state_ =
          SelfRefreshState.kSelfRefreshDisableReadAlloc := by rw [h1, h]; rfl
      refine ⟨hfirst, fun hok2 => ?_⟩
      rw [step _ info2 hok2, hfirst]; rfl
    · intro h; rw [h1, h]; rfl
    · intro h; rw [h1, h]; rfl
    · intro h; rw [h1, h]; rfl
  · intro hfail
    have hc := Commit_failure env s info hfail
    have hk : outsidePreCommit (Commit env s info).2 = outsidePreCommit s := by
      rw [hc]
      exact preCommit_outside env s info
    exact obs_field outsidePreCommit HWPeripheralDRM.self_refresh_state_ (fun _ => rfl) hk

/-- Instance of `Commit_self_refresh_cycle`: two successful commits from
READ_ALLOC. -/
theorem Commit_self_refresh_cycle_witness :
    (Commit okEnv
      { scalerObject SplitType.kNoSplit with
        self_refresh_state_ := SelfRefreshState.kSelfRefreshReadAlloc }
      (oneBlockRequest 0 1 1080)).2.self_refresh_state_ =
        SelfRefreshState.kSelfRefreshDisableReadAlloc ∧
    (Commit okEnv
      (Commit okEnv
        { scalerObject SplitType.kNoSplit with
          self_refresh_state_ := SelfRefreshState.kSelfRefreshReadAlloc }
        (oneBlockRequest 0 1 1080)).2
      (oneBlockRequest 0 1 1080)).2.self_refresh_state_ = SelfRefreshState.kSelfRefreshNone :=
  have h := (Commit_self_refresh_cycle okEnv
    { scalerObject SplitType.kNoSplit with
      self_refresh_state_ := SelfRefreshState.kSelfRefreshReadAlloc }
    (oneBlockRequest 0 1 1080) (oneBlockRequest 0 1 1080)).1 (by decide)
  ⟨(h.1 rfl).1, (h.1 rfl).2 (by decide)⟩

/-! ## Requests that return an error -/

/-- C11, as amended: for every state in which `pending_poms_switch_` is true
and every requested rate, `SetRefreshRate` returns the error
`kErrorNotSupported` and does not delegate the change to the base device: the
object, its call record included, is as before. -/
theorem SetRefreshRate_rejected_while_pending (env : Env) (s : HWPeripheralDRM)
    (refresh_rate : Nat) (hpending : s.pending_poms_switch_ = true) :
    (SetRefreshRate env s refresh_rate).1 = DisplayError.kErrorNotSupported ∧
    (SetRefreshRate env s refresh_rate).2 = s ∧
    (SetRefreshRate env s refresh_rate).2.log = s.log := by
  unfold SetRefreshRate
  simp [hpending]

/-- Instance of `SetRefreshRate_rejected_while_pending`: a request for 60 Hz
while a switch is pending. -/
theorem SetRefreshRate_rejected_while_pending_witness :
    (SetRefreshRate okEnv { sampleObject 4 SplitType.kNoSplit with pending_poms_switch_ := true }
      60).1 = DisplayError.kErrorNotSupported ∧
    (SetRefreshRate okEnv { sampleObject 4 SplitType.kNoSplit with pending_poms_switch_ := true }
      60).2.log = [] :=
  have h := SetRefreshRate_rejected_while_pending okEnv
    { sampleObject 4 SplitType.kNoSplit with pending_poms_switch_ := true } 60 rfl
  ⟨h.1, h.2.2⟩

/-- C11 as stated fails on the result code: with a switch pending,
`SetRefreshRate` returns `kErrorNotSupported`, which is not `kErrorDeferred`. -/
theorem SetRefreshRate_not_deferred :
    ({ sampleObject 4 SplitType.kNoSplit with
        pending_poms_switch_ := true } : HWPeripheralDRM).pending_poms_switch_ = true ∧
    (SetRefreshRate okEnv { sampleObject 4 SplitType.kNoSplit with pending_poms_switch_ := true }
      60).1 = DisplayError.kErrorNotSupported ∧
    (SetRefreshRate okEnv { sampleObject 4 SplitType.kNoSplit with pending_poms_switch_ := true }
      60).1 ≠ DisplayError.kErrorDeferred := by
  decide

/-- C13, as amended: for every requested rate, if the last power mode is OFF
or DOZE_SUSPEND, or `doze_poms_switch_done_` is true, or
`pending_poms_switch_` is true, or a refresh-rate change is pending
(`vrefresh_` non-zero), then `SetDynamicDSIClock` returns an error
(`kErrorNotSupported`) and the queued bit-clock rate, like the rest of the
object, is unchanged. -/
theorem SetDynamicDSIClock_rejects (env : Env) (s : HWPeripheralDRM) (bit_clk_rate : Nat)
    (h : s.base.last_power_mode_ = DRMPowerMode.OFF ∨
      s.base.last_power_mode_ = DRMPowerMode.DOZE_SUSPEND ∨
      s.doze_poms_switch_done_ = true ∨ s.pending_poms_switch_ = true ∨
      s.base.vrefresh_ ≠ 0) :
    (SetDynamicDSIClock env s bit_clk_rate).1 = DisplayError.kErrorNotSupported ∧
    (SetDynamicDSIClock env s bit_clk_rate).1 ≠ DisplayError.kErrorNone ∧
    (SetDynamicDSIClock env s bit_clk_rate).2.bit_clk_rate_ = s.bit_clk_rate_ ∧
    (SetDynamicDSIClock env s bit_clk_rate).2 = s := by
  have hres : SetDynamicDSIClock env s bit_clk_rate = (DisplayError.kErrorNotSupported, s) := by
    unfold SetDynamicDSIClock
    by_cases h1 : s.base.last_power_mode_ = DRMPowerMode.DOZE_SUSPEND ∨
        s.base.last_power_mode_ = DRMPowerMode.OFF
    · rw [if_pos h1]
    · rw [if_neg h1]
      by_cases h2 : s.doze_poms_switch_done_ = true ∨ s.pending_poms_switch_ = true
      · rw [if_pos h2]
      · rw [if_neg h2]
        by_cases h3 : s.base.vrefresh_ ≠ 0
        · rw [if_pos h3]
        · exfalso
          rcases h with h | h | h | h | h
          · exact h1 (Or.inr h)
          · exact h1 (Or.inl h)
          · exact h2 (Or.inl h)
          · exact h2 (Or.inr h)
          · exact h3 h
  rw [hres]
  exact ⟨rfl, by simp, rfl, rfl⟩

/-- Instance of `SetDynamicDSIClock_rejects`: a request on a panel with one
mode while a switch is pending. -/
theorem SetDynamicDSIClock_rejects_witness :
    (SetDynamicDSIClock okEnv
      { modeObject [sampleMode 1080 0 [0] 100] 0 with pending_poms_switch_ := true } 7).1 =
        DisplayError.kErrorNotSupported ∧
    (SetDynamicDSIClock okEnv
      { modeObject [sampleMode 1080 0 [0] 100] 0 with pending_poms_switch_ := true }
      7).2.bit_clk_rate_ = 0 :=
  have h := SetDynamicDSIClock_rejects okEnv
    { modeObject [sampleMode 1080 0 [0] 100] 0 with pending_poms_switch_ := true } 7
    (Or.inr (Or.inr (Or.inr (Or.inl rfl))))
  ⟨h.1, h.2.2.1⟩

/-- C13 as stated fails for a queued bit-clock change: on a panel with one
mode whose active rate is 100, with the rate 5 queued (`bit_clk_rate_`
non-zero), the panel on and no switch or refresh-rate change in flight, a
request for the rate 7 returns `kErrorNone` and replaces the queued rate. -/
theorem SetDynamicDSIClock_admits_while_queued :
    (modeObject [sampleMode 1080 0 [0] 100] 5).base.current_mode_index_ <
      (modeObject [sampleMode 1080 0 [0] 100] 5).connector_info_modes.length ∧
    (modeObject [sampleMode 1080 0 [0] 100] 5).bit_clk_rate_ ≠ 0 ∧
    (modeObject [sampleMode 1080 0 [0] 100] 5).base.last_power_mode_ = DRMPowerMode.ON ∧
    (modeObject [sampleMode 1080 0 [0] 100] 5).doze_poms_switch_done_ = false ∧
    (modeObject [sampleMode 1080 0 [0] 100] 5).pending_poms_switch_ = false ∧
    (SetDynamicDSIClock okEnv (modeObject [sampleMode 1080 0 [0] 100] 5) 7).1 =
      DisplayError.kErrorNone ∧
    (SetDynamicDSIClock okEnv (modeObject [sampleMode 1080 0 [0] 100] 5) 7).2.bit_clk_rate_ =
      7 := by
  decide

/-- C14: when `SetDynamicDSIClock` is admitted (none of the rejection
conditions at lines 146-158 holds) and the current mode index lies inside the
mode table, then if the nearest supported rate for the request at the current
mode equals the current mode's active bit-clock rate it returns success and
nothing changes; otherwise it returns success and the queued bit-clock rate
becomes the requested rate, nothing else changing. -/
theorem SetDynamicDSIClock_admitted (env : Env) (s : HWPeripheralDRM) (bit_clk_rate : Nat)
    (hcur : s.base.current_mode_index_ < s.connector_info_modes.length)
    (hpower : s.base.last_power_mode_ ≠ DRMPowerMode.OFF ∧
      s.base.last_power_mode_ ≠ DRMPowerMode.DOZE_SUSPEND)
    (hdone : s.doze_poms_switch_done_ = false) (hpending : s.pending_poms_switch_ = false)
    (hvrefresh : s.base.vrefresh_ = 0) :
    (env.GetSupportedBitClkRate s s.base.current_mode_index_ bit_clk_rate =
        (s.connector_info_modes.get ⟨s.base.current_mode_index_, hcur⟩).curr_bit_clk_rate →
      SetDynamicDSIClock env s bit_clk_rate = (DisplayError.kErrorNone, s)) ∧
    (env.GetSupportedBitClkRate s s.base.current_mode_index_ bit_clk_rate ≠
        (s.connector_info_modes.get ⟨s.base.current_mode_index_, hcur⟩).curr_bit_clk_rate →
      SetDynamicDSIClock env s bit_clk_rate =
        (DisplayError.kErrorNone, { s with bit_clk_rate_ := bit_clk_rate })) := by
  have h1 : ¬ (s.base.last_power_mode_ = DRMPowerMode.DOZE_SUSPEND ∨
      s.base.last_power_mode_ = DRMPowerMode.OFF) := by
    intro h; rcases h with h | h
    · exact hpower.2 h
    · exact hpower.1 h
  have h2 : ¬ (s.doze_poms_switch_done_ = true ∨ s.pending_poms_switch_ = true) := by
    rw [hdone, hpending]; simp
  have h3 : ¬ (s.base.vrefresh_ ≠ 0) := by rw [hvrefresh]; simp
  have hget : s.connector_info_modes.getD s.base.current_mode_index_ {} =
      s.connector_info_modes.get ⟨s.base.current_mode_index_, hcur⟩ := by
    rw [List.getD_eq_getElem _ _ hcur]
    rfl
  unfold SetDynamicDSIClock
  rw [if_neg h1, if_neg h2, if_neg h3, hget]
  constructor
  · intro h; rw [if_pos h]
  · intro h; rw [if_neg h]

/-- Instance of `SetDynamicDSIClock_admitted` on a panel with one mode whose
active rate is 100: the panel is on and nothing is in flight; a request for
the rate 100 changes nothing, a request for the rate 7 queues it. -/
theorem SetDynamicDSIClock_admitted_witness :
    SetDynamicDSIClock okEnv (modeObject [sampleMode 1080 0 [0] 100] 0) 100 =
      (DisplayError.kErrorNone, modeObject [sampleMode 1080 0 [0] 100] 0) ∧
    (SetDynamicDSIClock okEnv (modeObject [sampleMode 1080 0 [0] 100] 0) 7).1 =
      DisplayError.kErrorNone ∧
    (SetDynamicDSIClock okEnv (modeObject [sampleMode 1080 0 [0] 100] 0) 7).2.bit_clk_rate_ =
      7 :=
  have h := SetDynamicDSIClock_admitted okEnv (modeObject [sampleMode 1080 0 [0] 100] 0)
  ⟨(h 100 (by decide) ⟨by decide, by decide⟩ rfl rfl rfl).1 (by decide),
    congrArg Prod.fst ((h 7 (by decide) ⟨by decide, by decide⟩ rfl rfl rfl).2 (by decide)),
    congrArg (fun r => r.2.bit_clk_rate_)
      ((h 7 (by decide) ⟨by decide, by decide⟩ rfl rfl rfl).2 (by decide))⟩

/-- C15: `SetDisplayAttributes` returns `kErrorDeferred` if and only if
`doze_poms_switch_done_` is true, `pending_poms_switch_` is true, or a
bit-clock change is queued (`bit_clk_rate_` non-zero); when it returns
`kErrorDeferred` the base class is not called (the mode index is not changed)
and the object is as before. -/
theorem SetDisplayAttributes_deferred_iff (env : Env) (s : HWPeripheralDRM) (index : Nat) :
    ((SetDisplayAttributes env s index).1 = DisplayError.kErrorDeferred ↔
      (s.doze_poms_switch_done_ = true ∨ s.pending_poms_switch_ = true ∨ s.bit_clk_rate_ ≠ 0)) ∧
    ((SetDisplayAttributes env s index).1 = DisplayError.kErrorDeferred →
      (SetDisplayAttributes env s index).2 = s ∧
      (SetDisplayAttributes env s index).2.base.current_mode_index_ =
        s.base.current_mode_index_ ∧
      (SetDisplayAttributes env s index).2.log = s.log) := by
  unfold SetDisplayAttributes
  by_cases h : s.doze_poms_switch_done_ = true ∨ s.pending_poms_switch_ = true ∨
      s.bit_clk_rate_ ≠ 0
  · rw [if_pos h]
    exact ⟨⟨fun _ => h, fun _ => rfl⟩, fun _ => ⟨rfl, rfl, rfl⟩⟩
  · rw [if_neg h]
    refine ⟨⟨fun hd => ?_, fun hh => absurd hh h⟩, fun hd => ?_⟩
    · simp at hd
    · simp at hd

/-- Instance of `SetDisplayAttributes_deferred_iff`: a mode change requested
while a bit-clock change is queued. -/
theorem SetDisplayAttributes_deferred_iff_witness :
    (SetDisplayAttributes okEnv { sampleObject 4 SplitType.kNoSplit with bit_clk_rate_ := 5 } 1).1 =
      DisplayError.kErrorDeferred ∧
    (SetDisplayAttributes okEnv { sampleObject 4 SplitType.kNoSplit with bit_clk_rate_ := 5 }
      1).2.log = [] :=
  have h := SetDisplayAttributes_deferred_iff okEnv
    { sampleObject 4 SplitType.kNoSplit with bit_clk_rate_ := 5 } 1
  have hd := h.1.2 (Or.inr (Or.inr (by decide)))
  ⟨hd, (h.2 hd).2.2⟩

/-! ## The POMS flags through the helper routines -/

theorem SetVMReqState_poms (s : HWPeripheralDRM) :
    (SetVMReqState s).doze_poms_switch_done_ = s.doze_poms_switch_done_ ∧
    (SetVMReqState s).pending_poms_switch_ = s.pending_poms_switch_ ∧
    (SetVMReqState s).active_ = s.active_ ∧
    (SetVMReqState s).base = s.base ∧
    (SetVMReqState s).tui_state_ = s.tui_state_ :=
  ⟨obs_field outsideLog HWPeripheralDRM.doze_poms_switch_done_ (fun _ => rfl)
      (SetVMReqState_outsideLog s),
    obs_field outsideLog HWPeripheralDRM.pending_poms_switch_ (fun _ => rfl)
      (SetVMReqState_outsideLog s),
    obs_field outsideLog HWPeripheralDRM.active_ (fun _ => rfl) (SetVMReqState_outsideLog s),
    obs_field outsideLog HWPeripheralDRM.base (fun _ => rfl) (SetVMReqState_outsideLog s),
    obs_field outsideLog HWPeripheralDRM.tui_state_ (fun _ => rfl) (SetVMReqState_outsideLog s)⟩

theorem CacheDestScalarData_poms (s : HWPeripheralDRM) :
    (CacheDestScalarData s).doze_poms_switch_done_ = s.doze_poms_switch_done_ ∧
    (CacheDestScalarData s).pending_poms_switch_ = s.pending_poms_switch_ ∧
    (CacheDestScalarData s).log = s.log :=
  ⟨obs_field outsideCacheAndFlag HWPeripheralDRM.doze_poms_switch_done_ (fun _ => rfl)
      (CacheDestScalarData_outside s),
    obs_field outsideCacheAndFlag HWPeripheralDRM.pending_poms_switch_ (fun _ => rfl)
      (CacheDestScalarData_outside s),
    obs_field outsideCacheAndFlag HWPeripheralDRM.log (fun _ => rfl)
      (CacheDestScalarData_outside s)⟩

theorem ResetDestScalarCache_poms (s : HWPeripheralDRM) :
    (ResetDestScalarCache s).doze_poms_switch_done_ = s.doze_poms_switch_done_ ∧
    (ResetDestScalarCache s).pending_poms_switch_ = s.pending_poms_switch_ ∧
    (ResetDestScalarCache s).log = s.log ∧
    (ResetDestScalarCache s).tui_state_ = s.tui_state_ :=
  ⟨obs_field outsideCache HWPeripheralDRM.doze_poms_switch_done_ (fun _ => rfl)
      (ResetDestScalarCache_outside s),
    obs_field outsideCache HWPeripheralDRM.pending_poms_switch_ (fun _ => rfl)
      (ResetDestScalarCache_outside s),
    obs_field outsideCache HWPeripheralDRM.log (fun _ => rfl) (ResetDestScalarCache_outside s),
    obs_field outsideCache HWPeripheralDRM.tui_state_ (fun _ => rfl)
      (ResetDestScalarCache_outside s)⟩

theorem SetDestScalarData_poms (s : HWPeripheralDRM) (info : HWLayersInfo) :
    (SetDestScalarData s info).doze_poms_switch_done_ = s.doze_poms_switch_done_ ∧
    (SetDestScalarData s info).pending_poms_switch_ = s.pending_poms_switch_ :=
  ⟨obs_field outsideScalarData HWPeripheralDRM.doze_poms_switch_done_ (fun _ => rfl)
      (SetDestScalarData_outside s info),
    obs_field outsideScalarData HWPeripheralDRM.pending_poms_switch_ (fun _ => rfl)
      (SetDestScalarData_outside s info)⟩

/-- `Flush` leaves both POMS flags alone, whatever its result. -/
theorem Flush_poms (env : Env) (s : HWPeripheralDRM) :
    (Flush env s).2.doze_poms_switch_done_ = s.doze_poms_switch_done_ ∧
    (Flush env s).2.pending_poms_switch_ = s.pending_poms_switch_ := by
  unfold Flush
  simp only
  split_ifs
  · exact ⟨rfl, rfl⟩
  · exact ⟨(ResetDestScalarCache_poms _).1, (ResetDestScalarCache_poms _).2.1⟩

/-- The revert step of `PowerOn`: what it does to the POMS flags and to the
call record. -/
theorem powerOnRevert_spec (env : Env) (s : HWPeripheralDRM) :
    (s.base.switch_mode_valid_ = true ∧ s.doze_poms_switch_done_ = true ∧
        s.base.current_mode_index_ = s.base.cmd_mode_index_ →
      (powerOnRevert env s).doze_poms_switch_done_ = false ∧
      (powerOnRevert env s).log =
        s.log ++ [Call.base (BaseCall.SetDisplayMode HWDisplayMode.kModeVideo)]) ∧
    (¬ (s.base.switch_mode_valid_ = true ∧ s.doze_poms_switch_done_ = true ∧
        s.base.current_mode_index_ = s.base.cmd_mode_index_) →
      powerOnRevert env s = s) ∧
    (powerOnRevert env s).pending_poms_switch_ = s.pending_poms_switch_ := by
  unfold powerOnRevert
  by_cases h : s.base.switch_mode_valid_ = true ∧ s.doze_poms_switch_done_ = true ∧
      s.base.current_mode_index_ = s.base.cmd_mode_index_
  · rw [if_pos h]
    exact ⟨fun _ => ⟨rfl, rfl⟩, fun hn => absurd h hn, rfl⟩
  · rw [if_neg h]
    exact ⟨fun hh => absurd hh h, fun _ => rfl, rfl⟩

/-- The staging step of `PowerOn` leaves both POMS flags alone and only adds
to the call record. -/
theorem powerOnStage_spec (s : HWPeripheralDRM) :
    (powerOnStage s).doze_poms_switch_done_ = s.doze_poms_switch_done_ ∧
    (powerOnStage s).pending_poms_switch_ = s.pending_poms_switch_ ∧
    ∃ added, (powerOnStage s).log = s.log ++ added := by
  unfold powerOnStage
  simp only
  split_ifs
  all_goals first
    | exact ⟨rfl, rfl, [], (List.append_nil _).symm⟩
    | exact ⟨rfl, rfl, [Call.perform (DRMOps.CRTC_SET_IDLE_PC_STATE DRMIdlePCState.ENABLE)], rfl⟩
    | exact ⟨rfl, rfl, [Call.perform DRMOps.CRTC_SET_DEST_SCALER_CONFIG], rfl⟩
    | exact ⟨rfl, rfl, [Call.perform (DRMOps.CRTC_SET_IDLE_PC_STATE DRMIdlePCState.ENABLE),
        Call.perform DRMOps.CRTC_SET_DEST_SCALER_CONFIG], by simp [Perform]⟩

/-- An admitted `PowerOn`, written out: the revert, the staging, the
base-class call, and on success the promotion. -/
theorem PowerOn_admitted (env : Env) (s : HWPeripheralDRM) (q : HWQosData)
    (hintf : s.base.drm_atomic_intf_ = true) (hfirst : s.base.first_cycle_ = false)
    (htui : s.tui_state_ = TUIState.kTUIStateNone) :
    ((PowerOn env s q).1 ≠ DisplayError.kErrorNone →
      PowerOn env s q =
        invoke env (powerOnStage (powerOnRevert env (SetVMReqState s))) (BaseCall.PowerOn q)) ∧
    ((PowerOn env s q).1 = DisplayError.kErrorNone →
      (PowerOn env s q).2 = CacheDestScalarData (SetTUIState env
        { (invoke env (powerOnStage (powerOnRevert env (SetVMReqState s)))
            (BaseCall.PowerOn q)).2 with
          idle_pc_state_ := DRMIdlePCState.NONE
          idle_pc_enabled_ := true
          pending_poms_switch_ := false
          active_ := true })) := by
  have h1 : ¬ (¬ s.base.drm_atomic_intf_ = true) := by rw [hintf]; simp
  have h2 : ¬ (s.base.first_cycle_ = true ∨ s.tui_state_ ≠ TUIState.kTUIStateNone) := by
    rw [hfirst, htui]; simp
  unfold PowerOn
  rw [if_neg h1, if_neg h2]
  simp only
  by_cases hr : (invoke env (powerOnStage (powerOnRevert env (SetVMReqState s)))
      (BaseCall.PowerOn q)).1 ≠ DisplayError.kErrorNone
  · rw [if_pos hr]
    exact ⟨fun _ => rfl, fun h => absurd h hr⟩
  · rw [if_neg hr]
    exact ⟨fun h => absurd rfl h, fun _ => rfl⟩

/-- After an admitted `PowerOn`, failed or not, `doze_poms_switch_done_` is
what the revert step left, and the call record extends that of the revert
step. -/
theorem PowerOn_after_revert (env : Env) (s : HWPeripheralDRM) (q : HWQosData)
    (hintf : s.base.drm_atomic_intf_ = true) (hfirst : s.base.first_cycle_ = false)
    (htui : s.tui_state_ = TUIState.kTUIStateNone) :
    (PowerOn env s q).2.doze_poms_switch_done_ =
      (powerOnRevert env (SetVMReqState s)).doze_poms_switch_done_ ∧
    ∃ later, (PowerOn env s q).2.log = (powerOnRevert env (SetVMReqState s)).log ++ later := by
  obtain ⟨hfail, hok⟩ := PowerOn_admitted env s q hintf hfirst htui
  obtain ⟨hd, -, added, hl⟩ := powerOnStage_spec (powerOnRevert env (SetVMReqState s))
  by_cases hr : (PowerOn env s q).1 = DisplayError.kErrorNone
  · rw [hok hr]
    refine ⟨?_, added ++ [Call.base (BaseCall.PowerOn q), Call.base BaseCall.SetTUIState], ?_⟩
    · rw [(CacheDestScalarData_poms _).1]
      exact hd
    · rw [(CacheDestScalarData_poms _).2.2]
      show ((powerOnStage (powerOnRevert env (SetVMReqState s))).log ++
        [Call.base (BaseCall.PowerOn q)]) ++ [Call.base BaseCall.SetTUIState] = _
      rw [hl]
      simp
  · rw [hfail hr]
    refine ⟨hd, added ++ [Call.base (BaseCall.PowerOn q)], ?_⟩
    show (powerOnStage (powerOnRevert env (SetVMReqState s))).log ++
      [Call.base (BaseCall.PowerOn q)] = _
    rw [hl]
    simp

/-- C16: with a non-null atomic interface, for every state in which this is
the first activation cycle or the secure-session state is not NONE, `PowerOn`
returns `kErrorDeferred` without any call leaving the object (nothing is
staged or submitted to the executor) and without changing the POMS flags, the
active flag or the idle-power-collapse members. -/
theorem PowerOn_deferred (env : Env) (s : HWPeripheralDRM) (q : HWQosData)
    (hintf : s.base.drm_atomic_intf_ = true)
    (h : s.base.first_cycle_ = true ∨ s.tui_state_ ≠ TUIState.kTUIStateNone) :
    (PowerOn env s q).1 = DisplayError.kErrorDeferred ∧
    (PowerOn env s q).2.log = s.log ∧
    (PowerOn env s q).2.base = s.base ∧
    (PowerOn env s q).2.doze_poms_switch_done_ = s.doze_poms_switch_done_ ∧
    (PowerOn env s q).2.pending_poms_switch_ = s.pending_poms_switch_ ∧
    (PowerOn env s q).2.active_ = s.active_ ∧
    (PowerOn env s q).2.idle_pc_state_ = s.idle_pc_state_ ∧
    (PowerOn env s q).2.idle_pc_enabled_ = s.idle_pc_enabled_ := by
  have h1 : ¬ (¬ s.base.drm_atomic_intf_ = true) := by rw [hintf]; simp
  unfold PowerOn
  rw [if_neg h1, if_pos h]
  exact ⟨rfl, rfl, rfl, rfl, rfl, rfl, rfl, rfl⟩

/-- Instance of `PowerOn_deferred`: a `PowerOn` while a trusted-UI session is
in progress. -/
theorem PowerOn_deferred_witness :
    (PowerOn okEnv
      { sampleObject 4 SplitType.kNoSplit with tui_state_ := TUIState.kTUIStateInProgress }
      { raw := 0 }).1 = DisplayError.kErrorDeferred ∧
    (PowerOn okEnv
      { sampleObject 4 SplitType.kNoSplit with tui_state_ := TUIState.kTUIStateInProgress }
      { raw := 0 }).2.log = [] :=
  have h := PowerOn_deferred okEnv
    { sampleObject 4 SplitType.kNoSplit with tui_state_ := TUIState.kTUIStateInProgress }
    { raw := 0 } rfl (Or.inr (by decide))
  ⟨h.1, h.2.1⟩

/-- C17, as amended: for every admitted `PowerOn` (non-null atomic interface,
not the first cycle, secure-session state NONE) in a state where a mode switch
is valid (`switch_mode_valid_`), `doze_poms_switch_done_` is true and the
current mode index equals the command-mode index, the panel is set back to
video mode (the call `SetDisplayMode(kModeVideo)` follows the VM request) and
`doze_poms_switch_done_` is false afterwards; in every admitted `PowerOn`
where that condition does not hold, `doze_poms_switch_done_` is unchanged. -/
theorem PowerOn_reverts_poms (env : Env) (s : HWPeripheralDRM) (q : HWQosData)
    (hintf : s.base.drm_atomic_intf_ = true) (hfirst : s.base.first_cycle_ = false)
    (htui : s.tui_state_ = TUIState.kTUIStateNone) :
    (s.base.switch_mode_valid_ = true ∧ s.doze_poms_switch_done_ = true ∧
        s.base.current_mode_index_ = s.base.cmd_mode_index_ →
      (∃ later, (PowerOn env s q).2.log =
        (SetVMReqState s).log ++
          Call.base (BaseCall.SetDisplayMode HWDisplayMode.kModeVideo) :: later) ∧
      (PowerOn env s q).2.doze_poms_switch_done_ = false) ∧
    (¬ (s.base.switch_mode_valid_ = true ∧ s.doze_poms_switch_done_ = true ∧
        s.base.current_mode_index_ = s.base.cmd_mode_index_) →
      (PowerOn env s q).2.doze_poms_switch_done_ = s.doze_poms_switch_done_) := by
  obtain ⟨hd, later, hl⟩ := PowerOn_after_revert env s q hintf hfirst htui
  obtain ⟨hvd, -, -, hvb, -⟩ := SetVMReqState_poms s
  obtain ⟨hrev, hkeep, -⟩ := powerOnRevert_spec env (SetVMReqState s)
  rw [hvd, hvb] at hrev hkeep
  constructor
  · intro hc
    obtain ⟨h1, h2⟩ := hrev hc
    refine ⟨⟨later, ?_⟩, by rw [hd, h1]⟩
    rw [hl, h2]
    simp
  · intro hc
    rw [hd, hkeep hc, hvd]

/-- Instance of `PowerOn_reverts_poms`: the switch to command mode was applied
and the current mode is the command mode. -/
theorem PowerOn_reverts_poms_witness :
    (switchedObject true).doze_poms_switch_done_ = true ∧
    (PowerOn okEnv (switchedObject true) { raw := 0 }).2.doze_poms_switch_done_ = false :=
  ⟨rfl, ((PowerOn_reverts_poms okEnv (switchedObject true) { raw := 0 } rfl rfl rfl).1
    ⟨rfl, rfl, rfl⟩).2⟩

/-- C17 as stated fails when no mode switch is valid: `PowerOn` is admitted,
`doze_poms_switch_done_` is true and the current mode index equals the
command-mode index, yet `switch_mode_valid_` is false, so the panel is not set
back to video mode and `doze_poms_switch_done_` stays true. -/
theorem PowerOn_keeps_poms_without_valid_switch :
    (switchedObject false).base.drm_atomic_intf_ = true ∧
    (switchedObject false).base.first_cycle_ = false ∧
    (switchedObject false).tui_state_ = TUIState.kTUIStateNone ∧
    (switchedObject false).doze_poms_switch_done_ = true ∧
    (switchedObject false).base.current_mode_index_ =
      (switchedObject false).base.cmd_mode_index_ ∧
    (PowerOn okEnv (switchedObject false) { raw := 0 }).1 = DisplayError.kErrorNone ∧
    (PowerOn okEnv (switchedObject false) { raw := 0 }).2.doze_poms_switch_done_ = true ∧
    Call.base (BaseCall.SetDisplayMode HWDisplayMode.kModeVideo) ∉
      (PowerOn okEnv (switchedObject false) { raw := 0 }).2.log := by
  decide

/-! ## Doze and the POMS decision -/

/-- The POMS decision of `Doze`, case by case. -/
theorem dozePoms_spec (env : Env) (s : HWPeripheralDRM) :
    (s.base.first_cycle_ = false ∧ s.base.switch_mode_valid_ = true ∧
        s.doze_poms_switch_done_ = false ∧
        s.base.current_mode_index_ = s.base.video_mode_index_ →
      (s.active_ = true →
        (dozePoms env s).doze_poms_switch_done_ = true ∧
        (dozePoms env s).pending_poms_switch_ = s.pending_poms_switch_ ∧
        (dozePoms env s).log =
          s.log ++ [Call.base (BaseCall.SetDisplayMode HWDisplayMode.kModeCommand)]) ∧
      (s.active_ = false →
        (dozePoms env s).doze_poms_switch_done_ = false ∧
        (dozePoms env s).pending_poms_switch_ = true ∧
        (dozePoms env s).log = s.log)) ∧
    (¬ (s.base.first_cycle_ = false ∧ s.base.switch_mode_valid_ = true ∧
        s.doze_poms_switch_done_ = false ∧
        s.base.current_mode_index_ = s.base.video_mode_index_) →
      dozePoms env s = s) := by
  unfold dozePoms
  by_cases h : ¬ s.base.first_cycle_ = true ∧ s.base.switch_mode_valid_ = true ∧
      ¬ s.doze_poms_switch_done_ = true ∧
      s.base.current_mode_index_ = s.base.video_mode_index_
  · rw [if_pos h]
    refine ⟨fun hc => ⟨fun ha => ?_, fun ha => ?_⟩, fun hn => ?_⟩
    · rw [if_pos ha]
      exact ⟨rfl, rfl, rfl⟩
    · rw [if_neg (by rw [ha]; simp)]
      exact ⟨hc.2.2.1, rfl, rfl⟩
    · exfalso
      apply hn
      obtain ⟨h1, h2, h3, h4⟩ := h
      exact ⟨by simpa using h1, h2, by simpa using h3, h4⟩
  · rw [if_neg h]
    refine ⟨fun hc => ?_, fun _ => rfl⟩
    exfalso
    apply h
    obtain ⟨h1, h2, h3, h4⟩ := hc
    exact ⟨by rw [h1]; simp, h2, by rw [h3]; simp, h4⟩

/-- After `Doze`, failed or not, the POMS flags are what the POMS decision
left, and the call record extends that of the decision. -/
theorem Doze_after_poms (env : Env) (s : HWPeripheralDRM) (q : HWQosData) :
    (Doze env s q).2.doze_poms_switch_done_ =
      (dozePoms env (SetVMReqState s)).doze_poms_switch_done_ ∧
    (Doze env s q).2.pending_poms_switch_ =
      (dozePoms env (SetVMReqState s)).pending_poms_switch_ ∧
    ∃ later, (Doze env s q).2.log = (dozePoms env (SetVMReqState s)).log ++ later := by
  unfold Doze
  simp only
  split_ifs
  · exact ⟨rfl, rfl, [Call.base (BaseCall.Doze q)], rfl⟩
  · refine ⟨rfl, rfl, [Call.base (BaseCall.Doze q), Call.base BaseCall.SetTUIState], ?_⟩
    simp [SetTUIState, invoke]

/-- C19, as amended: for every state past its first cycle in which a mode
switch is valid (`switch_mode_valid_`), the current mode index equals the
video-mode index and `doze_poms_switch_done_` is false, `Doze` switches the
panel to command mode (the call `SetDisplayMode(kModeCommand)` follows the VM
request) and sets `doze_poms_switch_done_` when the display is active, and
sets `pending_poms_switch_` (leaving `doze_poms_switch_done_` false) when the
display is inactive; in every other state `Doze` changes neither POMS flag. -/
theorem Doze_poms_decision (env : Env) (s : HWPeripheralDRM) (q : HWQosData) :
    (s.base.first_cycle_ = false ∧ s.base.switch_mode_valid_ = true ∧
        s.doze_poms_switch_done_ = false ∧
        s.base.current_mode_index_ = s.base.video_mode_index_ →
      (s.active_ = true →
        (∃ later, (Doze env s q).2.log =
          (SetVMReqState s).log ++
            Call.base (BaseCall.SetDisplayMode HWDisplayMode.kModeCommand) :: later) ∧
        (Doze env s q).2.doze_poms_switch_done_ = true ∧
        (Doze env s q).2.pending_poms_switch_ = s.pending_poms_switch_) ∧
      (s.active_ = false →
        (Doze env s q).2.pending_poms_switch_ = true ∧
        (Doze env s q).2.doze_poms_switch_done_ = false)) ∧
    (¬ (s.base.first_cycle_ = false ∧ s.base.switch_mode_valid_ = true ∧
        s.doze_poms_switch_done_ = false ∧
        s.base.current_mode_index_ = s.base.video_mode_index_) →
      (Doze env s q).2.doze_poms_switch_done_ = s.doze_poms_switch_done_ ∧
      (Doze env s q).2.pending_poms_switch_ = s.pending_poms_switch_) := by
  obtain ⟨hd, hp, later, hl⟩ := Doze_after_poms env s q
  obtain ⟨hvd, hvp, hva, hvb, -⟩ := SetVMReqState_poms s
  obtain ⟨hdec, hkeep⟩ := dozePoms_spec env (SetVMReqState s)
  rw [hvd, hvb, hva, hvp] at hdec
  rw [hvd, hvb] at hkeep
  constructor
  · intro hc
    obtain ⟨hact, hinact⟩ := hdec hc
    constructor
    · intro ha
      obtain ⟨h1, h2, h3⟩ := hact ha
      refine ⟨⟨later, ?_⟩, by rw [hd, h1], by rw [hp, h2]⟩
      rw [hl, h3]
      simp
    · intro ha
      obtain ⟨h1, h2, -⟩ := hinact ha
      exact ⟨by rw [hp, h2], by rw [hd, h1]⟩
  · intro hc
    rw [hd, hp, hkeep hc]
    exact ⟨hvd, hvp⟩

/-- Instance of `Doze_poms_decision`: an active panel in video mode. -/
theorem Doze_poms_decision_witness :
    (Doze okEnv { sampleObject 4 SplitType.kNoSplit with active_ := true }
      { raw := 0 }).2.doze_poms_switch_done_ = true ∧
    (Doze okEnv (sampleObject 4 SplitType.kNoSplit) { raw := 0 }).2.pending_poms_switch_ = true :=
  ⟨(((Doze_poms_decision okEnv { sampleObject 4 SplitType.kNoSplit with active_ := true }
      { raw := 0 }).1 ⟨rfl, rfl, rfl, rfl⟩).1 rfl).2.1,
    (((Doze_poms_decision okEnv (sampleObject 4 SplitType.kNoSplit)
      { raw := 0 }).1 ⟨rfl, rfl, rfl, rfl⟩).2 rfl).1⟩

/-- C19 as stated fails on the first cycle: the current mode index equals the
video-mode index, `doze_poms_switch_done_` is false and the display is active,
yet `Doze` neither switches the panel to command mode nor sets
`doze_poms_switch_done_`. -/
theorem Doze_first_cycle_no_switch :
    ({ sampleDevice 4 SplitType.kNoSplit with first_cycle_ := true }).current_mode_index_ =
      ({ sampleDevice 4 SplitType.kNoSplit with first_cycle_ := true }).video_mode_index_ ∧
    (Doze okEnv
      { base := { sampleDevice 4 SplitType.kNoSplit with first_cycle_ := true }
        active_ := true }
      { raw := 0 }).1 = DisplayError.kErrorNone ∧
    (Doze okEnv
      { base := { sampleDevice 4 SplitType.kNoSplit with first_cycle_ := true }
        active_ := true }
      { raw := 0 }).2.doze_poms_switch_done_ = false ∧
    Call.base (BaseCall.SetDisplayMode HWDisplayMode.kModeCommand) ∉
      (Doze okEnv
        { base := { sampleDevice 4 SplitType.kNoSplit with first_cycle_ := true }
          active_ := true }
        { raw := 0 }).2.log := by
  decide

/-! ## Which requests keep `doze_poms_switch_done_` -/

theorem powerOffTail_poms (env : Env) (s : HWPeripheralDRM) (teardown : Bool) :
    (powerOffTail env s teardown).2.doze_poms_switch_done_ = s.doze_poms_switch_done_ ∧
    ((powerOffTail env s teardown).1 = DisplayError.kErrorNone →
      (powerOffTail env s teardown).2.pending_poms_switch_ = false) := by
  unfold powerOffTail
  simp only
  split_ifs with h
  · exact ⟨rfl, fun hh => absurd hh h⟩
  · exact ⟨rfl, fun _ => rfl⟩

/-- `PowerOff` leaves `doze_poms_switch_done_` alone, and on success
`pending_poms_switch_` is false. -/
theorem PowerOff_poms (env : Env) (s : HWPeripheralDRM) (teardown : Bool) :
    (PowerOff env s teardown).2.doze_poms_switch_done_ = s.doze_poms_switch_done_ ∧
    ((PowerOff env s teardown).1 = DisplayError.kErrorNone →
      (PowerOff env s teardown).2.pending_poms_switch_ = false) := by
  have hmark : (SetVMReqState (if ¬ s.base.first_cycle_ then
      (invoke env s BaseCall.MarkPanelFeatureForNullCommit).2 else s)).doze_poms_switch_done_ =
      s.doze_poms_switch_done_ := by
    rw [(SetVMReqState_poms _).1]
    split_ifs <;> rfl
  unfold PowerOff
  simp only
  generalize SetVMReqState (if ¬ s.base.first_cycle_ then
    (invoke env s BaseCall.MarkPanelFeatureForNullCommit).2 else s) = t at hmark ⊢
  split_ifs with h1 h2
  · exact ⟨by rw [(Flush_poms env t).1, hmark], fun hh => absurd hh h2⟩
  · exact ⟨by rw [(powerOffTail_poms env _ teardown).1, (Flush_poms env t).1, hmark],
      (powerOffTail_poms env _ teardown).2⟩
  · exact ⟨by rw [(powerOffTail_poms env _ teardown).1, hmark],
      (powerOffTail_poms env _ teardown).2⟩

/-- The POMS switch of `DozeSuspend` never clears `doze_poms_switch_done_`. -/
theorem dozeSuspendPoms_spec (env : Env) (s : HWPeripheralDRM) :
    (s.doze_poms_switch_done_ = true → dozeSuspendPoms env s = s) ∧
    (s.doze_poms_switch_done_ = false →
      ¬ (s.base.switch_mode_valid_ = true ∧
        s.base.current_mode_index_ = s.base.video_mode_index_) →
      dozeSuspendPoms env s = s) := by
  unfold dozeSuspendPoms
  constructor
  · intro hd
    rw [if_neg (by rw [hd]; simp)]
  · intro _ hc
    rw [if_neg (fun h => hc ⟨h.1, h.2.2⟩)]

/-- After `DozeSuspend`, failed or not, `doze_poms_switch_done_` is what the
POMS switch left; on success `pending_poms_switch_` is false. -/
theorem DozeSuspend_after_poms (env : Env) (s : HWPeripheralDRM) (q : HWQosData) :
    (DozeSuspend env s q).2.doze_poms_switch_done_ =
      (dozeSuspendPoms env (SetVMReqState s)).doze_poms_switch_done_ ∧
    ((DozeSuspend env s q).1 = DisplayError.kErrorNone →
      (DozeSuspend env s q).2.pending_poms_switch_ = false) := by
  unfold DozeSuspend
  simp only
  split_ifs with h
  · exact ⟨rfl, fun hh => absurd hh h⟩
  · exact ⟨rfl, fun _ => rfl⟩

/-- With both POMS flags clear, `SetRefreshRate` is the base-class call. -/
theorem SetRefreshRate_delegates (env : Env) (s : HWPeripheralDRM) (refresh_rate : Nat)
    (hd : s.doze_poms_switch_done_ = false) (hp : s.pending_poms_switch_ = false) :
    SetRefreshRate env s refresh_rate = invoke env s (BaseCall.SetRefreshRate refresh_rate) := by
  unfold SetRefreshRate
  rw [if_neg (by rw [hd, hp]; simp)]
  simp only
  split_ifs with h
  · rfl
  · exact Prod.ext (not_not.mp h).symm rfl

/-- `tuiFlush` leaves both POMS flags alone. -/
theorem tuiFlush_poms (env : Env) (s : HWPeripheralDRM) (q : HWQosData) :
    (tuiFlush env s q).2.doze_poms_switch_done_ = s.doze_poms_switch_done_ ∧
    (tuiFlush env s q).2.pending_poms_switch_ = s.pending_poms_switch_ := by
  have hst : (invoke env (SetVMReqState (invoke env s (BaseCall.SetQOSData q)).2)
      BaseCall.SetIdlePCState).2.doze_poms_switch_done_ = s.doze_poms_switch_done_ ∧
      (invoke env (SetVMReqState (invoke env s (BaseCall.SetQOSData q)).2)
      BaseCall.SetIdlePCState).2.pending_poms_switch_ = s.pending_poms_switch_ :=
    ⟨(SetVMReqState_poms _).1, (SetVMReqState_poms _).2.1⟩
  unfold tuiFlush
  simp only
  generalize (invoke env (SetVMReqState (invoke env s (BaseCall.SetQOSData q)).2)
    BaseCall.SetIdlePCState).2 = t at hst ⊢
  split_ifs
  · exact ⟨by rw [(Flush_poms env t).1, hst.1], by rw [(Flush_poms env t).2, hst.2]⟩
  · exact ⟨by
      show (Flush env t).2.doze_poms_switch_done_ = _
      rw [(Flush_poms env t).1, hst.1], by
      show (Flush env t).2.pending_poms_switch_ = _
      rw [(Flush_poms env t).2, hst.2]⟩

/-- `HandleSecureEvent` leaves both POMS flags alone. -/
theorem HandleSecureEvent_poms (env : Env) (s : HWPeripheralDRM) (ev : SecureEvent)
    (q : HWQosData) :
    (HandleSecureEvent env s ev q).2.doze_poms_switch_done_ = s.doze_poms_switch_done_ ∧
    (HandleSecureEvent env s ev q).2.pending_poms_switch_ = s.pending_poms_switch_ := by
  have hci : ∀ (t : HWPeripheralDRM) (e : Bool),
      (ControlIdlePowerCollapse t e false).2.doze_poms_switch_done_ = t.doze_poms_switch_done_ ∧
      (ControlIdlePowerCollapse t e false).2.pending_poms_switch_ = t.pending_poms_switch_ := by
    intro t e
    unfold ControlIdlePowerCollapse
    split_ifs <;> exact ⟨rfl, rfl⟩
  cases ev with
  | kTUITransitionPrepare => exact ⟨rfl, rfl⟩
  | kTUITransitionUnPrepare => exact ⟨rfl, rfl⟩
  | kTUITransitionStart =>
    unfold HandleSecureEvent
    simp only
    split_ifs
    · rw [(tuiFlush_poms env _ q).1, (tuiFlush_poms env _ q).2, (hci _ false).1, (hci _ false).2]
      exact ⟨rfl, rfl⟩
    · rw [(hci _ false).1, (hci _ false).2]
      exact ⟨rfl, rfl⟩
  | kTUITransitionEnd =>
    unfold HandleSecureEvent
    simp only
    split_ifs
    · rw [(tuiFlush_poms env _ q).1, (tuiFlush_poms env _ q).2, (hci _ true).1, (hci _ true).2]
      exact ⟨rfl, rfl⟩
    · rw [(hci _ true).1, (hci _ true).2]
      exact ⟨rfl, rfl⟩
  | kSecureDisplayStart =>
    unfold HandleSecureEvent
    simp only
    split_ifs
    · rw [(Flush_poms env _).1, (Flush_poms env _).2]
      exact ⟨rfl, rfl⟩
    · rw [(Flush_poms env _).1, (Flush_poms env _).2]
      exact ⟨rfl, rfl⟩
    · exact ⟨rfl, rfl⟩
  | kSecureDisplayEnd =>
    unfold HandleSecureEvent
    simp only
    split_ifs
    · rw [(Flush_poms env _).1, (Flush_poms env _).2]
      exact ⟨rfl, rfl⟩
    · show (Flush env s).2.doze_poms_switch_done_ = _ ∧ (Flush env s).2.pending_poms_switch_ = _
      rw [(Flush_poms env _).1, (Flush_poms env _).2]
      exact ⟨rfl, rfl⟩
    · exact ⟨rfl, rfl⟩
    · exact ⟨rfl, rfl⟩
  | kSecureEventMax => exact ⟨rfl, rfl⟩

/-- A successful `PowerOn` leaves `pending_poms_switch_` false. -/
theorem PowerOn_success_pending (env : Env) (s : HWPeripheralDRM) (q : HWQosData)
    (hok : (PowerOn env s q).1 = DisplayError.kErrorNone) :
    (PowerOn env s q).2.pending_poms_switch_ = false := by
  unfold PowerOn at hok ⊢
  simp only at hok ⊢
  split_ifs at hok ⊢ with h1 h2 h3
  all_goals first
    | (rw [(CacheDestScalarData_poms _).2.1]; rfl)
    | exact absurd hok h3

/-- `Commit` never clears `doze_poms_switch_done_`, and a successful `Commit`
on a pending switch sets it. -/
theorem Commit_done (env : Env) (s : HWPeripheralDRM) (info : HWLayersInfo) :
    (s.doze_poms_switch_done_ = true → (Commit env s info).2.doze_poms_switch_done_ = true) ∧
    (s.pending_poms_switch_ = true → (Commit env s info).1 = DisplayError.kErrorNone →
      (Commit env s info).2.doze_poms_switch_done_ = true ∧
      (Commit env s info).2.pending_poms_switch_ = false) := by
  obtain ⟨hp, hd, -, -⟩ := Commit_executor_state env s info
  obtain ⟨-, -, -, -, h5, h6, -⟩ :=
    postCommit_spec env (invoke env (preCommit env s info) (BaseCall.Commit info)).2
  rw [hp, hd] at h6
  constructor
  · intro hdone
    by_cases hok : (Commit env s info).1 = DisplayError.kErrorNone
    · rw [(Commit_success env s info hok).2, h6, hdone, Bool.or_true]
    · rw [Commit_failure env s info hok, hd, hdone]
  · intro hpend hok
    rw [(Commit_success env s info hok).2, h6, hpend, Bool.true_or]
    exact ⟨rfl, h5⟩

/-- `Validate` leaves both POMS flags alone. -/
theorem Validate_poms (env : Env) (s : HWPeripheralDRM) (info : HWLayersInfo) :
    (Validate env s info).2.doze_poms_switch_done_ = s.doze_poms_switch_done_ ∧
    (Validate env s info).2.pending_poms_switch_ = s.pending_poms_switch_ := by
  have hsr : ∀ t : HWPeripheralDRM,
      (SetSelfRefreshState t).doze_poms_switch_done_ = t.doze_poms_switch_done_ ∧
      (SetSelfRefreshState t).pending_poms_switch_ = t.pending_poms_switch_ := fun t =>
    ⟨obs_field outsideLog HWPeripheralDRM.doze_poms_switch_done_ (fun _ => rfl)
        (SetSelfRefreshState_outsideLog t),
      obs_field outsideLog HWPeripheralDRM.pending_poms_switch_ (fun _ => rfl)
        (SetSelfRefreshState_outsideLog t)⟩
  unfold Validate
  simp only
  constructor
  · show (SetVMReqState _).doze_poms_switch_done_ = _
    rw [(SetVMReqState_poms _).1, (hsr _).1]
    exact (SetDestScalarData_poms s info).1
  · show (SetVMReqState _).pending_poms_switch_ = _
    rw [(SetVMReqState_poms _).2.1, (hsr _).2]
    exact (SetDestScalarData_poms s info).2

/-- C12, as amended: for every state with `pending_poms_switch_` true, after a
successful `PowerOn`, `PowerOff` or `DozeSuspend` that leaves
`doze_poms_switch_done_` false, `SetRefreshRate` is no longer rejected: it is
the base-class call and returns its result. After a successful `Commit` the
pending switch has been applied (`doze_poms_switch_done_` is true,
`pending_poms_switch_` false) and `SetRefreshRate` is still rejected with
`kErrorNotSupported`. -/
theorem SetRefreshRate_after_pending_cleared (env : Env) (s : HWPeripheralDRM)
    (refresh_rate : Nat) (hpending : s.pending_poms_switch_ = true) :
    (∀ q : HWQosData, (PowerOn env s q).1 = DisplayError.kErrorNone →
      (PowerOn env s q).2.doze_poms_switch_done_ = false →
      SetRefreshRate env (PowerOn env s q).2 refresh_rate =
        invoke env (PowerOn env s q).2 (BaseCall.SetRefreshRate refresh_rate)) ∧
    (∀ teardown : Bool, (PowerOff env s teardown).1 = DisplayError.kErrorNone →
      (PowerOff env s teardown).2.doze_poms_switch_done_ = false →
      SetRefreshRate env (PowerOff env s teardown).2 refresh_rate =
        invoke env (PowerOff env s teardown).2 (BaseCall.SetRefreshRate refresh_rate)) ∧
    (∀ q : HWQosData, (DozeSuspend env s q).1 = DisplayError.kErrorNone →
      (DozeSuspend env s q).2.doze_poms_switch_done_ = false →
      SetRefreshRate env (DozeSuspend env s q).2 refresh_rate =
        invoke env (DozeSuspend env s q).2 (BaseCall.SetRefreshRate refresh_rate)) ∧
    (∀ info : HWLayersInfo, (Commit env s info).1 = DisplayError.kErrorNone →
      (Commit env s info).2.pending_poms_switch_ = false ∧
      (Commit env s info).2.doze_poms_switch_done_ = true ∧
      SetRefreshRate env (Commit env s info).2 refresh_rate =
        (DisplayError.kErrorNotSupported, (Commit env s info).2)) := by
  refine ⟨?_, ?_, ?_, ?_⟩
  · intro q hok hd
    exact SetRefreshRate_delegates env _ refresh_rate hd (PowerOn_success_pending env s q hok)
  · intro teardown hok hd
    exact SetRefreshRate_delegates env _ refresh_rate hd ((PowerOff_poms env s teardown).2 hok)
  · intro q hok hd
    exact SetRefreshRate_delegates env _ refresh_rate hd ((DozeSuspend_after_poms env s q).2 hok)
  · intro info hok
    obtain ⟨hd, hp⟩ := (Commit_done env s info).2 hpending hok
    refine ⟨hp, hd, ?_⟩
    unfold SetRefreshRate
    rw [if_pos (Or.inl hd)]

/-- Instance of `SetRefreshRate_after_pending_cleared`: a pending switch
cleared by a successful `PowerOff`. -/
theorem SetRefreshRate_after_pending_cleared_witness :
    (PowerOff okEnv { sampleObject 4 SplitType.kNoSplit with pending_poms_switch_ := true }
      false).1 = DisplayError.kErrorNone ∧
    (SetRefreshRate okEnv
      (PowerOff okEnv { sampleObject 4 SplitType.kNoSplit with pending_poms_switch_ := true }
        false).2 60).1 = DisplayError.kErrorNone :=
  have h := (SetRefreshRate_after_pending_cleared okEnv
    { sampleObject 4 SplitType.kNoSplit with pending_poms_switch_ := true } 60 rfl).2.1
    false (by decide) (by decide)
  ⟨by decide, by rw [h]; rfl⟩

/-- C12 as stated fails for `Commit`: a successful `Commit` clears
`pending_poms_switch_` but applies the switch, so the next `SetRefreshRate` is
rejected again and the base device is not called. -/
theorem SetRefreshRate_rejected_after_commit :
    (Commit okEnv { scalerObject SplitType.kNoSplit with pending_poms_switch_ := true }
      (oneBlockRequest 0 1 1080)).1 = DisplayError.kErrorNone ∧
    (Commit okEnv { scalerObject SplitType.kNoSplit with pending_poms_switch_ := true }
      (oneBlockRequest 0 1 1080)).2.pending_poms_switch_ = false ∧
    (SetRefreshRate okEnv
      (Commit okEnv { scalerObject SplitType.kNoSplit with pending_poms_switch_ := true }
        (oneBlockRequest 0 1 1080)).2 60).1 = DisplayError.kErrorNotSupported ∧
    Call.base (BaseCall.SetRefreshRate 60) ∉
      (SetRefreshRate okEnv
        (Commit okEnv { scalerObject SplitType.kNoSplit with pending_poms_switch_ := true }
          (oneBlockRequest 0 1 1080)).2 60).2.log := by
  decide

/-- A `PowerOn` that is not admitted leaves `doze_poms_switch_done_` and the
call record alone. -/
theorem PowerOn_not_admitted (env : Env) (s : HWPeripheralDRM) (q : HWQosData)
    (h : ¬ (s.base.drm_atomic_intf_ = true ∧ s.base.first_cycle_ = false ∧
      s.tui_state_ = TUIState.kTUIStateNone)) :
    (PowerOn env s q).2.doze_poms_switch_done_ = s.doze_poms_switch_done_ ∧
    (PowerOn env s q).2.log = s.log := by
  unfold PowerOn
  by_cases h1 : ¬ s.base.drm_atomic_intf_ = true
  · rw [if_pos h1]
    exact ⟨rfl, rfl⟩
  · rw [if_neg h1]
    by_cases h2 : s.base.first_cycle_ = true ∨ s.tui_state_ ≠ TUIState.kTUIStateNone
    · rw [if_pos h2]
      exact ⟨rfl, rfl⟩
    · exfalso
      apply h
      refine ⟨not_not.mp h1, ?_, ?_⟩
      · cases hf : s.base.first_cycle_ with
        | false => rfl
        | true => exact absurd (Or.inl hf) h2
      · by_contra ht
        exact h2 (Or.inr ht)

/-- C18: for every operation of the class other than `PowerOn` (Commit,
Validate, Flush, PowerOff, Doze, DozeSuspend, SetRefreshRate, SetDisplayMode,
SetDisplayAttributes, SetDynamicDSIClock, HandleSecureEvent) and every state
with `doze_poms_switch_done_` true, `doze_poms_switch_done_` is still true
afterwards; and `PowerOn` clears it only on the path that sets the panel to
video mode: the request was admitted, a mode switch is valid, the current mode
is the command mode, and the call `SetDisplayMode(kModeVideo)` was made. -/
theorem doze_poms_switch_done_cleared_only_by_PowerOn (env : Env) (s : HWPeripheralDRM)
    (hdone : s.doze_poms_switch_done_ = true) :
    (∀ info : HWLayersInfo, (Commit env s info).2.doze_poms_switch_done_ = true) ∧
    (∀ info : HWLayersInfo, (Validate env s info).2.doze_poms_switch_done_ = true) ∧
    (Flush env s).2.doze_poms_switch_done_ = true ∧
    (∀ teardown : Bool, (PowerOff env s teardown).2.doze_poms_switch_done_ = true) ∧
    (∀ q : HWQosData, (Doze env s q).2.doze_poms_switch_done_ = true) ∧
    (∀ q : HWQosData, (DozeSuspend env s q).2.doze_poms_switch_done_ = true) ∧
    (∀ refresh_rate : Nat, (SetRefreshRate env s refresh_rate).2.doze_poms_switch_done_ = true) ∧
    (∀ mode : HWDisplayMode, (SetDisplayMode env s mode).2.doze_poms_switch_done_ = true) ∧
    (∀ index : Nat, (SetDisplayAttributes env s index).2.doze_poms_switch_done_ = true) ∧
    (∀ bit_clk_rate : Nat,
      (SetDynamicDSIClock env s bit_clk_rate).2.doze_poms_switch_done_ = true) ∧
    (∀ (ev : SecureEvent) (q : HWQosData),
      (HandleSecureEvent env s ev q).2.doze_poms_switch_done_ = true) ∧
    (∀ q : HWQosData, (PowerOn env s q).2.doze_poms_switch_done_ = false →
      s.base.drm_atomic_intf_ = true ∧ s.base.first_cycle_ = false ∧
      s.tui_state_ = TUIState.kTUIStateNone ∧ s.base.switch_mode_valid_ = true ∧
      s.base.current_mode_index_ = s.base.cmd_mode_index_ ∧
      ∃ later, (PowerOn env s q).2.log =
        (SetVMReqState s).log ++
          Call.base (BaseCall.SetDisplayMode HWDisplayMode.kModeVideo) :: later) := by
  obtain ⟨hvd, -, -, hvb, -⟩ := SetVMReqState_poms s
  refine ⟨?_, ?_, ?_, ?_, ?_, ?_, ?_, ?_, ?_, ?_, ?_, ?_⟩
  · intro info
    exact (Commit_done env s info).1 hdone
  · intro info
    rw [(Validate_poms env s info).1, hdone]
  · rw [(Flush_poms env s).1, hdone]
  · intro teardown
    rw [(PowerOff_poms env s teardown).1, hdone]
  · intro q
    rw [(Doze_after_poms env s q).1,
      (dozePoms_spec env (SetVMReqState s)).2 (fun h => by rw [hvd, hdone] at h; simp at h),
      hvd, hdone]
  · intro q
    rw [(DozeSuspend_after_poms env s q).1,
      (dozeSuspendPoms_spec env (SetVMReqState s)).1 (by rw [hvd, hdone]), hvd, hdone]
  · intro refresh_rate
    unfold SetRefreshRate
    rw [if_pos (Or.inl hdone)]
    exact hdone
  · intro mode
    unfold SetDisplayMode
    rw [if_pos (Or.inl hdone)]
    exact hdone
  · intro index
    unfold SetDisplayAttributes
    rw [if_pos (Or.inl hdone)]
    exact hdone
  · intro bit_clk_rate
    unfold SetDynamicDSIClock
    split_ifs <;> exact hdone
  · intro ev q
    rw [(HandleSecureEvent_poms env s ev q).1, hdone]
  · intro q hclear
    by_cases hadm : s.base.drm_atomic_intf_ = true ∧ s.base.first_cycle_ = false ∧
        s.tui_state_ = TUIState.kTUIStateNone
    · obtain ⟨hintf, hfirst, htui⟩ := hadm
      obtain ⟨hd, later, hl⟩ := PowerOn_after_revert env s q hintf hfirst htui
      obtain ⟨hrev, hkeep, -⟩ := powerOnRevert_spec env (SetVMReqState s)
      rw [hvd, hvb] at hrev hkeep
      by_cases hc : s.base.switch_mode_valid_ = true ∧ s.doze_poms_switch_done_ = true ∧
          s.base.current_mode_index_ = s.base.cmd_mode_index_
      · refine ⟨hintf, hfirst, htui, hc.1, hc.2.2, later, ?_⟩
        rw [hl, (hrev hc).2]
        simp
      · rw [hd, hkeep hc, hvd, hdone] at hclear
        exact absurd hclear (by decide)
    · rw [(PowerOn_not_admitted env s q hadm).1, hdone] at hclear
      exact absurd hclear (by decide)

/-- Instance of `doze_poms_switch_done_cleared_only_by_PowerOn`: an applied
switch survives a successful `PowerOff` and a `Commit`. -/
theorem doze_poms_switch_done_cleared_only_by_PowerOn_witness :
    (PowerOff okEnv { scalerObject SplitType.kNoSplit with doze_poms_switch_done_ := true }
      false).2.doze_poms_switch_done_ = true ∧
    (Commit okEnv { scalerObject SplitType.kNoSplit with doze_poms_switch_done_ := true }
      (oneBlockRequest 0 1 1080)).2.doze_poms_switch_done_ = true :=
  have h := doze_poms_switch_done_cleared_only_by_PowerOn okEnv
    { scalerObject SplitType.kNoSplit with doze_poms_switch_done_ := true } rfl
  ⟨h.2.2.2.1 false, h.1 (oneBlockRequest 0 1 1080)⟩

/-! ## The trusted-UI start -/

/-- The flush sequence of a TUI transition, in terms of the object on which
the flush is called. -/
theorem tuiFlush_cases (env : Env) (s : HWPeripheralDRM) (q : HWQosData) :
    ((env.call (tuiStaged env s q) BaseCall.Flush).1 ≠ DisplayError.kErrorNone →
      tuiFlush env s q = invoke env (tuiStaged env s q) BaseCall.Flush) ∧
    ((env.call (tuiStaged env s q) BaseCall.Flush).1 = DisplayError.kErrorNone →
      tuiFlush env s q =
        (DisplayError.kErrorNone,
          SetTUIState env (ResetDestScalarCache (invoke env (tuiStaged env s q)
            BaseCall.Flush).2))) := by
  have hcall : (invoke env (tuiStaged env s q) BaseCall.Flush).1 =
      (env.call (tuiStaged env s q) BaseCall.Flush).1 := rfl
  obtain ⟨hok, hfail⟩ := Flush_cases env (tuiStaged env s q)
  constructor
  · intro h
    have hf : (Flush env (tuiStaged env s q)).1 ≠ DisplayError.kErrorNone := by
      unfold Flush
      simp only
      rw [if_pos (by rw [hcall]; exact h)]
      rw [hcall]; exact h
    show (if (Flush env (tuiStaged env s q)).1 ≠ DisplayError.kErrorNone then
        Flush env (tuiStaged env s q)
      else (DisplayError.kErrorNone, SetTUIState env (Flush env (tuiStaged env s q)).2)) = _
    rw [if_pos hf, hfail hf]
  · intro h
    have hf : (Flush env (tuiStaged env s q)).1 = DisplayError.kErrorNone := by
      unfold Flush
      simp only
      rw [if_neg (by rw [hcall, h]; simp)]
    show (if (Flush env (tuiStaged env s q)).1 ≠ DisplayError.kErrorNone then
        Flush env (tuiStaged env s q)
      else (DisplayError.kErrorNone, SetTUIState env (Flush env (tuiStaged env s q)).2)) = _
    rw [if_neg (by rw [hf]; simp), hok hf]

/-- Outside command mode the TUI start is the flush sequence run on the
object that already holds the session state START. -/
theorem HandleSecureEvent_start (env : Env) (s : HWPeripheralDRM) (q : HWQosData)
    (hmode : s.base.mode ≠ HWDisplayMode.kModeCommand) :
    HandleSecureEvent env s SecureEvent.kTUITransitionStart q =
      tuiFlush env (tuiStartEntered s) q ∧
    (tuiStartEntered s).tui_state_ = TUIState.kTUIStateStart ∧
    (tuiStartEntered s).log = s.log := by
  have hb : (tuiStartEntered s).base = s.base ∧
      (tuiStartEntered s).tui_state_ = TUIState.kTUIStateStart ∧
      (tuiStartEntered s).log = s.log := by
    unfold tuiStartEntered ControlIdlePowerCollapse
    split_ifs <;> exact ⟨rfl, rfl, rfl⟩
  refine ⟨?_, hb.2.1, hb.2.2⟩
  show (if (tuiStartEntered s).base.mode ≠ HWDisplayMode.kModeCommand then
      tuiFlush env (tuiStartEntered s) q
    else (DisplayError.kErrorNone, tuiStartEntered s)) = _
  rw [hb.1, if_pos hmode]

/-- C20, as amended: for every state whose panel mode is not command mode,
`HandleSecureEvent(kTUITransitionStart)` first sets the secure-session state
to START, stages the quality of service, the VM release request and the
idle-power-collapse request, and then performs a flush, so the flush runs with
the session state START. If the flush fails, its error is returned and the
flush is the last call made (the session side effect `SetTUIState` is not
signalled); if it succeeds, `SetTUIState` follows and the result is success. -/
theorem TUIStart_flushes (env : Env) (s : HWPeripheralDRM) (q : HWQosData)
    (hmode : s.base.mode ≠ HWDisplayMode.kModeCommand) :
    (tuiStaged env (tuiStartEntered s) q).tui_state_ = TUIState.kTUIStateStart ∧
    (tuiStaged env (tuiStartEntered s) q).log =
      s.log ++ [Call.base (BaseCall.SetQOSData q),
        Call.perform (DRMOps.CRTC_SET_VM_REQ_STATE DRMVMRequestState.RELEASE)] ++
        (if s.ltm_hist_en_ then
          [Call.perform (DRMOps.DPPS_CACHE_FEATURE DRMObjId.crtc_id
            DppsFeatureID.kFeatureLtmHistCtrl (DppsValue.raw 0))]
        else []) ++
        (if s.aba_hist_en_ then
          [Call.perform (DRMOps.DPPS_CACHE_FEATURE DRMObjId.crtc_id
            DppsFeatureID.kFeatureAbaHistCtrl (DppsValue.raw 0))]
        else []) ++ [Call.base BaseCall.SetIdlePCState] ∧
    ((env.call (tuiStaged env (tuiStartEntered s) q) BaseCall.Flush).1 ≠
        DisplayError.kErrorNone →
      (HandleSecureEvent env s SecureEvent.kTUITransitionStart q).1 =
        (env.call (tuiStaged env (tuiStartEntered s) q) BaseCall.Flush).1 ∧
      (HandleSecureEvent env s SecureEvent.kTUITransitionStart q).2.log =
        (tuiStaged env (tuiStartEntered s) q).log ++ [Call.base BaseCall.Flush]) ∧
    ((env.call (tuiStaged env (tuiStartEntered s) q) BaseCall.Flush).1 =
        DisplayError.kErrorNone →
      (HandleSecureEvent env s SecureEvent.kTUITransitionStart q).1 =
        DisplayError.kErrorNone ∧
      (HandleSecureEvent env s SecureEvent.kTUITransitionStart q).2.log =
        (tuiStaged env (tuiStartEntered s) q).log ++
          [Call.base BaseCall.Flush, Call.base BaseCall.SetTUIState]) := by
  obtain ⟨hstart, htui, hlog⟩ := HandleSecureEvent_start env s q hmode
  obtain ⟨hfail, hok⟩ := tuiFlush_cases env (tuiStartEntered s) q
  have hstaged : (tuiStaged env (tuiStartEntered s) q).tui_state_ = TUIState.kTUIStateStart := by
    show (SetVMReqState _).tui_state_ = _
    rw [(SetVMReqState_poms _).2.2.2.2]
    exact htui
  refine ⟨hstaged, ?_, ?_, ?_⟩
  · cases hl : s.ltm_hist_en_ <;> cases ha : s.aba_hist_en_ <;>
      cases hi : s.idle_pc_enabled_ <;>
      simp [tuiStaged, tuiStartEntered, ControlIdlePowerCollapse, invoke, SetVMReqState,
        histCtrlWrites, Perform, hl, ha, hi]
  · intro h
    rw [hstart, hfail h]
    exact ⟨rfl, rfl⟩
  · intro h
    rw [hstart, hok h]
    refine ⟨rfl, ?_⟩
    show (ResetDestScalarCache _).log ++ [Call.base BaseCall.SetTUIState] = _
    rw [(ResetDestScalarCache_poms _).2.2.1]
    show ((tuiStaged env (tuiStartEntered s) q).log ++ [Call.base BaseCall.Flush]) ++
      [Call.base BaseCall.SetTUIState] = _
    simp

/-- Instance of `TUIStart_flushes`: a TUI start on a video-mode panel whose
flush fails with a hardware error. -/
theorem TUIStart_flushes_witness :
    (HandleSecureEvent (failEnv DisplayError.kErrorHardware) (sampleObject 4 SplitType.kNoSplit)
      SecureEvent.kTUITransitionStart { raw := 0 }).1 = DisplayError.kErrorHardware ∧
    (tuiStaged (failEnv DisplayError.kErrorHardware)
      (tuiStartEntered (sampleObject 4 SplitType.kNoSplit)) { raw := 0 }).tui_state_ =
        TUIState.kTUIStateStart :=
  have h := TUIStart_flushes (failEnv DisplayError.kErrorHardware)
    (sampleObject 4 SplitType.kNoSplit) { raw := 0 } (by decide)
  ⟨(h.2.2.1 (by decide)).1, h.1⟩

/-- C20 as stated fails when the flush fails: on a video-mode panel with no
session (state NONE) the TUI start returns the flush error, and the
secure-session state is START, not its value before the call. -/
theorem TUIStart_failed_flush_leaves_start :
    (sampleObject 4 SplitType.kNoSplit).base.mode ≠ HWDisplayMode.kModeCommand ∧
    (sampleObject 4 SplitType.kNoSplit).tui_state_ = TUIState.kTUIStateNone ∧
    (HandleSecureEvent (failEnv DisplayError.kErrorHardware) (sampleObject 4 SplitType.kNoSplit)
      SecureEvent.kTUITransitionStart { raw := 0 }).1 = DisplayError.kErrorHardware ∧
    (HandleSecureEvent (failEnv DisplayError.kErrorHardware) (sampleObject 4 SplitType.kNoSplit)
      SecureEvent.kTUITransitionStart { raw := 0 }).2.tui_state_ = TUIState.kTUIStateStart := by
  decide

/-! ## The bit-clock query -/

/-- C27: `GetDynamicDSIClock` stores the current mode's `curr_bit_clk_rate`
modulo `2 ^ 32` through its output pointer; the stored value equals the
member exactly when the member is below `2 ^ 32`; the call returns
`kErrorNone` and leaves the object as it is. -/
theorem GetDynamicDSIClock_truncates (s : HWPeripheralDRM) (c : Nat)
    (hcur : s.base.current_mode_index_ < s.connector_info_modes.length)
    (hc : (s.connector_info_modes.getD s.base.current_mode_index_ {}).curr_bit_clk_rate = c)
    (h64 : c < 2 ^ 64) :
    (GetDynamicDSIClock s).1 = DisplayError.kErrorNone ∧
    (GetDynamicDSIClock s).2.1 = c % 2 ^ 32 ∧
    ((GetDynamicDSIClock s).2.1 = c ↔ c < 2 ^ 32) ∧
    (GetDynamicDSIClock s).2.1 < 2 ^ 64 ∧
    (GetDynamicDSIClock s).2.2 = s := by
  have _ := hcur
  unfold GetDynamicDSIClock
  simp only [hc]
  refine ⟨trivial, trivial, ?_, ?_, trivial⟩
  · constructor
    · intro h
      rw [← h]
      exact Nat.mod_lt _ (by norm_num)
    · intro h
      exact Nat.mod_eq_of_lt h
  · exact lt_of_le_of_lt (Nat.mod_le _ _) h64

/-- C27 at a mode whose rate is `2 ^ 32 + 5`: the value stored is 5. -/
theorem GetDynamicDSIClock_truncates_witness :
    (GetDynamicDSIClock (modeObject [sampleMode 1080 0 [0] (2 ^ 32 + 5)] 0)).2.1 = 5 ∧
    (GetDynamicDSIClock (modeObject [sampleMode 1080 0 [0] (2 ^ 32 + 5)] 0)).2.1 =
      (2 ^ 32 + 5) % 2 ^ 32 :=
  ⟨by decide,
    (GetDynamicDSIClock_truncates (modeObject [sampleMode 1080 0 [0] (2 ^ 32 + 5)] 0)
      (2 ^ 32 + 5) (by decide) rfl (by norm_num)).2.1⟩

/-! ## The bit-clock list -/

theorem pushLoop_firstOccurrences (rates : List Nat) :
    ∀ acc : List Nat, rates.foldl pushBitClkRate acc =
      acc ++ (firstOccurrences rates).filter fun x => decide (x ∉ acc) := by
  induction rates with
  | nil => intro acc; simp [firstOccurrences]
  | cons r rs ih =>
    intro acc
    simp only [List.foldl_cons, firstOccurrences]
    rw [ih]
    unfold pushBitClkRate
    by_cases h : r ∈ acc
    · simp only [h, if_true]
      congr 1
      rw [List.filter_cons]
      simp only [h, not_true_eq_false, decide_False, Bool.false_eq_true, if_false]
      rw [List.filter_filter]
      apply List.filter_congr
      intro x _
      by_cases hx : x ∈ acc
      · simp [hx]
      · have : x ≠ r := fun e => hx (e ▸ h)
        simp [hx, this]
    · simp only [h, if_false]
      rw [List.filter_cons]
      simp only [h, not_false_eq_true, decide_True, if_true]
      rw [List.append_assoc, List.singleton_append, List.filter_filter]
      congr 2
      apply List.filter_congr
      intro x _
      by_cases hx : x ∈ acc <;> by_cases hr : x = r <;> simp [hx, hr]

theorem subModeLoop_flat (subs : List DRMSubModeInfo) :
    ∀ acc : List Nat,
      subs.foldl (fun acc sub_mode_info => sub_mode_info.dyn_bitclk_list.foldl pushBitClkRate acc)
        acc =
      (subs.flatMap fun sub_mode_info => sub_mode_info.dyn_bitclk_list).foldl pushBitClkRate
        acc := by
  induction subs with
  | nil => intro acc; rfl
  | cons x xs ih =>
    intro acc
    simp only [List.foldl_cons, List.flatMap_cons, List.foldl_append]
    rw [ih]

theorem collectBitClkRates_flat (width height : Nat) (modes : List DRMModeInfo) :
    ∀ acc : List Nat, collectBitClkRates width height modes acc =
      (listedRates width height modes).foldl pushBitClkRate acc := by
  unfold collectBitClkRates listedRates
  induction modes with
  | nil => intro acc; rfl
  | cons m ms ih =>
    intro acc
    simp only [List.foldl_cons, List.filter_cons]
    by_cases h : m.mode.hdisplay = width ∧ m.mode.vdisplay = height
    · simp only [h, and_self, if_true, decide_True, List.flatMap_cons, List.foldl_append]
      rw [ih, subModeLoop_flat]
    · simp only [h, if_false, decide_False, Bool.false_eq_true]
      rw [ih]

theorem firstOccurrences_mem (rates : List Nat) (x : Nat) :
    x ∈ firstOccurrences rates ↔ x ∈ rates := by
  induction rates with
  | nil => simp [firstOccurrences]
  | cons r rs ih =>
    simp only [firstOccurrences, List.mem_cons, List.mem_filter, ih]
    by_cases h : x = r <;> simp [h]

theorem firstOccurrences_nodup (rates : List Nat) : (firstOccurrences rates).Nodup := by
  induction rates with
  | nil => simp [firstOccurrences]
  | cons r rs ih =>
    simp only [firstOccurrences, List.nodup_cons]
    exact ⟨by simp [List.mem_filter], ih.filter _⟩

theorem firstOccurrences_sublist (rates : List Nat) : (firstOccurrences rates).Sublist rates := by
  induction rates with
  | nil => simp [firstOccurrences]
  | cons r rs ih =>
    simp only [firstOccurrences]
    exact List.Sublist.cons₂ r ((List.filter_sublist _).trans ih)

theorem listedRates_mem (width height : Nat) (modes : List DRMModeInfo) (x : Nat) :
    x ∈ listedRates width height modes ↔
      ∃ mode_info ∈ modes, mode_info.mode.hdisplay = width ∧ mode_info.mode.vdisplay = height ∧
        ∃ sub_mode_info ∈ mode_info.sub_modes, x ∈ sub_mode_info.dyn_bitclk_list := by
  unfold listedRates
  simp only [List.mem_flatMap, List.mem_filter, decide_eq_true_eq]
  constructor
  · rintro ⟨m, ⟨hm, hw, hh⟩, sm, hsm, hx⟩
    exact ⟨m, hm, hw, hh, sm, hsm, hx⟩
  · rintro ⟨m, hm, hw, hh, sm, hsm, hx⟩
    exact ⟨m, ⟨hm, hw, hh⟩, sm, hsm, hx⟩

theorem indexOf_cons_if (x a : Nat) (l : List Nat) :
    (x :: l).indexOf a = if x = a then 0 else l.indexOf a + 1 := by
  rw [List.indexOf_cons]
  by_cases h : x = a
  · simp [h]
  · have : (x == a) = false := by simpa using h
    simp [h, this]

theorem indexOf_filter_lt (p : Nat → Bool) (a b : Nat) (ha : p a = true) (hb : p b = true)
    (l : List Nat) :
    (l.filter p).indexOf a < (l.filter p).indexOf b ↔ l.indexOf a < l.indexOf b := by
  induction l with
  | nil => simp
  | cons x xs ih =>
    by_cases hx : p x = true
    · rw [List.filter_cons_of_pos hx]
      simp only [indexOf_cons_if]
      by_cases h1 : x = a
      · subst h1
        by_cases h2 : x = b <;> simp [h2]
      · by_cases h2 : x = b <;> simp [h1, h2, ih]
    · rw [List.filter_cons_of_neg hx]
      have h1 : x ≠ a := fun e => hx (e ▸ ha)
      have h2 : x ≠ b := fun e => hx (e ▸ hb)
      simp only [indexOf_cons_if]
      simp [h1, h2, ih]

theorem firstOccurrences_order (rates : List Nat) (a b : Nat) :
    (firstOccurrences rates).indexOf a < (firstOccurrences rates).indexOf b ↔
      rates.indexOf a < rates.indexOf b := by
  induction rates with
  | nil => simp [firstOccurrences]
  | cons x xs ih =>
    simp only [firstOccurrences, indexOf_cons_if]
    by_cases h1 : x = a
    · subst h1
      by_cases h2 : x = b <;> simp [h2]
    by_cases h2 : x = b
    · simp [h1, h2]
    · have ha : (fun y => decide (y ≠ x)) a = true := by simp; exact fun e => h1 e.symm
      have hb : (fun y => decide (y ≠ x)) b = true := by simp; exact fun e => h2 e.symm
      have := indexOf_filter_lt (fun y => decide (y ≠ x)) a b ha hb (firstOccurrences xs)
      simp only [h1, h2, if_false, Nat.add_lt_add_iff_right]
      rw [this, ih]

/-- C24: with dynamic bit clock supported and `bitclk_rates_` empty at entry,
`PopulateBitClkRates` leaves in `bitclk_rates_` the rates listed by the
sub-modes of the modes with the current mode's resolution, each once, in order
of first occurrence (mode index, then sub-mode index, then list index): the
list has no duplicates, its members are exactly the listed rates, and one rate
precedes another in it exactly when its first listing precedes the other's.
Without dynamic bit clock the object is left as it is. -/
theorem PopulateBitClkRates_collects (s : HWPeripheralDRM)
    (hcur : s.base.current_mode_index_ < s.connector_info_modes.length) :
    (s.base.dyn_bitclk_support = true → s.bitclk_rates_ = [] →
      (PopulateBitClkRates s).bitclk_rates_ =
        firstOccurrences (listedRates
          (s.connector_info_modes.getD s.base.current_mode_index_ {}).mode.hdisplay
          (s.connector_info_modes.getD s.base.current_mode_index_ {}).mode.vdisplay
          s.connector_info_modes) ∧
      (PopulateBitClkRates s).bitclk_rates_.Nodup ∧
      (∀ x, x ∈ (PopulateBitClkRates s).bitclk_rates_ ↔
        ∃ mode_info ∈ s.connector_info_modes,
          mode_info.mode.hdisplay =
            (s.connector_info_modes.getD s.base.current_mode_index_ {}).mode.hdisplay ∧
          mode_info.mode.vdisplay =
            (s.connector_info_modes.getD s.base.current_mode_index_ {}).mode.vdisplay ∧
          ∃ sub_mode_info ∈ mode_info.sub_modes, x ∈ sub_mode_info.dyn_bitclk_list) ∧
      (∀ a b, (PopulateBitClkRates s).bitclk_rates_.indexOf a <
          (PopulateBitClkRates s).bitclk_rates_.indexOf b ↔
        (listedRates
          (s.connector_info_modes.getD s.base.current_mode_index_ {}).mode.hdisplay
          (s.connector_info_modes.getD s.base.current_mode_index_ {}).mode.vdisplay
          s.connector_info_modes).indexOf a <
        (listedRates
          (s.connector_info_modes.getD s.base.current_mode_index_ {}).mode.hdisplay
          (s.connector_info_modes.getD s.base.current_mode_index_ {}).mode.vdisplay
          s.connector_info_modes).indexOf b)) ∧
    (s.base.dyn_bitclk_support = false → PopulateBitClkRates s = s) := by
  have _ := hcur
  constructor
  · intro hsup hempty
    have hr : (PopulateBitClkRates s).bitclk_rates_ =
        firstOccurrences (listedRates
          (s.connector_info_modes.getD s.base.current_mode_index_ {}).mode.hdisplay
          (s.connector_info_modes.getD s.base.current_mode_index_ {}).mode.vdisplay
          s.connector_info_modes) := by
      unfold PopulateBitClkRates
      simp only [hsup, not_true_eq_false, if_false]
      rw [collectBitClkRates_flat, pushLoop_firstOccurrences, hempty]
      simp
    rw [hr]
    refine ⟨rfl, firstOccurrences_nodup _, fun x => ?_, fun a b => firstOccurrences_order _ a b⟩
    rw [firstOccurrences_mem, listedRates_mem]
  · intro hsup
    unfold PopulateBitClkRates
    simp [hsup]

/-- C24 on a table of three modes, two of them with the current resolution:
the listed rates 100, 200, 100, 100, 200, 101, 100, 200, 102 are reduced to
100, 200, 101, 102. -/
theorem PopulateBitClkRates_collects_witness :
    (PopulateBitClkRates (modeObject
      [sampleMode 1080 0 [0, 1] 0, sampleMode 720 0 [5] 0, sampleMode 1080 0 [2] 0]
      0)).bitclk_rates_ = [100, 200, 101, 102] :=
  ((PopulateBitClkRates_collects (modeObject
      [sampleMode 1080 0 [0, 1] 0, sampleMode 720 0 [5] 0, sampleMode 1080 0 [2] 0] 0)
    (by decide)).1 rfl rfl).1.trans (by decide)

/-! ## The alternate display configuration -/

theorem range_find_none (p : Nat → Bool) (n : Nat) :
    (List.range n).find? p = none ↔ ∀ j, j < n → p j = false := by
  simp [List.find?_eq_none]

theorem range_find_some (p : Nat → Bool) (n : Nat) :
    ∀ i, (List.range n).find? p = some i ↔
      i < n ∧ p i = true ∧ ∀ j, j < i → p j = false := by
  induction n with
  | zero => simp
  | succ n ih =>
    intro i
    rw [List.range_succ, List.find?_append]
    cases h : (List.range n).find? p with
    | some k =>
      obtain ⟨h1, h2, h3⟩ := (ih k).mp h
      simp only [Option.or, Option.some.injEq]
      constructor
      · rintro rfl
        exact ⟨Nat.lt_succ_of_lt h1, h2, h3⟩
      · rintro ⟨_, g2, g3⟩
        rcases Nat.lt_trichotomy k i with hlt | heq | hgt
        · rw [g3 k hlt] at h2; exact absurd h2 (by simp)
        · exact heq
        · rw [h3 i hgt] at g2; exact absurd g2 (by simp)
    | none =>
      have hn := (range_find_none p n).mp h
      simp only [Option.or, List.find?_cons, List.find?_nil]
      cases hp : p n with
      | true =>
        simp only [Option.some.injEq]
        constructor
        · rintro rfl
          exact ⟨Nat.lt_succ_self _, hp, hn⟩
        · rintro ⟨g1, g2, _⟩
          rcases Nat.lt_succ_iff_lt_or_eq.mp g1 with hlt | heq
          · rw [hn i hlt] at g2; exact absurd g2 (by simp)
          · exact heq.symm
      | false =>
        constructor
        · intro hc; exact absurd hc (by simp)
        · rintro ⟨g1, g2, _⟩
          rcases Nat.lt_succ_iff_lt_or_eq.mp g1 with hlt | heq
          · rw [hn i hlt] at g2; exact absurd g2 (by simp)
          · rw [heq, hp] at g2; exact absurd g2 (by simp)

theorem range_findSome_none {β : Type} (f : Nat → Option β) (n : Nat) :
    (List.range n).findSome? f = none ↔ ∀ j, j < n → f j = none := by
  simp [List.findSome?_eq_none_iff]

theorem range_findSome_some {β : Type} (f : Nat → Option β) (n : Nat) :
    ∀ b, (List.range n).findSome? f = some b ↔
      ∃ i, i < n ∧ f i = some b ∧ ∀ j, j < i → f j = none := by
  induction n with
  | zero => simp
  | succ n ih =>
    intro b
    rw [List.range_succ, List.findSome?_append]
    cases h : (List.range n).findSome? f with
    | some c =>
      obtain ⟨k, h1, h2, h3⟩ := (ih c).mp h
      simp only [Option.or, Option.some.injEq]
      constructor
      · rintro rfl
        exact ⟨k, Nat.lt_succ_of_lt h1, h2, h3⟩
      · rintro ⟨i, _, g2, g3⟩
        rcases Nat.lt_trichotomy k i with hlt | heq | hgt
        · rw [g3 k hlt] at h2; exact absurd h2 (by simp)
        · subst heq; rw [h2] at g2; exact Option.some.inj g2
        · rw [h3 i hgt] at g2; exact absurd g2 (by simp)
    | none =>
      have hn := (range_findSome_none f n).mp h
      simp only [Option.or, List.findSome?_cons, List.findSome?_nil]
      constructor
      · intro hb
        refine ⟨n, Nat.lt_succ_self _, ?_, hn⟩
        cases hf : f n with
        | none => rw [hf] at hb; exact absurd hb (by simp)
        | some c => rw [hf] at hb; exact hb
      · rintro ⟨i, g1, g2, _⟩
        rcases Nat.lt_succ_iff_lt_or_eq.mp g1 with hlt | heq
        · rw [hn i hlt] at g2; exact absurd g2 (by simp)
        · subst heq; rw [g2]

theorem findAltSubMode_none (c : Nat) (m : DRMModeInfo) :
    findAltSubMode c m.sub_modes = none ↔ ∀ i, ¬ differsAt c m i := by
  unfold findAltSubMode differsAt
  rw [range_find_none]
  constructor
  · intro h i ⟨hi, hd⟩
    have := h i hi
    simp only [ne_eq, decide_not, Bool.not_eq_false', decide_eq_true_eq] at this
    exact hd this.symm
  · intro h j hj
    simp only [ne_eq, decide_not, Bool.not_eq_false', decide_eq_true_eq]
    by_contra hne
    exact h j ⟨hj, fun e => hne e.symm⟩

theorem findAltSubMode_some (c : Nat) (m : DRMModeInfo) (i : Nat) :
    findAltSubMode c m.sub_modes = some i ↔ leastDiffering c m i := by
  unfold findAltSubMode leastDiffering differsAt
  rw [range_find_some]
  constructor
  · rintro ⟨hi, hp, hj⟩
    simp only [ne_eq, decide_not, Bool.not_eq_true', decide_eq_false_iff_not] at hp
    refine ⟨⟨hi, fun e => hp e.symm⟩, ?_⟩
    rintro j hji ⟨_, hd⟩
    have := hj j hji
    simp only [ne_eq, decide_not, Bool.not_eq_false', decide_eq_true_eq] at this
    exact hd this.symm
  · rintro ⟨⟨hi, hd⟩, hj⟩
    refine ⟨hi, ?_, ?_⟩
    · simp only [ne_eq, decide_not, Bool.not_eq_true', decide_eq_false_iff_not]
      exact fun e => hd e.symm
    · intro j hji
      simp only [ne_eq, decide_not, Bool.not_eq_false', decide_eq_true_eq]
      by_contra hne
      exact hj j hji ⟨lt_trans hji hi, fun e => hne e.symm⟩

theorem altModeCandidate_iff (env : Env) (cur m : DRMModeInfo) :
    altModeCandidate cur (currModeFlag env cur) m = true ↔
      sharesRefreshAndPanelType env cur m := by
  unfold altModeCandidate sharesRefreshAndPanelType carriesPanelTypeOf carriesPanelFlag
    currModeFlag
  rw [decide_eq_true_eq]
  by_cases hc : cur.cur_panel_mode &&& env.DRM_MODE_FLAG_CMD_MODE_PANEL ≠ 0
  · rw [if_pos hc, Nat.land_comm env.DRM_MODE_FLAG_CMD_MODE_PANEL m.cur_panel_mode]
    constructor
    · rintro ⟨h1, h2⟩
      exact ⟨h1, Or.inl ⟨hc, h2⟩⟩
    · rintro ⟨h1, h2 | h2⟩
      · exact ⟨h1, h2.2⟩
      · exact absurd hc h2.1
  · rw [if_neg hc]
    by_cases hv : cur.cur_panel_mode &&& env.DRM_MODE_FLAG_VID_MODE_PANEL ≠ 0
    · rw [if_pos hv, Nat.land_comm env.DRM_MODE_FLAG_VID_MODE_PANEL m.cur_panel_mode]
      constructor
      · rintro ⟨h1, h2⟩
        exact ⟨h1, Or.inr ⟨hc, hv, h2⟩⟩
      · rintro ⟨h1, h2 | h2⟩
        · exact absurd h2.1 hc
        · exact ⟨h1, h2.2.2⟩
    · rw [if_neg hv, Nat.zero_and]
      constructor
      · rintro ⟨_, h2⟩
        exact absurd rfl h2
      · rintro ⟨_, h2 | h2⟩
        · exact absurd h2.1 hc
        · exact absurd h2.2.1 hv

/-- Where the current mode does not carry both panel-type flags, the modes
that carry its panel type are the modes that share a panel-type flag with
it. -/
theorem carriesPanelTypeOf_iff_shares (env : Env) (cur m : DRMModeInfo)
    (hone : ¬ (carriesPanelFlag env.DRM_MODE_FLAG_CMD_MODE_PANEL cur ∧
      carriesPanelFlag env.DRM_MODE_FLAG_VID_MODE_PANEL cur)) :
    carriesPanelTypeOf env cur m ↔ sharesPanelFlag env cur m := by
  unfold carriesPanelTypeOf sharesPanelFlag
  constructor
  · rintro (h | h)
    · exact Or.inl h
    · exact Or.inr h.2
  · rintro (h | h)
    · exact Or.inl h
    · exact Or.inr ⟨fun hc => hone ⟨hc, h.1⟩, h⟩

theorem findAltMode_none (env : Env) (cur : DRMModeInfo) (modes : List DRMModeInfo) :
    findAltMode cur (currModeFlag env cur) modes = none ↔
      ∀ m, m < modes.length → sharesRefreshAndPanelType env cur (modes.getD m {}) →
        ∀ i, ¬ differsAt cur.curr_compression_mode (modes.getD m {}) i := by
  unfold findAltMode
  rw [range_findSome_none]
  constructor
  · intro h m hm hs
    have h1 := h m hm
    rw [if_pos ((altModeCandidate_iff env cur _).mpr hs)] at h1
    rw [Option.map_eq_none'] at h1
    exact (findAltSubMode_none _ _).mp h1
  · intro h m hm
    by_cases hc : altModeCandidate cur (currModeFlag env cur) (modes.getD m {}) = true
    · rw [if_pos hc, Option.map_eq_none']
      exact (findAltSubMode_none _ _).mpr (h m hm ((altModeCandidate_iff env cur _).mp hc))
    · rw [if_neg hc]

theorem findAltMode_some (env : Env) (cur : DRMModeInfo) (modes : List DRMModeInfo)
    (m i : Nat) :
    findAltMode cur (currModeFlag env cur) modes = some (m, i) ↔
      m < modes.length ∧ sharesRefreshAndPanelType env cur (modes.getD m {}) ∧
      leastDiffering cur.curr_compression_mode (modes.getD m {}) i ∧
      ∀ k, k < m → sharesRefreshAndPanelType env cur (modes.getD k {}) →
        ∀ j, ¬ differsAt cur.curr_compression_mode (modes.getD k {}) j := by
  unfold findAltMode
  rw [range_findSome_some]
  have hstep : ∀ k, (if altModeCandidate cur (currModeFlag env cur) (modes.getD k {}) = true then
        (findAltSubMode cur.curr_compression_mode (modes.getD k {}).sub_modes).map
          fun submode_idx => (k, submode_idx)
      else none) = none ↔
      (sharesRefreshAndPanelType env cur (modes.getD k {}) →
        ∀ j, ¬ differsAt cur.curr_compression_mode (modes.getD k {}) j) := by
    intro k
    by_cases hc : altModeCandidate cur (currModeFlag env cur) (modes.getD k {}) = true
    · rw [if_pos hc, Option.map_eq_none', findAltSubMode_none]
      exact ⟨fun h _ => h, fun h => h ((altModeCandidate_iff env cur _).mp hc)⟩
    · rw [if_neg hc]
      exact ⟨fun _ hs => absurd ((altModeCandidate_iff env cur _).mpr hs) hc, fun _ => rfl⟩
  constructor
  · rintro ⟨k, hk, hf, hbefore⟩
    by_cases hc : altModeCandidate cur (currModeFlag env cur) (modes.getD k {}) = true
    · rw [if_pos hc] at hf
      obtain ⟨a, ha, hpair⟩ := Option.map_eq_some'.mp hf
      have hkm : k = m := congrArg Prod.fst hpair
      have hai : a = i := congrArg Prod.snd hpair
      subst hkm; subst hai
      exact ⟨hk, (altModeCandidate_iff env cur _).mp hc, (findAltSubMode_some _ _ _).mp ha,
        fun j hj => (hstep j).mp (hbefore j hj)⟩
    · rw [if_neg hc] at hf
      exact absurd hf (by simp)
  · rintro ⟨hm, hs, hl, hbefore⟩
    refine ⟨m, hm, ?_, fun j hj => (hstep j).mpr (hbefore j hj)⟩
    rw [if_pos ((altModeCandidate_iff env cur _).mpr hs), (findAltSubMode_some _ _ _).mpr hl]
    rfl

theorem SetDisplayAttributes_modes (env : Env) (s : HWPeripheralDRM) (index : Nat) :
    (SetDisplayAttributes env s index).2.connector_info_modes = s.connector_info_modes := by
  unfold SetDisplayAttributes
  split_ifs <;> rfl

theorem altWithinMode_spec (env : Env) (s : HWPeripheralDRM) (cur : DRMModeInfo) (i : Nat) :
    (altWithinMode env s cur i).1 = DisplayError.kErrorNone ∧
    (altWithinMode env s cur i).2.1 = (altWithinMode env s cur i).2.2.base.current_mode_index_ ∧
    (altWithinMode env s cur i).2.2.connector_info_modes =
      s.connector_info_modes.set s.base.current_mode_index_
        { s.connector_info_modes.getD s.base.current_mode_index_ {} with
          curr_submode_index := i
          curr_compression_mode := (cur.sub_modes.getD i {}).panel_compression_mode } ∧
    (altWithinMode env s cur i).2.2.panel_compression_changed_ =
      (cur.sub_modes.getD i {}).panel_compression_mode :=
  ⟨rfl, rfl, rfl, rfl⟩

theorem altOtherMode_spec (env : Env) (s : HWPeripheralDRM) (m i : Nat)
    (hm : m < s.connector_info_modes.length) :
    (altOtherMode env s m i).1 = DisplayError.kErrorNone ∧
    (altOtherMode env s m i).2.1 = m ∧
    (altOtherMode env s m i).2.2.connector_info_modes.getD m {} =
      { s.connector_info_modes.getD m {} with
        curr_submode_index := i
        curr_compression_mode :=
          ((s.connector_info_modes.getD m {}).sub_modes.getD i {}).panel_compression_mode } ∧
    (altOtherMode env s m i).2.2.panel_compression_changed_ =
      ((s.connector_info_modes.getD m {}).sub_modes.getD i {}).panel_compression_mode := by
  have hstaged : (altStaged env s m i).connector_info_modes.getD m {} =
      { s.connector_info_modes.getD m {} with
        curr_submode_index := i
        curr_compression_mode :=
          ((s.connector_info_modes.getD m {}).sub_modes.getD i {}).panel_compression_mode } := by
    unfold altStaged
    simp only [invoke]
    rw [getD_set_self _ _ _ _ (by rw [List.length_set]; exact hm),
      getD_set_self _ _ _ _ hm]
  refine ⟨rfl, rfl, ?_, ?_⟩
  · unfold altOtherMode
    simp only
    rw [SetDisplayAttributes_modes, hstaged]
  · unfold altOtherMode
    simp only
    rw [SetDisplayAttributes_modes, hstaged]

/-- C21, as amended: with the current mode index inside the mode table, the
current sub-mode index inside the current mode's sub-modes and an entry of
`display_attributes_` for every mode, `SetAlternateDisplayConfig` returns `kErrorNotSupported` exactly when no
sub-mode of the current mode has a compression other than the current one and
no mode that has the current mode's vertical refresh rate and carries the
current mode's panel type (the command-mode flag if the current mode carries
it, otherwise the video-mode flag) has such a sub-mode; in that case the value
behind `alt_config` and the whole object (mode table with its current sub-mode
indices and compressions, topology, `panel_compression_changed_`, call record)
are as before. -/
theorem SetAlternateDisplayConfig_not_supported_iff (env : Env) (s : HWPeripheralDRM)
    (alt_config : Nat)
    (hcur : s.base.current_mode_index_ < s.connector_info_modes.length)
    (hsub : (s.connector_info_modes.getD s.base.current_mode_index_ {}).curr_submode_index <
      (s.connector_info_modes.getD s.base.current_mode_index_ {}).sub_modes.length)
    (hattr : s.connector_info_modes.length ≤ s.base.display_attributes_topology.length) :
    ((SetAlternateDisplayConfig env s alt_config).1 = DisplayError.kErrorNotSupported ↔
      (∀ i, ¬ differsAt
        (s.connector_info_modes.getD s.base.current_mode_index_ {}).curr_compression_mode
        (s.connector_info_modes.getD s.base.current_mode_index_ {}) i) ∧
      (∀ m, m < s.connector_info_modes.length →
        sharesRefreshAndPanelType env (s.connector_info_modes.getD s.base.current_mode_index_ {})
          (s.connector_info_modes.getD m {}) →
        ∀ i, ¬ differsAt
          (s.connector_info_modes.getD s.base.current_mode_index_ {}).curr_compression_mode
          (s.connector_info_modes.getD m {}) i)) ∧
    ((SetAlternateDisplayConfig env s alt_config).1 = DisplayError.kErrorNotSupported →
      (SetAlternateDisplayConfig env s alt_config).2 = (alt_config, s)) := by
  have _ := hcur
  have _ := hsub
  have _ := hattr
  unfold SetAlternateDisplayConfig
  simp only
  cases h1 : findAltSubMode
      (s.connector_info_modes.getD s.base.current_mode_index_ {}).curr_compression_mode
      (s.connector_info_modes.getD s.base.current_mode_index_ {}).sub_modes with
  | some i =>
    simp only
    have hd := ((findAltSubMode_some _ _ _).mp h1).1
    refine ⟨⟨fun h => ?_, fun h => absurd hd (h.1 i)⟩, fun h => ?_⟩
    · rw [(altWithinMode_spec env s _ i).1] at h
      exact absurd h (by decide)
    · rw [(altWithinMode_spec env s _ i).1] at h
      exact absurd h (by decide)
  | none =>
    simp only
    have hn := (findAltSubMode_none _ _).mp h1
    cases h2 : findAltMode (s.connector_info_modes.getD s.base.current_mode_index_ {})
        (currModeFlag env (s.connector_info_modes.getD s.base.current_mode_index_ {}))
        s.connector_info_modes with
    | some mi =>
      obtain ⟨m, i⟩ := mi
      simp only
      obtain ⟨hm, hs, hl, _⟩ := (findAltMode_some env _ _ m i).mp h2
      have hok : (altOtherMode env s m i).1 ≠ DisplayError.kErrorNotSupported := by
        rw [(altOtherMode_spec env s m i hm).1]
        decide
      exact ⟨⟨fun h => absurd h hok, fun h => absurd hl.1 (h.2 m hm hs i)⟩,
        fun h => absurd h hok⟩
    | none =>
      simp only
      exact ⟨⟨fun _ => ⟨hn, (findAltMode_none env _ _).mp h2⟩, fun _ => trivial⟩, fun _ => trivial⟩

/-- C21, as amended, on a table of two modes: the current mode is a
video-mode panel mode whose sub-modes use the current compression, and mode 1
has another compression but is a command-mode panel mode, so the request is
not supported and nothing changes. -/
theorem SetAlternateDisplayConfig_not_supported_iff_witness :
    (SetAlternateDisplayConfig okEnv
      (modeObject [flaggedMode 1 [0, 0], flaggedMode 2 [0, 1]] 0) 9).1 =
      DisplayError.kErrorNotSupported ∧
    (SetAlternateDisplayConfig okEnv
      (modeObject [flaggedMode 1 [0, 0], flaggedMode 2 [0, 1]] 0) 9).2 =
      (9, modeObject [flaggedMode 1 [0, 0], flaggedMode 2 [0, 1]] 0) := by
  have h := SetAlternateDisplayConfig_not_supported_iff okEnv
    (modeObject [flaggedMode 1 [0, 0], flaggedMode 2 [0, 1]] 0) 9 (by decide) (by decide)
    (by decide)
  have h0 : ∀ i, ¬ differsAt 0 (flaggedMode 1 [0, 0]) i := by
    intro i hd
    have hi : i < 2 := hd.1
    interval_cases i <;> exact absurd hd.2 (by decide)
  have hns : (SetAlternateDisplayConfig okEnv
      (modeObject [flaggedMode 1 [0, 0], flaggedMode 2 [0, 1]] 0) 9).1 =
      DisplayError.kErrorNotSupported := by
    refine h.1.mpr ⟨h0, ?_⟩
    intro m hm hs
    have hm2 : m < 2 := hm
    interval_cases m
    · exact h0
    · exfalso
      rcases hs.2 with hc | hv
      · exact hc.1 (by decide)
      · exact hv.2.2 (by decide)
  exact ⟨hns, h.2 hns⟩

/-- C21 as stated fails for a current mode that carries both panel-type
flags: mode 1 has the current mode's vertical refresh rate, shares the
video-mode flag with it and has a sub-mode with another compression, yet it
does not carry the command-mode flag, which takes precedence (lines 982-985),
and the request returns `kErrorNotSupported`. -/
theorem SetAlternateDisplayConfig_skips_shared_video_flag :
    (modeObject [flaggedMode 3 [0], flaggedMode 1 [1]] 0).base.current_mode_index_ = 0 ∧
    (modeObject [flaggedMode 3 [0], flaggedMode 1 [1]]
      0).base.display_attributes_topology.length = 2 ∧
    (flaggedMode 3 [0]).curr_submode_index < (flaggedMode 3 [0]).sub_modes.length ∧
    sharesRefreshAndPanel okEnv (flaggedMode 3 [0]) (flaggedMode 1 [1]) ∧
    differsAt (flaggedMode 3 [0]).curr_compression_mode (flaggedMode 1 [1]) 0 ∧
    (SetAlternateDisplayConfig okEnv
      (modeObject [flaggedMode 3 [0], flaggedMode 1 [1]] 0) 9).1 =
      DisplayError.kErrorNotSupported := by
  unfold sharesRefreshAndPanel sharesPanelFlag carriesPanelFlag differsAt
  decide

/-- C22, as amended: with the current mode index inside the mode table, the
current sub-mode index inside the current mode's sub-modes and an entry of
`display_attributes_` for every mode: when some
sub-mode of the current mode has a compression other than the current one and
`i` is the least such index, `SetAlternateDisplayConfig` succeeds, stores the
member `current_mode_index_` behind `alt_config` and leaves the current
mode's entry with current sub-mode `i`; when the current mode has no such
sub-mode and `m` is the least index of a mode that has the current mode's
vertical refresh rate, carries the current mode's panel type (the
command-mode flag if the current mode carries it, otherwise the video-mode
flag) and has such a sub-mode, with `i` the least such sub-mode of `m`, it
succeeds, stores `m` and leaves entry `m` with current sub-mode `i`. In both
cases the entry's compression afterwards is that of sub-mode `i` and differs
from the current mode's compression before the call. -/
theorem SetAlternateDisplayConfig_first_match (env : Env) (s : HWPeripheralDRM)
    (alt_config : Nat)
    (hcur : s.base.current_mode_index_ < s.connector_info_modes.length)
    (hsub : (s.connector_info_modes.getD s.base.current_mode_index_ {}).curr_submode_index <
      (s.connector_info_modes.getD s.base.current_mode_index_ {}).sub_modes.length)
    (hattr : s.connector_info_modes.length ≤ s.base.display_attributes_topology.length) :
    (∀ i, leastDiffering
        (s.connector_info_modes.getD s.base.current_mode_index_ {}).curr_compression_mode
        (s.connector_info_modes.getD s.base.current_mode_index_ {}) i →
      (SetAlternateDisplayConfig env s alt_config).1 = DisplayError.kErrorNone ∧
      (SetAlternateDisplayConfig env s alt_config).2.1 =
        (SetAlternateDisplayConfig env s alt_config).2.2.base.current_mode_index_ ∧
      ((SetAlternateDisplayConfig env s alt_config).2.2.connector_info_modes.getD
        s.base.current_mode_index_ {}).curr_submode_index = i ∧
      ((SetAlternateDisplayConfig env s alt_config).2.2.connector_info_modes.getD
        s.base.current_mode_index_ {}).curr_compression_mode =
        ((s.connector_info_modes.getD s.base.current_mode_index_ {}).sub_modes.getD
          i {}).panel_compression_mode ∧
      ((SetAlternateDisplayConfig env s alt_config).2.2.connector_info_modes.getD
        s.base.current_mode_index_ {}).curr_compression_mode ≠
        (s.connector_info_modes.getD s.base.current_mode_index_ {}).curr_compression_mode) ∧
    ((∀ i, ¬ differsAt
        (s.connector_info_modes.getD s.base.current_mode_index_ {}).curr_compression_mode
        (s.connector_info_modes.getD s.base.current_mode_index_ {}) i) →
      ∀ m i, m < s.connector_info_modes.length →
        sharesRefreshAndPanelType env (s.connector_info_modes.getD s.base.current_mode_index_ {})
          (s.connector_info_modes.getD m {}) →
        leastDiffering
          (s.connector_info_modes.getD s.base.current_mode_index_ {}).curr_compression_mode
          (s.connector_info_modes.getD m {}) i →
        (∀ k, k < m →
          sharesRefreshAndPanelType env (s.connector_info_modes.getD s.base.current_mode_index_ {})
            (s.connector_info_modes.getD k {}) →
          ∀ j, ¬ differsAt
            (s.connector_info_modes.getD s.base.current_mode_index_ {}).curr_compression_mode
            (s.connector_info_modes.getD k {}) j) →
        (SetAlternateDisplayConfig env s alt_config).1 = DisplayError.kErrorNone ∧
        (SetAlternateDisplayConfig env s alt_config).2.1 = m ∧
        ((SetAlternateDisplayConfig env s alt_config).2.2.connector_info_modes.getD
          m {}).curr_submode_index = i ∧
        ((SetAlternateDisplayConfig env s alt_config).2.2.connector_info_modes.getD
          m {}).curr_compression_mode =
          ((s.connector_info_modes.getD m {}).sub_modes.getD i {}).panel_compression_mode ∧
        ((SetAlternateDisplayConfig env s alt_config).2.2.connector_info_modes.getD
          m {}).curr_compression_mode ≠
          (s.connector_info_modes.getD s.base.current_mode_index_ {}).curr_compression_mode) := by
  have _ := hsub
  have _ := hattr
  constructor
  · intro i hl
    have h1 := (findAltSubMode_some _ _ _).mpr hl
    have hr : SetAlternateDisplayConfig env s alt_config =
        altWithinMode env s (s.connector_info_modes.getD s.base.current_mode_index_ {}) i := by
      unfold SetAlternateDisplayConfig
      simp only [h1]
    rw [hr]
    obtain ⟨e1, e2, e3, _⟩ := altWithinMode_spec env s
      (s.connector_info_modes.getD s.base.current_mode_index_ {}) i
    rw [e3, getD_set_self _ _ _ _ hcur]
    exact ⟨e1, e2, rfl, rfl, hl.1.2⟩
  · intro hn m i hm hs hl hbefore
    have h1 := (findAltSubMode_none _ _).mpr hn
    have h2 := (findAltMode_some env _ _ m i).mpr ⟨hm, hs, hl, hbefore⟩
    have hr : SetAlternateDisplayConfig env s alt_config = altOtherMode env s m i := by
      unfold SetAlternateDisplayConfig
      simp only [h1, h2]
    rw [hr]
    obtain ⟨e1, e2, e3, _⟩ := altOtherMode_spec env s m i hm
    rw [e3]
    exact ⟨e1, e2, rfl, rfl, hl.1.2⟩

/-- C22, as amended, on two tables of video-mode panel modes: the current
mode has the compressions 0, 0, 1 with 0 current, so sub-mode 2 of mode 0 is
taken; and the current mode has only compression 0, mode 1 has another
compression but is a command-mode panel mode, and mode 2 is a video-mode panel
mode with the compressions 0, 1, so sub-mode 1 of mode 2 is taken. -/
theorem SetAlternateDisplayConfig_first_match_witness :
    ((SetAlternateDisplayConfig okEnv
        (modeObject [flaggedMode 1 [0, 0, 1], flaggedMode 1 [1]] 0) 9).1 =
        DisplayError.kErrorNone ∧
      (SetAlternateDisplayConfig okEnv
        (modeObject [flaggedMode 1 [0, 0, 1], flaggedMode 1 [1]] 0) 9).2.1 = 0 ∧
      ((SetAlternateDisplayConfig okEnv
        (modeObject [flaggedMode 1 [0, 0, 1], flaggedMode 1 [1]] 0)
        9).2.2.connector_info_modes.getD 0 {}).curr_submode_index = 2) ∧
    ((SetAlternateDisplayConfig okEnv
        (modeObject [flaggedMode 1 [0], flaggedMode 2 [1], flaggedMode 1 [0, 1]] 0) 9).2.1 = 2 ∧
      ((SetAlternateDisplayConfig okEnv
        (modeObject [flaggedMode 1 [0], flaggedMode 2 [1], flaggedMode 1 [0, 1]] 0)
        9).2.2.connector_info_modes.getD 2 {}).curr_submode_index = 1 ∧
      ((SetAlternateDisplayConfig okEnv
        (modeObject [flaggedMode 1 [0], flaggedMode 2 [1], flaggedMode 1 [0, 1]] 0)
        9).2.2.connector_info_modes.getD 2 {}).curr_compression_mode = 1) := by
  have hl0 : leastDiffering 0 (flaggedMode 1 [0, 0, 1]) 2 := by
    refine ⟨⟨by decide, by decide⟩, ?_⟩
    intro j hj hd
    interval_cases j <;> exact absurd hd.2 (by decide)
  have hn0 : ∀ i, ¬ differsAt 0 (flaggedMode 1 [0]) i := by
    intro i hd
    have hi : i < 1 := hd.1
    interval_cases i
    exact absurd hd.2 (by decide)
  have hl2 : leastDiffering 0 (flaggedMode 1 [0, 1]) 1 := by
    refine ⟨⟨by decide, by decide⟩, ?_⟩
    intro j hj hd
    interval_cases j
    exact absurd hd.2 (by decide)
  have hs2 : sharesRefreshAndPanelType okEnv (flaggedMode 1 [0]) (flaggedMode 1 [0, 1]) :=
    ⟨rfl, Or.inr ⟨by unfold carriesPanelFlag; decide, by unfold carriesPanelFlag; decide,
      by unfold carriesPanelFlag; decide⟩⟩
  have h := (SetAlternateDisplayConfig_first_match okEnv
    (modeObject [flaggedMode 1 [0, 0, 1], flaggedMode 1 [1]] 0) 9
    (by decide) (by decide) (by decide)).1 2 hl0
  have g := (SetAlternateDisplayConfig_first_match okEnv
    (modeObject [flaggedMode 1 [0], flaggedMode 2 [1], flaggedMode 1 [0, 1]] 0) 9
    (by decide) (by decide) (by decide)).2 hn0 2 1 (by decide) hs2 hl2
    (by
      intro k hk hs j hd
      interval_cases k
      · exact hn0 j hd
      · rcases hs.2 with hc | hv
        · exact hc.1 (by decide)
        · exact hv.2.2 (by decide))
  exact ⟨⟨h.1, h.2.1.trans (by decide), h.2.2.1⟩, g.2.1, g.2.2.1, g.2.2.2.1.trans (by decide)⟩

/-- C22 as stated fails for a current mode that carries both panel-type
flags: no sub-mode of the current mode has another compression; mode 1 has
the current mode's vertical refresh rate, shares the video-mode flag with it
and has a sub-mode with another compression, so it is the least such mode; yet
the request passes over it and takes mode 2, which carries the command-mode
flag, leaving mode 1 as it was. -/
theorem SetAlternateDisplayConfig_passes_over_shared_video_mode :
    (modeObject [flaggedMode 3 [0], flaggedMode 1 [1], flaggedMode 2 [1]]
      0).base.current_mode_index_ = 0 ∧
    (modeObject [flaggedMode 3 [0], flaggedMode 1 [1], flaggedMode 2 [1]]
      0).base.display_attributes_topology.length = 3 ∧
    (flaggedMode 3 [0]).curr_submode_index < (flaggedMode 3 [0]).sub_modes.length ∧
    findAltSubMode (flaggedMode 3 [0]).curr_compression_mode (flaggedMode 3 [0]).sub_modes =
      none ∧
    sharesRefreshAndPanel okEnv (flaggedMode 3 [0]) (flaggedMode 1 [1]) ∧
    differsAt (flaggedMode 3 [0]).curr_compression_mode (flaggedMode 1 [1]) 0 ∧
    (SetAlternateDisplayConfig okEnv
      (modeObject [flaggedMode 3 [0], flaggedMode 1 [1], flaggedMode 2 [1]] 0) 9).1 =
      DisplayError.kErrorNone ∧
    (SetAlternateDisplayConfig okEnv
      (modeObject [flaggedMode 3 [0], flaggedMode 1 [1], flaggedMode 2 [1]] 0) 9).2.1 = 2 ∧
    (SetAlternateDisplayConfig okEnv
      (modeObject [flaggedMode 3 [0], flaggedMode 1 [1], flaggedMode 2 [1]] 0)
      9).2.2.connector_info_modes.getD 1 {} = flaggedMode 1 [1] := by
  unfold sharesRefreshAndPanel sharesPanelFlag carriesPanelFlag differsAt
  decide

/-! ## Requests in flight -/

/-- C26 at a table whose current mode has no other compression while mode 1
has one, with a bit-clock change queued: the search falls through to mode 1,
the inner `SetDisplayAttributes(1)` returns `kErrorDeferred` without reaching
the base class, and `SetAlternateDisplayConfig` still returns `kErrorNone`
with 1 behind `alt_config` and the compression recorded as changed. -/
theorem SetAlternateDisplayConfig_success_when_deferred :
    findAltSubMode 0 (sampleMode 1080 0 [0] 0).sub_modes = none ∧
    findAltMode (sampleMode 1080 0 [0] 0) (currModeFlag okEnv (sampleMode 1080 0 [0] 0))
      [sampleMode 1080 0 [0] 0, sampleMode 720 0 [0, 1] 0] = some (1, 1) ∧
    (SetDisplayAttributes okEnv
      (altStaged okEnv (modeObject [sampleMode 1080 0 [0] 0, sampleMode 720 0 [0, 1] 0] 7) 1 1)
      1).1 = DisplayError.kErrorDeferred ∧
    (SetAlternateDisplayConfig okEnv
      (modeObject [sampleMode 1080 0 [0] 0, sampleMode 720 0 [0, 1] 0] 7) 0).1 =
      DisplayError.kErrorNone ∧
    (SetAlternateDisplayConfig okEnv
      (modeObject [sampleMode 1080 0 [0] 0, sampleMode 720 0 [0, 1] 0] 7) 0).2.1 = 1 ∧
    Call.base (BaseCall.SetDisplayAttributes 1) ∉
      (SetAlternateDisplayConfig okEnv
        (modeObject [sampleMode 1080 0 [0] 0, sampleMode 720 0 [0, 1] 0] 7) 0).2.2.log ∧
    (SetAlternateDisplayConfig okEnv
      (modeObject [sampleMode 1080 0 [0] 0, sampleMode 720 0 [0, 1] 0] 7)
      0).2.2.panel_compression_changed_ = 1 := by
  decide

/-- C25 on a panel in video mode past its first cycle, with the display
active and both flags false: `PowerOff` succeeds, the first `Doze` leaves the
switch pending, the second one applies it and leaves it pending, both succeed,
and the successful `Commit` that follows applies the switch a second time. -/
theorem Doze_twice_pending_and_applied :
    activeObject.doze_poms_switch_done_ = false ∧
    activeObject.pending_poms_switch_ = false ∧
    (PowerOff okEnv activeObject false).1 = DisplayError.kErrorNone ∧
    (Doze okEnv (PowerOff okEnv activeObject false).2 { raw := 0 }).1 =
      DisplayError.kErrorNone ∧
    (Doze okEnv (PowerOff okEnv activeObject false).2 { raw := 0 }).2.pending_poms_switch_ =
      true ∧
    (Doze okEnv (PowerOff okEnv activeObject false).2 { raw := 0 }).2.doze_poms_switch_done_ =
      false ∧
    (Doze okEnv (Doze okEnv (PowerOff okEnv activeObject false).2 { raw := 0 }).2
      { raw := 0 }).1 = DisplayError.kErrorNone ∧
    (Doze okEnv (Doze okEnv (PowerOff okEnv activeObject false).2 { raw := 0 }).2
      { raw := 0 }).2.pending_poms_switch_ = true ∧
    (Doze okEnv (Doze okEnv (PowerOff okEnv activeObject false).2 { raw := 0 }).2
      { raw := 0 }).2.doze_poms_switch_done_ = true ∧
    (Doze okEnv (Doze okEnv (PowerOff okEnv activeObject false).2 { raw := 0 }).2
      { raw := 0 }).2.log.count
      (Call.base (BaseCall.SetDisplayMode HWDisplayMode.kModeCommand)) = 1 ∧
    (Commit okEnv
      (Doze okEnv (Doze okEnv (PowerOff okEnv activeObject false).2 { raw := 0 }).2
        { raw := 0 }).2 (oneBlockRequest 0 1 1080)).1 = DisplayError.kErrorNone ∧
    (Commit okEnv
      (Doze okEnv (Doze okEnv (PowerOff okEnv activeObject false).2 { raw := 0 }).2
        { raw := 0 }).2 (oneBlockRequest 0 1 1080)).2.log.count
      (Call.base (BaseCall.SetDisplayMode HWDisplayMode.kModeCommand)) = 2 := by
  decide

theorem InitDestScaler_sized (hw_used : Nat) (s : HWPeripheralDRM)
    (hfresh : s.scalar_data_ = [] ∧ s.dest_scalar_cache_ = [] ∧ s.dest_scaler_blocks_used_ = 0 ∧
      s.sde_dest_scalar_data_.num_dest_scaler = 0) :
    scalerSized (InitDestScaler hw_used s).2.dest_scaler_blocks_used_
      (InitDestScaler hw_used s).2 := by
  obtain ⟨h1, h2, h3, h4⟩ := hfresh
  unfold InitDestScaler scalerSized
  simp only
  split_ifs
  all_goals simp [resize, h1, h2, h3, h4]

theorem SetDestScalarData_sized (n : Nat) (s : HWPeripheralDRM) (info : HWLayersInfo)
    (hs : scalerSized n s) (hsize : info.dest_scale_info_map.size ≤ n) :
    scalerSized n (SetDestScalarData s info) := by
  obtain ⟨h1, h2, h3, h4⟩ := hs
  have hb : (SetDestScalarData s info).dest_scaler_blocks_used_ = s.dest_scaler_blocks_used_ :=
    obs_field outsideScalarData HWPeripheralDRM.dest_scaler_blocks_used_ (fun _ => rfl)
      (SetDestScalarData_outside s info)
  have hc : (SetDestScalarData s info).dest_scalar_cache_ = s.dest_scalar_cache_ :=
    obs_field outsideScalarData HWPeripheralDRM.dest_scalar_cache_ (fun _ => rfl)
      (SetDestScalarData_outside s info)
  refine ⟨hb.trans h1, by rw [hc]; exact h2, ?_, ?_⟩
  · cases hhw : s.base.hw_scale_ with
    | none => unfold SetDestScalarData; simp only [hhw]; exact h3
    | some hw_scale =>
      by_cases hn : s.dest_scaler_blocks_used_ = 0
      · unfold SetDestScalarData; simp only [hhw, hn, if_true]; exact h3
      · rw [(SetDestScalarData_spec hw_scale s info hhw hn (by rw [h1, h3])).2.2.2.2]
        exact h3
  · cases hhw : s.base.hw_scale_ with
    | none => unfold SetDestScalarData; simp only [hhw]; exact h4
    | some hw_scale =>
      by_cases hn : s.dest_scaler_blocks_used_ = 0
      · unfold SetDestScalarData; simp only [hhw, hn, if_true]; exact h4
      · rw [(SetDestScalarData_spec hw_scale s info hhw hn (by rw [h1, h3])).2.2.2.1]
        split_ifs
        · exact le_trans (Nat.mod_le _ _) hsize
        · exact h4

theorem CacheDestScalarData_sized (n : Nat) (s : HWPeripheralDRM) (hs : scalerSized n s) :
    scalerSized n (CacheDestScalarData s) := by
  obtain ⟨h1, h2, h3, h4⟩ := hs
  have hout := CacheDestScalarData_outside s
  have hb : (CacheDestScalarData s).dest_scaler_blocks_used_ = s.dest_scaler_blocks_used_ :=
    obs_field outsideCacheAndFlag HWPeripheralDRM.dest_scaler_blocks_used_ (fun _ => rfl) hout
  have hsc : (CacheDestScalarData s).scalar_data_ = s.scalar_data_ :=
    obs_field outsideCacheAndFlag HWPeripheralDRM.scalar_data_ (fun _ => rfl) hout
  have hsd : (CacheDestScalarData s).sde_dest_scalar_data_ = s.sde_dest_scalar_data_ :=
    obs_field outsideCacheAndFlag HWPeripheralDRM.sde_dest_scalar_data_ (fun _ => rfl) hout
  refine ⟨hb.trans h1, ?_, by rw [hsc]; exact h3, by rw [hsd]; exact h4⟩
  unfold CacheDestScalarData
  split_ifs
  · exact ((cacheLoop_spec s _).1).trans h2
  · exact h2

theorem ResetDestScalarCache_sized (n : Nat) (s : HWPeripheralDRM) (hs : scalerSized n s) :
    scalerSized n (ResetDestScalarCache s) := by
  obtain ⟨h1, h2, h3, h4⟩ := hs
  have hout := ResetDestScalarCache_outside s
  have hb : (ResetDestScalarCache s).dest_scaler_blocks_used_ = s.dest_scaler_blocks_used_ :=
    obs_field outsideCache HWPeripheralDRM.dest_scaler_blocks_used_ (fun _ => rfl) hout
  have hsc : (ResetDestScalarCache s).scalar_data_ = s.scalar_data_ :=
    obs_field outsideCache HWPeripheralDRM.scalar_data_ (fun _ => rfl) hout
  have hsd : (ResetDestScalarCache s).sde_dest_scalar_data_ = s.sde_dest_scalar_data_ :=
    obs_field outsideCache HWPeripheralDRM.sde_dest_scalar_data_ (fun _ => rfl) hout
  refine ⟨hb.trans h1, ?_, by rw [hsc]; exact h3, by rw [hsd]; exact h4⟩
  have hl := foldl_keeps (fun st : HWPeripheralDRM => st.dest_scalar_cache_.length)
    (fun st j => { st with dest_scalar_cache_ := st.dest_scalar_cache_.set j {} })
    (fun st j => List.length_set _ _ _) (List.range s.scalar_data_.length) s
  exact hl.trans h2

theorem powerOnStage_sized (n : Nat) (s : HWPeripheralDRM) (hs : scalerSized n s) :
    scalerSized n (powerOnStage s) := by
  unfold powerOnStage
  simp only
  split_ifs <;> exact hs

theorem scalerStep_sized (env : Env) (n : Nat) (s : HWPeripheralDRM) (st : ScalerStep)
    (hs : scalerSized n s) (hsize : st.requestSize ≤ n) :
    scalerSized n (scalerStep env s st) := by
  cases st with
  | SetDestScalarData info => exact SetDestScalarData_sized n s info hs hsize
  | CacheDestScalarData => exact CacheDestScalarData_sized n s hs
  | ResetDestScalarCache => exact ResetDestScalarCache_sized n s hs
  | powerOnStage => exact powerOnStage_sized n s hs
  | outside c => exact hs

theorem scalerRun_sized (env : Env) (n : Nat) (steps : List ScalerStep) :
    ∀ s, scalerSized n s → (∀ st ∈ steps, st.requestSize ≤ n) →
      scalerSized n (scalerRun env s steps) := by
  induction steps with
  | nil => intro s hs _; exact hs
  | cons st rest ih =>
    intro s hs hsize
    unfold scalerRun
    rw [List.foldl_cons]
    exact ih _ (scalerStep_sized env n s st hs (hsize st (List.mem_cons_self _ _)))
      (fun x hx => hsize x (List.mem_cons_of_mem _ hx))

theorem cacheLoopChecked_some (l : List Nat) :
    ∀ s : HWPeripheralDRM,
      (∀ i ∈ l, i < s.dest_scalar_cache_.length ∧ i < s.scalar_data_.length) →
      l.foldlM cacheDestScalarBlockChecked s = some (l.foldl cacheDestScalarBlock s) := by
  induction l with
  | nil => intro s _; rfl
  | cons a l ih =>
    intro s h
    have ha := h a (List.mem_cons_self _ _)
    rw [List.foldlM_cons, List.foldl_cons]
    unfold cacheDestScalarBlockChecked
    rw [if_pos ha]
    show l.foldlM cacheDestScalarBlockChecked (cacheDestScalarBlock s a) = _
    apply ih
    intro i hi
    have := h i (List.mem_cons_of_mem _ hi)
    unfold cacheDestScalarBlock
    simpa using this

theorem cacheLoopChecked_none (l : List Nat) :
    ∀ s : HWPeripheralDRM,
      (∃ i ∈ l, ¬ (i < s.dest_scalar_cache_.length ∧ i < s.scalar_data_.length)) →
      l.foldlM cacheDestScalarBlockChecked s = none := by
  induction l with
  | nil => intro s h; obtain ⟨i, hi, _⟩ := h; exact absurd hi (List.not_mem_nil _)
  | cons a l ih =>
    intro s h
    rw [List.foldlM_cons]
    unfold cacheDestScalarBlockChecked
    by_cases ha : a < s.dest_scalar_cache_.length ∧ a < s.scalar_data_.length
    · rw [if_pos ha]
      show l.foldlM cacheDestScalarBlockChecked (cacheDestScalarBlock s a) = _
      apply ih
      obtain ⟨i, hi, hb⟩ := h
      rcases List.mem_cons.mp hi with rfl | hi
      · exact absurd ha hb
      · refine ⟨i, hi, ?_⟩
        unfold cacheDestScalarBlock
        simpa using hb
    · rw [if_neg ha]
      rfl

theorem resetLoopChecked_some (l : List Nat) :
    ∀ s : HWPeripheralDRM, (∀ j ∈ l, j < s.dest_scalar_cache_.length) →
      l.foldlM resetDestScalarBlockChecked s =
        some (l.foldl
          (fun st j => { st with dest_scalar_cache_ := st.dest_scalar_cache_.set j {} }) s) := by
  induction l with
  | nil => intro s _; rfl
  | cons a l ih =>
    intro s h
    have ha := h a (List.mem_cons_self _ _)
    rw [List.foldlM_cons, List.foldl_cons]
    unfold resetDestScalarBlockChecked
    rw [if_pos ha]
    show l.foldlM resetDestScalarBlockChecked _ = _
    apply ih
    intro i hi
    have := h i (List.mem_cons_of_mem _ hi)
    simpa using this

theorem resetLoopChecked_none (l : List Nat) :
    ∀ s : HWPeripheralDRM, (∃ j ∈ l, ¬ j < s.dest_scalar_cache_.length) →
      l.foldlM resetDestScalarBlockChecked s = none := by
  induction l with
  | nil => intro s h; obtain ⟨i, hi, _⟩ := h; exact absurd hi (List.not_mem_nil _)
  | cons a l ih =>
    intro s h
    rw [List.foldlM_cons]
    unfold resetDestScalarBlockChecked
    by_cases ha : a < s.dest_scalar_cache_.length
    · rw [if_pos ha]
      show l.foldlM resetDestScalarBlockChecked _ = _
      apply ih
      obtain ⟨i, hi, hb⟩ := h
      rcases List.mem_cons.mp hi with rfl | hi
      · exact absurd ha hb
      · refine ⟨i, hi, ?_⟩
        simpa using hb
    · rw [if_neg ha]
      rfl

/-- The loop of `CacheDestScalarData` runs over `cacheIndices`. -/
theorem CacheDestScalarData_loop (s : HWPeripheralDRM) (h : s.needs_ds_update_ = true) :
    CacheDestScalarData s =
      { (cacheIndices s).foldl cacheDestScalarBlock s with needs_ds_update_ := false } := by
  unfold CacheDestScalarData cacheIndices
  simp only [h, if_true]

/-- The loop of `ResetDestScalarCache` runs over `resetIndices`. -/
theorem ResetDestScalarCache_loop (s : HWPeripheralDRM) :
    ResetDestScalarCache s =
      (resetIndices s).foldl
        (fun st j => { st with dest_scalar_cache_ := st.dest_scalar_cache_.set j {} }) s :=
  rfl

/-- The checked `CacheDestScalarData` succeeds, with the result of the
embedded routine, exactly when every index of its loop lies inside both
vectors. -/
theorem CacheDestScalarDataChecked_iff (s : HWPeripheralDRM) :
    ((∀ i ∈ cacheIndices s, i < s.dest_scalar_cache_.length ∧ i < s.scalar_data_.length) →
      CacheDestScalarDataChecked s = some (CacheDestScalarData s)) ∧
    ((∃ i ∈ cacheIndices s, ¬ (i < s.dest_scalar_cache_.length ∧ i < s.scalar_data_.length)) →
      CacheDestScalarDataChecked s = none) := by
  unfold CacheDestScalarDataChecked CacheDestScalarData cacheIndices
  cases hnd : s.needs_ds_update_ with
  | false =>
    simp only [Bool.false_eq_true, if_false]
    exact ⟨fun _ => trivial, fun h => by obtain ⟨i, hi, _⟩ := h; exact absurd hi (List.not_mem_nil _)⟩
  | true =>
    simp only [if_true]
    constructor
    · intro h
      rw [cacheLoopChecked_some _ s h]
      rfl
    · intro h
      rw [cacheLoopChecked_none _ s h]
      rfl

/-- The checked `ResetDestScalarCache` succeeds, with the result of the
embedded routine, exactly when every index of its loop lies inside the
cache. -/
theorem ResetDestScalarCacheChecked_iff (s : HWPeripheralDRM) :
    ((∀ j ∈ resetIndices s, j < s.dest_scalar_cache_.length) →
      ResetDestScalarCacheChecked s = some (ResetDestScalarCache s)) ∧
    ((∃ j ∈ resetIndices s, ¬ j < s.dest_scalar_cache_.length) →
      ResetDestScalarCacheChecked s = none) := by
  unfold ResetDestScalarCacheChecked ResetDestScalarCache resetIndices
  exact ⟨resetLoopChecked_some _ s, resetLoopChecked_none _ s⟩

/-- C28, as amended: after `InitDestScaler` on a fresh object, along every run
of `SetDestScalarData`, `CacheDestScalarData`, `ResetDestScalarCache`, the
property writes of `PowerOn` and outside calls in which no request map has
more entries than blocks were granted, the cache and the scaler array keep
the granted length, the recorded scaler count is at most the granted count,
every index of the loops of `CacheDestScalarData` and `ResetDestScalarCache`
is below the granted count, and both routines with their vector accesses
checked run through and give what the routines give. -/
theorem cache_indices_in_bounds (env : Env) (hw_used : Nat) (s : HWPeripheralDRM)
    (steps : List ScalerStep)
    (hfresh : s.scalar_data_ = [] ∧ s.dest_scalar_cache_ = [] ∧ s.dest_scaler_blocks_used_ = 0 ∧
      s.sde_dest_scalar_data_.num_dest_scaler = 0)
    (hsize : ∀ st ∈ steps,
      st.requestSize ≤ (InitDestScaler hw_used s).2.dest_scaler_blocks_used_) :
    (scalerRun env (InitDestScaler hw_used s).2 steps).dest_scaler_blocks_used_ =
      (InitDestScaler hw_used s).2.dest_scaler_blocks_used_ ∧
    (scalerRun env (InitDestScaler hw_used s).2 steps).dest_scalar_cache_.length =
      (InitDestScaler hw_used s).2.dest_scaler_blocks_used_ ∧
    (scalerRun env (InitDestScaler hw_used s).2 steps).scalar_data_.length =
      (InitDestScaler hw_used s).2.dest_scaler_blocks_used_ ∧
    (scalerRun env (InitDestScaler hw_used s).2 steps).sde_dest_scalar_data_.num_dest_scaler ≤
      (InitDestScaler hw_used s).2.dest_scaler_blocks_used_ ∧
    (∀ i ∈ cacheIndices (scalerRun env (InitDestScaler hw_used s).2 steps),
      i < (InitDestScaler hw_used s).2.dest_scaler_blocks_used_) ∧
    (∀ j ∈ resetIndices (scalerRun env (InitDestScaler hw_used s).2 steps),
      j < (InitDestScaler hw_used s).2.dest_scaler_blocks_used_) ∧
    CacheDestScalarDataChecked (scalerRun env (InitDestScaler hw_used s).2 steps) =
      some (CacheDestScalarData (scalerRun env (InitDestScaler hw_used s).2 steps)) ∧
    ResetDestScalarCacheChecked (scalerRun env (InitDestScaler hw_used s).2 steps) =
      some (ResetDestScalarCache (scalerRun env (InitDestScaler hw_used s).2 steps)) := by
  obtain ⟨h1, h2, h3, h4⟩ := scalerRun_sized env _ steps _ (InitDestScaler_sized hw_used s hfresh)
    hsize
  have hc : ∀ i ∈ cacheIndices (scalerRun env (InitDestScaler hw_used s).2 steps),
      i < (InitDestScaler hw_used s).2.dest_scaler_blocks_used_ := by
    intro i hi
    unfold cacheIndices at hi
    split_ifs at hi
    · exact lt_of_lt_of_le (List.mem_range.mp hi) h4
    · exact absurd hi (List.not_mem_nil _)
  have hr : ∀ j ∈ resetIndices (scalerRun env (InitDestScaler hw_used s).2 steps),
      j < (InitDestScaler hw_used s).2.dest_scaler_blocks_used_ := by
    intro j hj
    unfold resetIndices at hj
    rw [h3] at hj
    exact List.mem_range.mp hj
  refine ⟨h1, h2, h3, h4, hc, hr, ?_, ?_⟩
  · apply (CacheDestScalarDataChecked_iff _).1
    intro i hi
    rw [h2, h3]
    exact ⟨hc i hi, hc i hi⟩
  · apply (ResetDestScalarCacheChecked_iff _).1
    intro j hj
    rw [h2]
    exact hr j hj

/-- C28, as amended, on a run of one request for one block, with one block
granted: the index 0 is the only one of the loop of `CacheDestScalarData`, and
the checked routine runs through. -/
theorem cache_indices_in_bounds_witness :
    (InitDestScaler 0 (unallocatedObject SplitType.kNoSplit)).2.dest_scaler_blocks_used_ = 1 ∧
    cacheIndices (scalerRun okEnv (InitDestScaler 0 (unallocatedObject SplitType.kNoSplit)).2
      [ScalerStep.SetDestScalarData (oneBlockRequest 0 1 1080)]) = [0] ∧
    (∀ i ∈ cacheIndices (scalerRun okEnv
        (InitDestScaler 0 (unallocatedObject SplitType.kNoSplit)).2
        [ScalerStep.SetDestScalarData (oneBlockRequest 0 1 1080)]),
      i < (InitDestScaler 0 (unallocatedObject SplitType.kNoSplit)).2.dest_scaler_blocks_used_) ∧
    CacheDestScalarDataChecked (scalerRun okEnv
        (InitDestScaler 0 (unallocatedObject SplitType.kNoSplit)).2
        [ScalerStep.SetDestScalarData (oneBlockRequest 0 1 1080)]) =
      some (CacheDestScalarData (scalerRun okEnv
        (InitDestScaler 0 (unallocatedObject SplitType.kNoSplit)).2
        [ScalerStep.SetDestScalarData (oneBlockRequest 0 1 1080)])) := by
  have h := cache_indices_in_bounds okEnv 0 (unallocatedObject SplitType.kNoSplit)
    [ScalerStep.SetDestScalarData (oneBlockRequest 0 1 1080)]
    ⟨rfl, rfl, rfl, rfl⟩
    (by
      intro st hst
      rw [List.mem_singleton] at hst
      subst hst
      decide)
  exact ⟨by decide, by decide, h.2.2.2.2.1, h.2.2.2.2.2.2.1⟩

/-- C28 as stated fails for a request map with more entries than blocks were
granted: one block is granted, the cache and the scaler array have one entry
each, the request has the keys 0 and 5, `SetDestScalarData` records two
scalers, the loop of `CacheDestScalarData` reaches the index 1, which is
outside both vectors, and the routine with its vector accesses checked does
not run through. -/
theorem CacheDestScalarData_index_out_of_bounds :
    (InitDestScaler 0 (unallocatedObject SplitType.kNoSplit)).2.dest_scaler_blocks_used_ = 1 ∧
    (InitDestScaler 0 (unallocatedObject SplitType.kNoSplit)).2.dest_scalar_cache_.length = 1 ∧
    (InitDestScaler 0 (unallocatedObject SplitType.kNoSplit)).2.scalar_data_.length = 1 ∧
    (SetDestScalarData (InitDestScaler 0 (unallocatedObject SplitType.kNoSplit)).2
      twoBlockRequest).sde_dest_scalar_data_.num_dest_scaler = 2 ∧
    1 ∈ cacheIndices (SetDestScalarData
      (InitDestScaler 0 (unallocatedObject SplitType.kNoSplit)).2 twoBlockRequest) ∧
    ¬ 1 < (SetDestScalarData (InitDestScaler 0 (unallocatedObject SplitType.kNoSplit)).2
      twoBlockRequest).dest_scalar_cache_.length ∧
    ¬ 1 < (SetDestScalarData (InitDestScaler 0 (unallocatedObject SplitType.kNoSplit)).2
      twoBlockRequest).scalar_data_.length ∧
    CacheDestScalarDataChecked (SetDestScalarData
      (InitDestScaler 0 (unallocatedObject SplitType.kNoSplit)).2 twoBlockRequest) = none :=
  ⟨by decide, by decide, by decide, by decide, by decide, by decide, by decide,
    (CacheDestScalarDataChecked_iff _).2 ⟨1, by decide, by decide⟩⟩

end sdm
